import Mathlib

/-!
# Motor-control inner loop (`Firmware/MotorControl/controller.cpp`)

A shallow embedding of `Controller` and of its per-tick procedure
`Controller::update`, followed by theorems about it.

Conventions of the embedding:

* `float` values are exact rationals (`ℚ`); rounding, infinities and NaN are
  not modelled.  Division by zero yields `0` as everywhere in Mathlib.
* `std::clamp`, `std::abs`, `std::min` and `std::copysignf` are the usual
  library functions, written out below.
* Pointers to members of other objects are replaced by the value they give
  access to.  `axis_` is the owning axis, held by value inside the
  controller.  The six estimate-source pointers are written only by
  `select_encoder`, all together, so they are represented by the index of the
  axis whose encoder they point to (`none` while they are all null).
* `return set_error(E), false` inside `update` becomes `Except.error (E, c')`
  with `c'` the controller after `set_error(E)`; the kind `E` is kept next to
  the state so that theorems can name the error that was raised.
-/

namespace ODrive

/-! ## Library functions -/

/-- The function `std::clamp(v, lo, hi)`: `(v < lo) ? lo : (hi < v) ? hi : v`. -/
def clamp (v lo hi : ℚ) : ℚ :=
  if v < lo then lo else if hi < v then hi else v

/-- The function `std::copysignf(x, y)`: magnitude of `x`, sign of `y`
(the rationals have no negative zero). -/
def copysignf (x y : ℚ) : ℚ :=
  if y < 0 then -|x| else |x|

/-- Modelled from the spec: `fmodf_pos` is declared in a utility header that is
not part of the sources at hand.  The spec describes it as folding a value into
`[0, range)` (`frac(pos, 1.0)` with result in `[0,1)` for `range = 1`). -/
def fmodf_pos (x y : ℚ) : ℚ :=
  x - y * (⌊x / y⌋ : ℤ)

/-- Modelled from the spec: `wrap_pm` is declared in a utility header that is
not part of the sources at hand.  The spec describes it as "the signed
representative in `[−wrap/2, wrap/2)`". -/
def wrap_pm (x y : ℚ) : ℚ :=
  x - y * (⌊x / y + 1 / 2⌋ : ℤ)

/-- The conversion `(size_t)x` of a non-negative float: truncation. -/
def to_size_t (x : ℚ) : Nat :=
  Int.toNat ⌊x⌋

/-! ## Enumerations

The enumerators are declared in headers outside the sources at hand; the
numbers of `InputMode` and `ControlMode` are those of the spec's §6. -/

def INPUT_MODE_INACTIVE : Nat := 0
def INPUT_MODE_PASSTHROUGH : Nat := 1
def INPUT_MODE_VEL_RAMP : Nat := 2
def INPUT_MODE_POS_FILTER : Nat := 3
def INPUT_MODE_TRAP_TRAJ : Nat := 5
def INPUT_MODE_TORQUE_RAMP : Nat := 6
def INPUT_MODE_MIRROR : Nat := 7

def CONTROL_MODE_VOLTAGE_CONTROL : Nat := 0
def CONTROL_MODE_TORQUE_CONTROL : Nat := 1
def CONTROL_MODE_VELOCITY_CONTROL : Nat := 2
def CONTROL_MODE_POSITION_CONTROL : Nat := 3

/-- Modelled from the spec: the `ErrorKind` bitmask of §7; every kind is one
bit, numbered in the order of the table (the numeric values live in a header
outside the sources at hand). -/
def ERROR_NONE : Nat := 0
def ERROR_OVERSPEED : Nat := 1
def ERROR_INVALID_INPUT_MODE : Nat := 2
def ERROR_INVALID_MIRROR_AXIS : Nat := 4
def ERROR_INVALID_LOAD_ENCODER : Nat := 8
def ERROR_INVALID_ESTIMATE : Nat := 16
def ERROR_INVALID_CIRCULAR_RANGE : Nat := 32

/-- Modelled from the spec: the axis-level `CONTROLLER_FAILED` bit of §4.5
(declared with the `Axis` class, outside the sources at hand). -/
def Axis.ERROR_CONTROLLER_FAILED : Nat := 512

def Axis.ERROR_NONE : Nat := 0

/-- Modelled from the spec: the `Motor::MOTOR_TYPE_ACIM` enumerator; only
equality with it is ever tested. -/
def Motor.MOTOR_TYPE_ACIM : Nat := 3

/-! ## Data model -/

/-- The members of `Encoder` that the controller reads. -/
structure Encoder where
  pos_estimate_ : ℚ
  pos_circular_ : ℚ
  vel_estimate_ : ℚ
  pos_estimate_valid_ : Bool
  vel_estimate_valid_ : Bool
deriving DecidableEq

structure TrapTrajConfig where
  vel_limit : ℚ
  accel_limit : ℚ
  decel_limit : ℚ
deriving DecidableEq

/-- The result type `TrapezoidalTrajectory::Step_t`. -/
structure Step_t where
  Y : ℚ
  Yd : ℚ
  Ydd : ℚ
deriving DecidableEq

/-- The members of `TrapezoidalTrajectory` that the controller touches
(`config_`, `t_`, `Tf_`); `profile_` stands for the planner's private members,
which only `planTrapezoidal` and `eval` look at. -/
structure TrapezoidalTrajectory where
  config_ : TrapTrajConfig
  t_ : ℚ
  Tf_ : ℚ
  profile_ : List ℚ
deriving DecidableEq

structure MotorConfig where
  motor_type : Nat
  acim_gain_min_flux : ℚ
deriving DecidableEq

structure CurrentControl where
  acim_rotor_flux : ℚ
deriving DecidableEq

/-- The members of `Motor` that the controller reads; `max_available_torque`
is the value returned by the call `motor_.max_available_torque()`. -/
structure Motor where
  config_ : MotorConfig
  current_control_ : CurrentControl
  max_available_torque : ℚ
deriving DecidableEq

/-- The owning axis `*axis_`. -/
structure Axis where
  error_ : Nat
  encoder_ : Encoder
  trap_traj_ : TrapezoidalTrajectory
  motor_ : Motor
deriving DecidableEq

/-- The member `config_.anticogging`. -/
structure Anticogging where
  calib_anticogging : Bool
  anticogging_enabled : Bool
  anticogging_integrator_gain : ℚ
  anticogging_max_torque : ℚ
  cogging_map_size : Nat
  cogging_map : List ℚ
deriving DecidableEq

/-- The member `config_` (`Controller::Config_t`). -/
structure Config_t where
  control_mode : Nat
  input_mode : Nat
  vel_limit : ℚ
  vel_limit_tolerance : ℚ
  enable_vel_limit : Bool
  enable_overspeed_error : Bool
  enable_current_mode_vel_limit : Bool
  pos_gain : ℚ
  vel_gain : ℚ
  vel_integrator_gain : ℚ
  inertia : ℚ
  circular_setpoints : Bool
  circular_setpoint_range : ℚ
  enable_gain_scheduling : Bool
  gain_scheduling_width : ℚ
  vel_ramp_rate : ℚ
  torque_ramp_rate : ℚ
  input_filter_bandwidth : ℚ
  axis_to_mirror : Nat
  mirror_ratio : ℚ
  anticogging : Anticogging
deriving DecidableEq

/-- The controller of one axis.  `encoder_src_` stands for the six pointers
`pos_estimate_circular_src_`, `pos_wrap_src_`, `pos_estimate_linear_src_`,
`pos_estimate_valid_src_`, `vel_estimate_src_`, `vel_estimate_valid_src_`:
`some n` when they point into `axes[n].encoder_` (and `pos_wrap_src_` at
`config_.circular_setpoint_range`), `none` while they are null. -/
structure Controller where
  config_ : Config_t
  axis_ : Axis
  error_ : Nat
  encoder_src_ : Option Nat
  input_pos_ : ℚ
  input_vel_ : ℚ
  input_torque_ : ℚ
  input_pos_updated_ : Bool
  pos_setpoint_ : ℚ
  vel_setpoint_ : ℚ
  torque_setpoint_ : ℚ
  vel_integrator_torque_ : ℚ
  trajectory_done_ : Bool
  anticogging_correction_pwr_ : ℚ
  input_filter_kp_ : ℚ
  input_filter_ki_ : ℚ
deriving DecidableEq

/-- What the controller's code reads from outside the controller and its axis:
the encoders of the global table `axes[]` (so that `AXIS_COUNT = axes.length`),
the constants `current_meas_period` and `current_meas_hz`, and the two methods
of the trajectory planner, which is an external collaborator. -/
structure Env where
  axes : List Encoder
  current_meas_period : ℚ
  current_meas_hz : ℚ
  planTrapezoidal :
    TrapezoidalTrajectory → ℚ → ℚ → ℚ → ℚ → ℚ → ℚ → TrapezoidalTrajectory
  eval : TrapezoidalTrajectory → ℚ → Step_t

def Env.AXIS_COUNT (env : Env) : Nat := env.axes.length

/-! ## Operations of the controller -/

namespace Controller

/-- The method `Controller::update_filter_gains` (lines 114-118). -/
def update_filter_gains (env : Env) (c : Controller) : Controller :=
  let bandwidth := min c.config_.input_filter_bandwidth (0.25 * env.current_meas_hz)
  let ki := 2 * bandwidth
  { c with input_filter_ki_ := ki, input_filter_kp_ := 0.25 * (ki * ki) }

/-- The method `Controller::apply_config` (lines 5-9); `config_.parent = this`
has no counterpart in a value model. -/
def apply_config (env : Env) (c : Controller) : Bool × Controller :=
  (true, update_filter_gains env c)

/-- The method `Controller::reset` (lines 11-16). -/
def reset (c : Controller) : Controller :=
  { c with pos_setpoint_ := 0, vel_setpoint_ := 0, vel_integrator_torque_ := 0,
           torque_setpoint_ := 0 }

/-- The method `Controller::set_error` (lines 18-21). -/
def set_error (c : Controller) (error : Nat) : Controller :=
  { c with error_ := c.error_ ||| error,
           axis_ := { c.axis_ with error_ := c.axis_.error_ ||| Axis.ERROR_CONTROLLER_FAILED } }

/-- The method `Controller::select_encoder` (lines 28-41). -/
def select_encoder (env : Env) (c : Controller) (encoder_num : Nat) : Bool × Controller :=
  if encoder_num < env.AXIS_COUNT then
    (true, { c with encoder_src_ := some encoder_num })
  else
    (false, c.set_error ERROR_INVALID_LOAD_ENCODER)

/-- The method `Controller::move_to_pos` (lines 43-50). -/
def move_to_pos (env : Env) (c : Controller) (goal_point : ℚ) : Controller :=
  let traj := env.planTrapezoidal c.axis_.trap_traj_ goal_point c.pos_setpoint_ c.vel_setpoint_
    c.axis_.trap_traj_.config_.vel_limit
    c.axis_.trap_traj_.config_.accel_limit
    c.axis_.trap_traj_.config_.decel_limit
  { c with axis_ := { c.axis_ with trap_traj_ := { traj with t_ := 0 } },
           trajectory_done_ := false }

/-- The method `Controller::start_anticogging_calibration` (lines 62-67). -/
def start_anticogging_calibration (c : Controller) : Controller :=
  if c.axis_.error_ = Axis.ERROR_NONE then
    { c with config_.anticogging.calib_anticogging := true }
  else c

/-- The method `Controller::stop_anticogging_calibration` (lines 69-71). -/
def stop_anticogging_calibration (c : Controller) : Controller :=
  { c with config_.anticogging.calib_anticogging := false }

/-- The method `Controller::anticogging_remove_bias` (lines 73-83): both loops
run over the indices `0 .. cogging_map_size - 1` of the array. -/
def anticogging_remove_bias (c : Controller) : Controller :=
  let n := c.config_.anticogging.cogging_map_size
  let sum := (List.range n).foldl
    (fun s i => s + c.config_.anticogging.cogging_map.getD i 0) 0
  let mean := sum / (n : ℚ)
  let map := (List.range n).foldl
    (fun m i => m.set i (m.getD i 0 - mean)) c.config_.anticogging.cogging_map
  { c with config_.anticogging.cogging_map := map }

/-- The method `Controller::anticogging_calibration` (lines 89-112). -/
def anticogging_calibration (env : Env) (c : Controller)
    (pos_estimate vel_estimate vel_setpoint : ℚ) : Controller :=
  if c.config_.anticogging.calib_anticogging
      ∧ c.config_.control_mode = CONTROL_MODE_VELOCITY_CONTROL then
    let vel_error := vel_setpoint - vel_estimate
    let pos_single_turn := fmodf_pos pos_estimate 1
    let idxf := pos_single_turn * (c.config_.anticogging.cogging_map_size : ℚ)
    let idx := to_size_t idxf
    let idx1 := (idx + 1) % c.config_.anticogging.cogging_map_size
    let frac := idxf - (idx : ℚ)
    let cogmap_correction_rate := c.config_.anticogging.anticogging_integrator_gain * vel_error
    let cogmap_correction := cogmap_correction_rate * env.current_meas_period
    let mx := c.config_.anticogging.anticogging_max_torque
    let m0 := c.config_.anticogging.cogging_map
    let m1 := m0.set idx (m0.getD idx 0 + (1 - frac) * cogmap_correction)
    let m2 := m1.set idx1 (m1.getD idx1 0 + frac * cogmap_correction)
    let m3 := m2.set idx (clamp (m2.getD idx 0) (-mx) mx)
    let m4 := m3.set idx1 (clamp (m3.getD idx1 0) (-mx) mx)
    { c with
      config_.anticogging.cogging_map := m4,
      anticogging_correction_pwr_ := c.anticogging_correction_pwr_
        + 0.001 * (cogmap_correction_rate * cogmap_correction_rate
                    - c.anticogging_correction_pwr_) }
  else c

end Controller

/-- The static function `limitVel` (lines 120-124). -/
def limitVel (vel_limit vel_estimate vel_gain torque : ℚ) : ℚ :=
  let Tmax := (vel_limit - vel_estimate) * vel_gain
  let Tmin := (-vel_limit - vel_estimate) * vel_gain
  clamp torque Tmin Tmax

/-! ## The control tick `Controller::update` (lines 126-366)

The body is split at its comment headings into stages; `update_cascade` chains
them in source order up to the torque limiter and `update` finishes the tick.
A stage that can fail returns `Except.error (E, c')` for
`set_error(E); return false;`. -/

namespace Controller

/-- The statement pair `set_error(E); return false;`. -/
def raise {α : Type} (c : Controller) (error : Nat) : Except (Nat × Controller) α :=
  Except.error (error, c.set_error error)

/-- The encoder that the estimate-source pointers point into, if any. -/
def src_encoder (env : Env) (c : Controller) : Option Encoder :=
  match c.encoder_src_ with
  | some n => env.axes.get? n
  | none => none

/-- The condition `pos_estimate_valid_src_ && *pos_estimate_valid_src_`. -/
def pos_estimate_valid (env : Env) (c : Controller) : Bool :=
  match src_encoder env c with
  | some e => e.pos_estimate_valid_
  | none => false

/-- The condition `vel_estimate_valid_src_ && *vel_estimate_valid_src_`. -/
def vel_estimate_valid (env : Env) (c : Controller) : Bool :=
  match src_encoder env c with
  | some e => e.vel_estimate_valid_
  | none => false

/-- The local `pos_estimate_linear` (lines 127-128): `none` for `nullptr`,
otherwise the value behind the pointer. -/
def pos_estimate_linear (env : Env) (c : Controller) : Option ℚ :=
  if pos_estimate_valid env c then (src_encoder env c).map Encoder.pos_estimate_ else none

/-- The local `pos_estimate_circular` (lines 129-130). -/
def pos_estimate_circular (env : Env) (c : Controller) : Option ℚ :=
  if pos_estimate_valid env c then (src_encoder env c).map Encoder.pos_circular_ else none

/-- The local `vel_estimate_src` (lines 131-132). -/
def vel_estimate_src (env : Env) (c : Controller) : Option ℚ :=
  if vel_estimate_valid env c then (src_encoder env c).map Encoder.vel_estimate_ else none

/-- Lines 135-138: fold `input_pos_` when `circular_setpoints` is set. -/
def update_fold_input (c : Controller) : Controller :=
  if c.config_.circular_setpoints then
    { c with input_pos_ := fmodf_pos c.input_pos_ c.config_.circular_setpoint_range }
  else c

/-- The `INPUT_MODE_TRAP_TRAJ` case (lines 188-212).  The second component is
the local `anticogging_pos`, assigned on line 211 (`none`: left unassigned). -/
def update_trap_traj (env : Env) (c0 : Controller) : Controller × Option ℚ :=
  let c := if c0.input_pos_updated_ then
      { move_to_pos env c0 c0.input_pos_ with input_pos_updated_ := false }
    else c0
  if c.trajectory_done_ then (c, none)
  else
    let c' :=
      if c.axis_.trap_traj_.t_ > c.axis_.trap_traj_.Tf_ then
        { c with config_.control_mode := CONTROL_MODE_POSITION_CONTROL,
                 pos_setpoint_ := c.input_pos_,
                 vel_setpoint_ := 0,
                 torque_setpoint_ := 0,
                 trajectory_done_ := true }
      else
        let traj_step := env.eval c.axis_.trap_traj_ c.axis_.trap_traj_.t_
        { c with pos_setpoint_ := traj_step.Y,
                 vel_setpoint_ := traj_step.Yd,
                 torque_setpoint_ := traj_step.Ydd * c.config_.inertia,
                 axis_ := { c.axis_ with trap_traj_ :=
                   { c.axis_.trap_traj_ with
                     t_ := c.axis_.trap_traj_.t_ + env.current_meas_period } } }
    (c', some c'.pos_setpoint_)

/-- The input-mode dispatch, the `switch` of lines 143-218. -/
def update_dispatch (env : Env) (c : Controller) :
    Except (Nat × Controller) (Controller × Option ℚ) :=
  if c.config_.input_mode = INPUT_MODE_INACTIVE then
    .ok (c, none)
  else if c.config_.input_mode = INPUT_MODE_PASSTHROUGH then
    .ok ({ c with pos_setpoint_ := c.input_pos_,
                  vel_setpoint_ := c.input_vel_,
                  torque_setpoint_ := c.input_torque_ }, none)
  else if c.config_.input_mode = INPUT_MODE_VEL_RAMP then
    let max_step_size := |env.current_meas_period * c.config_.vel_ramp_rate|
    let full_step := c.input_vel_ - c.vel_setpoint_
    let step := clamp full_step (-max_step_size) max_step_size
    .ok ({ c with vel_setpoint_ := c.vel_setpoint_ + step,
                  torque_setpoint_ := (step / env.current_meas_period) * c.config_.inertia },
         none)
  else if c.config_.input_mode = INPUT_MODE_TORQUE_RAMP then
    let max_step_size := |env.current_meas_period * c.config_.torque_ramp_rate|
    let full_step := c.input_torque_ - c.torque_setpoint_
    let step := clamp full_step (-max_step_size) max_step_size
    .ok ({ c with torque_setpoint_ := c.torque_setpoint_ + step }, none)
  else if c.config_.input_mode = INPUT_MODE_POS_FILTER then
    let delta_pos := c.input_pos_ - c.pos_setpoint_
    let delta_vel := c.input_vel_ - c.vel_setpoint_
    let accel := c.input_filter_kp_ * delta_pos + c.input_filter_ki_ * delta_vel
    let vel_setpoint := c.vel_setpoint_ + env.current_meas_period * accel
    .ok ({ c with torque_setpoint_ := accel * c.config_.inertia,
                  vel_setpoint_ := vel_setpoint,
                  pos_setpoint_ := c.pos_setpoint_ + env.current_meas_period * vel_setpoint },
         none)
  else if c.config_.input_mode = INPUT_MODE_MIRROR then
    match env.axes.get? c.config_.axis_to_mirror with
    | some enc =>
      .ok ({ c with pos_setpoint_ := enc.pos_estimate_ * c.config_.mirror_ratio,
                    vel_setpoint_ := enc.vel_estimate_ * c.config_.mirror_ratio }, none)
    | none => raise c ERROR_INVALID_MIRROR_AXIS
  else if c.config_.input_mode = INPUT_MODE_TRAP_TRAJ then
    .ok (update_trap_traj env c)
  else
    raise c ERROR_INVALID_INPUT_MODE

/-- Input shaping, lines 134-218: the fold of `input_pos_`, then the dispatch. -/
def update_inputs (env : Env) (c : Controller) :
    Except (Nat × Controller) (Controller × Option ℚ) :=
  update_dispatch env (update_fold_input c)

/-- Lines 220-228: the calibration write, gated by `calib_anticogging` and fed
from the owning axis's encoder. -/
def update_calibration (env : Env) (c : Controller) : Except (Nat × Controller) Controller :=
  if c.config_.anticogging.calib_anticogging then
    if !c.axis_.encoder_.pos_estimate_valid_ || !c.axis_.encoder_.vel_estimate_valid_ then
      raise c ERROR_INVALID_ESTIMATE
    else
      .ok (anticogging_calibration env c c.axis_.encoder_.pos_estimate_
            c.axis_.encoder_.vel_estimate_ c.vel_setpoint_)
  else .ok c

/-- Lines 235-253: the local `pos_err`, with the fold of `pos_setpoint_` in the
circular case.  `*pos_wrap_src_` is `config_.circular_setpoint_range`. -/
def update_pos_err (env : Env) (c : Controller) : Except (Nat × Controller) (Controller × ℚ) :=
  if c.config_.circular_setpoints then
    match pos_estimate_circular env c with
    | none => raise c ERROR_INVALID_ESTIMATE
    | some pos_circular =>
      let pos_setpoint := fmodf_pos c.pos_setpoint_ c.config_.circular_setpoint_range
      let pos_err := pos_setpoint - pos_circular
      .ok ({ c with pos_setpoint_ := pos_setpoint },
           wrap_pm pos_err c.config_.circular_setpoint_range)
  else
    match pos_estimate_linear env c with
    | none => raise c ERROR_INVALID_ESTIMATE
    | some pos_linear => .ok (c, c.pos_setpoint_ - pos_linear)

/-- Lines 256-260: the value of `gain_scheduling_multiplier` for a position error.
The quotient is the one of the rationals: where line 259 divides zero by a zero
`gain_scheduling_width` it is `0`, which the floating point code does not
produce; `gain_schedule_checked` and `update_divisors` single that case out. -/
def gain_schedule (c : Controller) (pos_err : ℚ) : ℚ :=
  let abs_pos_err := |pos_err|
  if c.config_.enable_gain_scheduling ∧ abs_pos_err ≤ c.config_.gain_scheduling_width then
    abs_pos_err / c.config_.gain_scheduling_width
  else 1

/-- Position control, lines 230-261.  Returns the controller, `vel_des` and
`gain_scheduling_multiplier`. -/
def update_position (env : Env) (c : Controller) :
    Except (Nat × Controller) (Controller × ℚ × ℚ) :=
  let vel_des := c.vel_setpoint_
  if c.config_.control_mode ≥ CONTROL_MODE_POSITION_CONTROL then
    match update_pos_err env c with
    | .error e => .error e
    | .ok (c', pos_err) =>
      .ok (c', vel_des + c'.config_.pos_gain * pos_err, gain_schedule c' pos_err)
  else
    .ok (c, vel_des, 1)

/-- Velocity limiting of the reference, lines 263-267. -/
def update_vel_limit (c : Controller) (vel_des : ℚ) : ℚ :=
  if c.config_.enable_vel_limit then clamp vel_des (-c.config_.vel_limit) c.config_.vel_limit
  else vel_des

/-- The overspeed check, lines 269-279. -/
def update_overspeed (env : Env) (c : Controller) : Except (Nat × Controller) Unit :=
  if c.config_.enable_overspeed_error then
    match vel_estimate_src env c with
    | none => raise c ERROR_INVALID_ESTIMATE
    | some vel_estimate =>
      if |vel_estimate| > c.config_.vel_limit_tolerance * c.config_.vel_limit then
        raise c ERROR_OVERSPEED
      else .ok ()
  else .ok ()

/-- Lines 283-294: the locals `vel_gain` and `vel_integrator_gain`, divided by
the effective rotor flux for an induction motor.  The quotients are those of the
rationals: at an effective flux of zero they are `0`, which the floating point
code does not produce; `update_divisors` singles that case out. -/
def update_gains (c : Controller) : ℚ × ℚ :=
  if c.axis_.motor_.config_.motor_type = Motor.MOTOR_TYPE_ACIM then
    let effective_flux := c.axis_.motor_.current_control_.acim_rotor_flux
    let minflux := c.axis_.motor_.config_.acim_gain_min_flux
    let effective_flux :=
      if |effective_flux| < minflux then copysignf minflux effective_flux else effective_flux
    (c.config_.vel_gain / effective_flux, c.config_.vel_integrator_gain / effective_flux)
  else
    (c.config_.vel_gain, c.config_.vel_integrator_gain)

/-- The anticogging feed-forward, lines 297-314: returns `torque` after line 314.
The lookup position is `*pos_estimate_linear`; the local `anticogging_pos` is
not read. -/
def update_anticogging (env : Env) (c : Controller) : Except (Nat × Controller) ℚ :=
  let torque := c.torque_setpoint_
  if c.config_.anticogging.calib_anticogging ∨ c.config_.anticogging.anticogging_enabled then
    match pos_estimate_linear env c with
    | none => raise c ERROR_INVALID_ESTIMATE
    | some pos_linear =>
      let pos_ratio := fmodf_pos pos_linear 1
      let idxf := pos_ratio * (c.config_.anticogging.cogging_map_size : ℚ)
      let idx := to_size_t idxf
      let idx1 := (idx + 1) % c.config_.anticogging.cogging_map_size
      let frac := idxf - (idx : ℚ)
      let cogmap_torque := (1 - frac) * c.config_.anticogging.cogging_map.getD idx 0
        + frac * c.config_.anticogging.cogging_map.getD idx1 0
      .ok (torque + cogmap_torque)
  else .ok torque

/-- The velocity loop, lines 316-328: returns `torque` and `v_err`. -/
def update_velocity (env : Env) (c : Controller)
    (vel_des gain_scheduling_multiplier vel_gain torque : ℚ) :
    Except (Nat × Controller) (ℚ × ℚ) :=
  if c.config_.control_mode ≥ CONTROL_MODE_VELOCITY_CONTROL then
    match vel_estimate_src env c with
    | none => raise c ERROR_INVALID_ESTIMATE
    | some vel_estimate =>
      let v_err := vel_des - vel_estimate
      .ok (torque + (vel_gain * gain_scheduling_multiplier) * v_err + c.vel_integrator_torque_,
           v_err)
  else .ok (torque, 0)

/-- Velocity limiting in current mode, lines 330-337. -/
def update_current_limit (env : Env) (c : Controller) (vel_gain torque : ℚ) :
    Except (Nat × Controller) ℚ :=
  if c.config_.control_mode < CONTROL_MODE_VELOCITY_CONTROL
      ∧ c.config_.enable_current_mode_vel_limit then
    match vel_estimate_src env c with
    | none => raise c ERROR_INVALID_ESTIMATE
    | some vel_estimate => .ok (limitVel c.config_.vel_limit vel_estimate vel_gain torque)
  else .ok torque

end Controller

/-- The locals that are live on line 338, before the torque limiter, together
with the controller as it stands there. -/
structure Cascade where
  ctrl : Controller
  torque : ℚ
  v_err : ℚ
  gain_scheduling_multiplier : ℚ
  vel_integrator_gain : ℚ
deriving DecidableEq

/-- Torque limiting, lines 339-349: returns `limited` and the limited `torque`. -/
def torque_limit (Tlim torque : ℚ) : Bool × ℚ :=
  let s1 : Bool × ℚ := if torque > Tlim then (true, Tlim) else (false, torque)
  if s1.2 < -Tlim then (true, -Tlim) else s1

/-- What one call of `update` leaves behind: the returned `bool`, the controller
and the value stored through `torque_setpoint_output` (`none`: nothing stored). -/
structure UpdateResult where
  ret : Bool
  ctrl : Controller
  out : Option ℚ
deriving DecidableEq

namespace Controller

/-- Lines 126-261 of `update`: input shaping, the calibration write and position
control.  Returns the controller, `vel_des` and `gain_scheduling_multiplier` as
they stand when the velocity limiting of line 263 is reached. -/
def update_front (env : Env) (c0 : Controller) :
    Except (Nat × Controller) (Controller × ℚ × ℚ) :=
  match update_inputs env c0 with
  | .error e => .error e
  | .ok (c1, _anticogging_pos) =>
  match update_calibration env c1 with
  | .error e => .error e
  | .ok c2 => update_position env c2

/-- Lines 126-337 of `update`: everything up to the torque limiter. -/
def update_cascade (env : Env) (c0 : Controller) : Except (Nat × Controller) Cascade :=
  match update_front env c0 with
  | .error e => .error e
  | .ok (c, vel_des, gain_scheduling_multiplier) =>
  let vel_des := update_vel_limit c vel_des
  match update_overspeed env c with
  | .error e => .error e
  | .ok () =>
  let vel_gain := (update_gains c).1
  let vel_integrator_gain := (update_gains c).2
  match update_anticogging env c with
  | .error e => .error e
  | .ok torque =>
  match update_velocity env c vel_des gain_scheduling_multiplier vel_gain torque with
  | .error e => .error e
  | .ok (torque, v_err) =>
  match update_current_limit env c vel_gain torque with
  | .error e => .error e
  | .ok torque =>
    .ok { ctrl := c, torque := torque, v_err := v_err,
          gain_scheduling_multiplier := gain_scheduling_multiplier,
          vel_integrator_gain := vel_integrator_gain }

/-- The velocity integrator update, lines 351-362. -/
def update_integrator (env : Env) (k : Cascade) (limited : Bool) : Controller :=
  if k.ctrl.config_.control_mode < CONTROL_MODE_VELOCITY_CONTROL then
    { k.ctrl with vel_integrator_torque_ := 0 }
  else if limited then
    { k.ctrl with vel_integrator_torque_ := k.ctrl.vel_integrator_torque_ * 0.99 }
  else
    { k.ctrl with vel_integrator_torque_ := k.ctrl.vel_integrator_torque_
        + ((k.vel_integrator_gain * k.gain_scheduling_multiplier) * env.current_meas_period)
          * k.v_err }

/-- The method `Controller::update` (lines 126-366).  `has_output` tells whether
the argument `torque_setpoint_output` is a non-null pointer. -/
def update (env : Env) (c0 : Controller) (has_output : Bool) : UpdateResult :=
  match update_cascade env c0 with
  | .error (_, c) => { ret := false, ctrl := c, out := none }
  | .ok k =>
    let Tlim := k.ctrl.axis_.motor_.max_available_torque
    let lim := torque_limit Tlim k.torque
    { ret := true,
      ctrl := update_integrator env k lim.1,
      out := if has_output then some lim.2 else none }

end Controller

/-! ### The divisions of a tick

`update` computes in floating point, where a division by zero gives an infinity
or a NaN; the definitions above compute in the rationals, where it gives `0`.
The two agree on the ticks none of whose divisions has the divisor zero.  The
following definitions list the divisors of a tick along the path it takes. -/

namespace Controller

/-- The local `effective_flux` of lines 286-289, by which lines 290-291 divide. -/
def effective_flux (c : Controller) : ℚ :=
  let effective_flux := c.axis_.motor_.current_control_.acim_rotor_flux
  let minflux := c.axis_.motor_.config_.acim_gain_min_flux
  if |effective_flux| < minflux then copysignf minflux effective_flux else effective_flux

/-- The divisors of input shaping: the range by which line 137 folds `input_pos_`
and `current_meas_period` on line 158. -/
def divisors_inputs (env : Env) (c : Controller) : List ℚ :=
  (if c.config_.circular_setpoints then [c.config_.circular_setpoint_range] else [])
    ++ (if c.config_.input_mode = INPUT_MODE_VEL_RAMP then [env.current_meas_period] else [])

/-- The divisor of the calibration call of line 227: the map size of line 98
(an integer remainder), reached under the guard of line 90. -/
def divisors_calibration (c : Controller) : List ℚ :=
  if c.config_.anticogging.calib_anticogging
      ∧ c.config_.control_mode = CONTROL_MODE_VELOCITY_CONTROL then
    [(c.config_.anticogging.cogging_map_size : ℚ)]
  else []

/-- The divisors of position control: the range by which lines 243 and 246 fold,
and `gain_scheduling_width` on line 259 under the test of line 258.  An invalid
estimate returns before any of them. -/
def divisors_position (env : Env) (c : Controller) : List ℚ :=
  if c.config_.control_mode ≥ CONTROL_MODE_POSITION_CONTROL then
    match update_pos_err env c with
    | .error _ => []
    | .ok (c', pos_err) =>
      (if c.config_.circular_setpoints then [c.config_.circular_setpoint_range] else [])
        ++ (if c'.config_.enable_gain_scheduling
              ∧ |pos_err| ≤ c'.config_.gain_scheduling_width then
            [c'.config_.gain_scheduling_width] else [])
  else []

/-- The divisor of lines 290-291: the effective flux of an induction motor. -/
def divisors_gains (c : Controller) : List ℚ :=
  if c.axis_.motor_.config_.motor_type = Motor.MOTOR_TYPE_ACIM then [effective_flux c] else []

/-- The divisor of the feed-forward lookup: the map size of line 309 (an integer
remainder).  An invalid position estimate returns before it. -/
def divisors_anticogging (env : Env) (c : Controller) : List ℚ :=
  if c.config_.anticogging.calib_anticogging ∨ c.config_.anticogging.anticogging_enabled then
    match pos_estimate_linear env c with
    | none => []
    | some _ => [(c.config_.anticogging.cogging_map_size : ℚ)]
  else []

/-- The divisors that follow position control: none if the overspeed check
returns. -/
def divisors_back (env : Env) (c : Controller) : List ℚ :=
  match update_overspeed env c with
  | .error _ => []
  | .ok () => divisors_gains c ++ divisors_anticogging env c

/-- The divisors that follow the calibration stage. -/
def divisors_late (env : Env) (c2 : Controller) : List ℚ :=
  divisors_position env c2 ++
    (match update_position env c2 with
     | .error _ => []
     | .ok (c, _, _) => divisors_back env c)

/-- The divisors that follow input shaping. -/
def divisors_middle (env : Env) (c1 : Controller) : List ℚ :=
  match update_calibration env c1 with
  | .error _ => []
  | .ok c2 => divisors_calibration c1 ++ divisors_late env c2

/-- The divisors of the divisions that one tick of `update` performs, in program
order; a tick that returns early performs those before the return only.  (The
folds `fmodf_pos(., 1.0f)` of lines 92 and 306 divide by the constant `1`.) -/
def update_divisors (env : Env) (c0 : Controller) : List ℚ :=
  divisors_inputs env c0 ++
    (match update_inputs env c0 with
     | .error _ => []
     | .ok (c1, _) => divisors_middle env c1)

/-- The tick with its divisions made fallible: `none` when a division on the
path of the tick has the divisor zero, otherwise the result of `update`. -/
def update_checked (env : Env) (c0 : Controller) (has_output : Bool) : Option UpdateResult :=
  if (0 : ℚ) ∈ update_divisors env c0 then none else some (update env c0 has_output)

end Controller

/-! ## Concrete states used to exercise the theorems -/

def enc0 : Encoder :=
  { pos_estimate_ := 0, pos_circular_ := 0, vel_estimate_ := 0,
    pos_estimate_valid_ := true, vel_estimate_valid_ := true }

/-- Two axes, `dt = 1/8000 s`, a planner that plans and evaluates to nothing. -/
def env0 : Env :=
  { axes := [enc0, enc0], current_meas_period := 1 / 8000, current_meas_hz := 8000,
    planTrapezoidal := fun traj _ _ _ _ _ _ => traj,
    eval := fun _ _ => { Y := 0, Yd := 0, Ydd := 0 } }

/-- A controller at rest: torque control, passthrough input, bound to encoder 0,
torque limit 10. -/
def ctrl0 : Controller :=
  { config_ :=
      { control_mode := CONTROL_MODE_TORQUE_CONTROL, input_mode := INPUT_MODE_PASSTHROUGH,
        vel_limit := 10, vel_limit_tolerance := 1.2, enable_vel_limit := false,
        enable_overspeed_error := false, enable_current_mode_vel_limit := false,
        pos_gain := 1, vel_gain := 1, vel_integrator_gain := 10, inertia := 0,
        circular_setpoints := false, circular_setpoint_range := 1,
        enable_gain_scheduling := false, gain_scheduling_width := 10,
        vel_ramp_rate := 1, torque_ramp_rate := 1, input_filter_bandwidth := 2,
        axis_to_mirror := 1, mirror_ratio := 1,
        anticogging :=
          { calib_anticogging := false, anticogging_enabled := false,
            anticogging_integrator_gain := 0, anticogging_max_torque := 0,
            cogging_map_size := 4, cogging_map := [0, 0, 0, 0] } },
    axis_ :=
      { error_ := 0, encoder_ := enc0,
        trap_traj_ :=
          { config_ := { vel_limit := 1, accel_limit := 1, decel_limit := 1 },
            t_ := 0, Tf_ := 0, profile_ := [] },
        motor_ :=
          { config_ := { motor_type := 0, acim_gain_min_flux := 10 },
            current_control_ := { acim_rotor_flux := 0 },
            max_available_torque := 10 } },
    error_ := 0, encoder_src_ := some 0,
    input_pos_ := 0, input_vel_ := 0, input_torque_ := 0, input_pos_updated_ := false,
    pos_setpoint_ := 0, vel_setpoint_ := 0, torque_setpoint_ := 0,
    vel_integrator_torque_ := 0, trajectory_done_ := false,
    anticogging_correction_pwr_ := 0, input_filter_kp_ := 0, input_filter_ki_ := 0 }

/-- The controller at rest with the unassigned input mode `4`, an error bit
already latched and a velocity integrator holding `5`. -/
def ctrl_bad_mode : Controller :=
  { ctrl0 with config_.input_mode := 4, error_ := ERROR_OVERSPEED,
               vel_integrator_torque_ := 5 }

/-- Scenario S2: velocity control, `vel_gain = 1`, `vel_integrator_gain = 10`,
torque limit `1`, integrator at `5`, velocity setpoint `100` (passed through
from `input_vel`), velocity estimate `0`. -/
def ctrl_s2 : Controller :=
  { ctrl0 with config_.control_mode := CONTROL_MODE_VELOCITY_CONTROL,
               axis_.motor_.max_available_torque := 1,
               vel_integrator_torque_ := 5, input_vel_ := 100 }

/-- The locals of the S2 tick before the torque limiter. -/
def cascade_s2 : Cascade :=
  { ctrl := { ctrl_s2 with vel_setpoint_ := 100 },
    torque := 105, v_err := 100, gain_scheduling_multiplier := 1, vel_integrator_gain := 10 }

/-- Torque control with the trajectory input mode, a trajectory whose clock
`t_ = 1` has passed its end `Tf_ = 0`, and a velocity integrator holding `5`. -/
def ctrl_handoff : Controller :=
  { ctrl0 with config_.input_mode := INPUT_MODE_TRAP_TRAJ,
               axis_.trap_traj_.t_ := 1,
               vel_integrator_torque_ := 5 }

/-- An environment whose encoder 0 reports no valid velocity estimate. -/
def env_no_vel : Env :=
  { env0 with axes := [{ enc0 with vel_estimate_valid_ := false }, enc0] }

/-- Scenario S3: `enable_overspeed_error`, `vel_limit = 10`,
`vel_limit_tolerance = 1.2`, and an encoder that reports the velocity `13`. -/
def ctrl_s3 : Controller :=
  { ctrl0 with config_.enable_overspeed_error := true }

def env_s3 : Env :=
  { env0 with axes := [{ enc0 with vel_estimate_ := 13 }, enc0] }

/-- Passthrough with circular setpoints of range `1` and the constant inputs
`(5/2, 2, 3)`. -/
def ctrl_pass : Controller :=
  { ctrl0 with config_.circular_setpoints := true,
               input_pos_ := 5 / 2, input_vel_ := 2, input_torque_ := 3 }

/-- The controller `ctrl_pass`, on the axis `axis`, after one tick. -/
def ctrl_pass_after (axis : Axis) : Controller :=
  { ctrl_pass with axis_ := axis,
                   input_pos_ := fmodf_pos (5 / 2) 1,
                   pos_setpoint_ := fmodf_pos (5 / 2) 1,
                   vel_setpoint_ := 2,
                   torque_setpoint_ := 3 }

/-- The configuration without the two members that `update` itself writes:
`control_mode` (trajectory hand-off) and the cogging map (calibration). -/
def Config_t.readonly (cfg : Config_t) : Config_t :=
  { cfg with control_mode := 0, anticogging := { cfg.anticogging with cogging_map := [] } }

/-- The members that no stage of `update` writes on a path that does not fail. -/
structure Frame (c0 c : Controller) : Prop where
  error_eq : c.error_ = c0.error_
  axis_error_eq : c.axis_.error_ = c0.axis_.error_
  motor_eq : c.axis_.motor_ = c0.axis_.motor_
  encoder_eq : c.axis_.encoder_ = c0.axis_.encoder_
  src_eq : c.encoder_src_ = c0.encoder_src_
  input_vel_eq : c.input_vel_ = c0.input_vel_
  input_torque_eq : c.input_torque_ = c0.input_torque_
  integrator_eq : c.vel_integrator_torque_ = c0.vel_integrator_torque_
  kp_eq : c.input_filter_kp_ = c0.input_filter_kp_
  ki_eq : c.input_filter_ki_ = c0.input_filter_ki_
  config_eq : c.config_.readonly = c0.config_.readonly

/-- What the stages after input shaping (calibration and position control) may
have done to the controller `c1` that input shaping left: they write the cogging
map, the reported correction power and, by folding it, `pos_setpoint_`. -/
structure Late (c1 c : Controller) : Prop where
  eq : c = { c1 with
    config_.anticogging.cogging_map := c.config_.anticogging.cogging_map,
    anticogging_correction_pwr_ := c.anticogging_correction_pwr_,
    pos_setpoint_ := c.pos_setpoint_ }
  pos : c.pos_setpoint_ = c1.pos_setpoint_ ∨
    (c1.config_.circular_setpoints = true ∧
      c.pos_setpoint_ = fmodf_pos c1.pos_setpoint_ c1.config_.circular_setpoint_range)

/-- The controller `c` agrees with what input shaping left (`c1`) on everything
that input shaping decides. -/
structure Shaped (c1 c : Controller) : Prop where
  vel_setpoint_eq : c.vel_setpoint_ = c1.vel_setpoint_
  torque_setpoint_eq : c.torque_setpoint_ = c1.torque_setpoint_
  input_pos_eq : c.input_pos_ = c1.input_pos_
  input_vel_eq : c.input_vel_ = c1.input_vel_
  input_torque_eq : c.input_torque_ = c1.input_torque_
  control_mode_eq : c.config_.control_mode = c1.config_.control_mode
  trajectory_done_eq : c.trajectory_done_ = c1.trajectory_done_
  input_pos_updated_eq : c.input_pos_updated_ = c1.input_pos_updated_
  trap_traj_eq : c.axis_.trap_traj_ = c1.axis_.trap_traj_
  config_eq : c.config_.readonly = c1.config_.readonly
  pos : c.pos_setpoint_ = c1.pos_setpoint_ ∨
    (c1.config_.circular_setpoints = true ∧
      c.pos_setpoint_ = fmodf_pos c1.pos_setpoint_ c1.config_.circular_setpoint_range)

/-- The distance of the velocity setpoint to its target `input_vel`. -/
def vel_distance (c : Controller) : ℚ :=
  |c.vel_setpoint_ - c.input_vel_|

/-- A run of ticks on one controller.  Every tick comes with the environment it
runs in, with what the outside world did to the axis since the previous tick
(estimates, motor, trajectory, error latch; `id` for nothing), and with whether
an output pointer is passed.  Inputs and configuration are left alone. -/
def run (ticks : List (Env × (Axis → Axis) × Bool)) (c : Controller) : Controller :=
  ticks.foldl (fun c t => (Controller.update t.1 { c with axis_ := t.2.1 c.axis_ } t.2.2).ctrl) c

/-- Velocity ramp towards `input_vel = 1` from rest, at `vel_ramp_rate = 1`. -/
def ctrl_ramp : Controller :=
  { ctrl0 with config_.input_mode := INPUT_MODE_VEL_RAMP, input_vel_ := 1 }

/-- Scenario S5: position control with the trajectory input mode, a planned
trajectory with `Tf = 0.5 s` whose clock has just passed it, target `input_pos = 2`. -/
def ctrl_s5 : Controller :=
  { ctrl0 with config_.control_mode := CONTROL_MODE_POSITION_CONTROL,
               config_.input_mode := INPUT_MODE_TRAP_TRAJ,
               axis_.trap_traj_.Tf_ := 1 / 2,
               axis_.trap_traj_.t_ := 1 / 2 + 1 / 8000,
               input_pos_ := 2, pos_setpoint_ := 1, vel_setpoint_ := 3, torque_setpoint_ := 4 }

/-- Scenario S4: position control on circular setpoints of range `1` with
`pos_gain = 1`, input mode `INACTIVE`, `pos_setpoint = 0.05`; the encoder of
`env_s4` reports the circular position `0.95`. -/
def ctrl_s4 : Controller :=
  { ctrl0 with config_.control_mode := CONTROL_MODE_POSITION_CONTROL,
               config_.input_mode := INPUT_MODE_INACTIVE,
               config_.circular_setpoints := true,
               pos_setpoint_ := 1 / 20 }

def env_s4 : Env :=
  { env0 with axes := [{ enc0 with pos_circular_ := 19 / 20 }, enc0] }

/-- Torque control on circular setpoints of range `1` with the input mode
`INACTIVE` and a position setpoint left at `5`. -/
def ctrl_drift : Controller :=
  { ctrl0 with config_.input_mode := INPUT_MODE_INACTIVE,
               config_.circular_setpoints := true,
               pos_setpoint_ := 5 }

/-- The data-model invariant on the cogging map: every bin below
`cogging_map_size` lies within `±anticogging_max_torque`. -/
def MapBounded (a : Anticogging) : Prop :=
  ∀ i, i < a.cogging_map_size →
    -a.anticogging_max_torque ≤ a.cogging_map.getD i 0 ∧
    a.cogging_map.getD i 0 ≤ a.anticogging_max_torque

/-- The controller `c` has the anticogging configuration (cogging map included)
and the reported correction power of `c0`. -/
structure Kept (c0 c : Controller) : Prop where
  anticogging_eq : c.config_.anticogging = c0.config_.anticogging
  pwr_eq : c.anticogging_correction_pwr_ = c0.anticogging_correction_pwr_

/-- The controller after the calibration call of line 227. -/
def calibrated (env : Env) (c : Controller) : Controller :=
  Controller.anticogging_calibration env c c.axis_.encoder_.pos_estimate_
    c.axis_.encoder_.vel_estimate_ c.vel_setpoint_

/-- Velocity control with calibration running, `anticogging_max_torque = 1`, a
map of four bins at `[1, 1, 1, -1]`, velocity setpoint `8000` passed through. -/
def ctrl_calib : Controller :=
  { ctrl0 with config_.control_mode := CONTROL_MODE_VELOCITY_CONTROL,
               config_.anticogging.calib_anticogging := true,
               config_.anticogging.anticogging_integrator_gain := 1,
               config_.anticogging.anticogging_max_torque := 1,
               config_.anticogging.cogging_map := [1, 1, 1, -1],
               input_vel_ := 8000 }

/-- The sum of the bins `map[0] .. map[cogging_map_size - 1]`. -/
def map_sum (a : Anticogging) : ℚ :=
  ∑ i in Finset.range a.cogging_map_size, a.cogging_map.getD i 0

/-- The arithmetic mean of the bins. -/
def map_mean (a : Anticogging) : ℚ :=
  map_sum a / (a.cogging_map_size : ℚ)

/-- The interpolated lookup of lines 306-312, at the position `pos`. -/
def cogmap_lookup (a : Anticogging) (pos : ℚ) : ℚ :=
  let pos_ratio := fmodf_pos pos 1
  let idxf := pos_ratio * (a.cogging_map_size : ℚ)
  let idx := to_size_t idxf
  let idx1 := (idx + 1) % a.cogging_map_size
  let frac := idxf - (idx : ℚ)
  (1 - frac) * a.cogging_map.getD idx 0 + frac * a.cogging_map.getD idx1 0

/-- Torque control in the trajectory mode with a trajectory under way
(`t = 0 ≤ Tf = 1`), anticogging enabled and the map `[0, 1, 0, 0]`. -/
def ctrl_cog : Controller :=
  { ctrl0 with config_.input_mode := INPUT_MODE_TRAP_TRAJ,
               config_.anticogging.anticogging_enabled := true,
               config_.anticogging.cogging_map := [0, 1, 0, 0],
               axis_.trap_traj_.Tf_ := 1 }

/-- The controller `ctrl_cog` after input shaping in `env_traj`. -/
def ctrl_cog_shaped : Controller :=
  { ctrl_cog with pos_setpoint_ := 1 / 4,
                  axis_.trap_traj_.t_ := 1 / 8000 }

/-- An environment whose planner evaluates to the position `1/4` at rest; the
encoders report the position `0`. -/
def env_traj : Env :=
  { env0 with eval := fun _ _ => { Y := 1 / 4, Yd := 0, Ydd := 0 } }

/-- The controller at rest with `circular_setpoint_range = 0`. -/
def ctrl_zero_range : Controller :=
  { ctrl0 with config_.circular_setpoint_range := 0 }

/-- The input modes for which the `switch` of lines 143-218 has a case. -/
def input_mode_known (m : Nat) : Prop :=
  m = INPUT_MODE_INACTIVE ∨ m = INPUT_MODE_PASSTHROUGH ∨ m = INPUT_MODE_VEL_RAMP ∨
  m = INPUT_MODE_TORQUE_RAMP ∨ m = INPUT_MODE_POS_FILTER ∨ m = INPUT_MODE_MIRROR ∨
  m = INPUT_MODE_TRAP_TRAJ

/-- The controller at rest in the `MIRROR` input mode with `axis_to_mirror = 2`
(there are two axes, `0` and `1`), with setpoints `(1, 2, 3)`, the integrator at
`5` and the map `[1, 1, 1, -1]`. -/
def ctrl_mirror : Controller :=
  { ctrl0 with config_.input_mode := INPUT_MODE_MIRROR,
               config_.axis_to_mirror := 2,
               config_.anticogging.cogging_map := [1, 1, 1, -1],
               pos_setpoint_ := 1, vel_setpoint_ := 2, torque_setpoint_ := 3,
               vel_integrator_torque_ := 5 }

/-- The position filter towards `input_pos = 1` from rest, with
`input_filter_bandwidth = 2` and `inertia = 1`. -/
def ctrl_filter : Controller :=
  { ctrl0 with config_.input_mode := INPUT_MODE_POS_FILTER,
               config_.inertia := 1,
               input_pos_ := 1 }

/-- Lines 256-260 with the division of line 259 made fallible: `none` when the
divisor `gain_scheduling_width` is zero on the path taken, otherwise the value
of `gain_scheduling_multiplier`. -/
def gain_schedule_checked (c : Controller) (pos_err : ℚ) : Option ℚ :=
  let abs_pos_err := |pos_err|
  if c.config_.enable_gain_scheduling ∧ abs_pos_err ≤ c.config_.gain_scheduling_width then
    if c.config_.gain_scheduling_width = 0 then none
    else some (abs_pos_err / c.config_.gain_scheduling_width)
  else some 1

/-- Position control at rest on the target (`pos_setpoint = pos_estimate = 0`)
with gain scheduling enabled and `gain_scheduling_width = 0`. -/
def ctrl_gs_zero : Controller :=
  { ctrl0 with config_.control_mode := CONTROL_MODE_POSITION_CONTROL,
               config_.input_mode := INPUT_MODE_INACTIVE,
               config_.enable_gain_scheduling := true,
               config_.gain_scheduling_width := 0 }

/-- Position control with gain scheduling enabled on `gain_scheduling_width = 10`,
the setpoint `5` turns ahead of the encoder. -/
def ctrl_gs_on : Controller :=
  { ctrl_gs_zero with config_.gain_scheduling_width := 10, pos_setpoint_ := 5 }

/-- Scenario S6: calibration in velocity control on a map of `N = 1024` bins at
`0`, `anticogging_integrator_gain = 0.1`, `anticogging_max_torque = 1`, the own
encoder at `pos_estimate = 0.25 + 0.5/1024` and at rest, the velocity setpoint
held at `1` (input mode `INACTIVE`), `dt = 1/8000`. -/
def ctrl_s6 : Controller :=
  { ctrl0 with config_.control_mode := CONTROL_MODE_VELOCITY_CONTROL,
               config_.input_mode := INPUT_MODE_INACTIVE,
               config_.anticogging.calib_anticogging := true,
               config_.anticogging.anticogging_integrator_gain := 1 / 10,
               config_.anticogging.anticogging_max_torque := 1,
               config_.anticogging.cogging_map_size := 1024,
               config_.anticogging.cogging_map := List.replicate 1024 0,
               axis_.encoder_.pos_estimate_ := 513 / 2048,
               vel_setpoint_ := 1 }

open Controller

theorem Frame.refl (c : Controller) : Frame c c := by
  constructor <;> rfl

theorem Frame.trans {a b c : Controller} (h1 : Frame a b) (h2 : Frame b c) : Frame a c := by
  constructor
  · rw [h2.error_eq, h1.error_eq]
  · rw [h2.axis_error_eq, h1.axis_error_eq]
  · rw [h2.motor_eq, h1.motor_eq]
  · rw [h2.encoder_eq, h1.encoder_eq]
  · rw [h2.src_eq, h1.src_eq]
  · rw [h2.input_vel_eq, h1.input_vel_eq]
  · rw [h2.input_torque_eq, h1.input_torque_eq]
  · rw [h2.integrator_eq, h1.integrator_eq]
  · rw [h2.kp_eq, h1.kp_eq]
  · rw [h2.ki_eq, h1.ki_eq]
  · rw [h2.config_eq, h1.config_eq]

theorem frame_fold_input (c : Controller) : Frame c (update_fold_input c) := by
  unfold update_fold_input
  split <;> constructor <;> rfl

theorem frame_trap_traj (env : Env) (c : Controller) : Frame c (update_trap_traj env c).1 := by
  unfold update_trap_traj move_to_pos
  dsimp only
  constructor <;> (split_ifs <;> rfl)

theorem raise_ne_ok {α : Type} (c : Controller) (E : Nat) (a : α) :
    (raise c E : Except (Nat × Controller) α) ≠ .ok a := by
  simp [raise]

theorem raise_eq_error {α : Type} {c : Controller} {E : Nat} {x : Nat × Controller}
    (h : (raise c E : Except (Nat × Controller) α) = .error x) : x = (E, c.set_error E) := by
  simp only [raise, Except.error.injEq] at h
  exact h.symm

theorem frame_dispatch {env : Env} {c c1 : Controller} {ap : Option ℚ}
    (h : update_dispatch env c = .ok (c1, ap)) : Frame c c1 := by
  unfold update_dispatch at h
  split_ifs at h
  · simp only [Except.ok.injEq, Prod.mk.injEq] at h; obtain ⟨rfl, -⟩ := h; constructor <;> rfl
  · simp only [Except.ok.injEq, Prod.mk.injEq] at h; obtain ⟨rfl, -⟩ := h; constructor <;> rfl
  · simp only [Except.ok.injEq, Prod.mk.injEq] at h; obtain ⟨rfl, -⟩ := h; constructor <;> rfl
  · simp only [Except.ok.injEq, Prod.mk.injEq] at h; obtain ⟨rfl, -⟩ := h; constructor <;> rfl
  · simp only [Except.ok.injEq, Prod.mk.injEq] at h; obtain ⟨rfl, -⟩ := h; constructor <;> rfl
  · split at h
    · simp only [Except.ok.injEq, Prod.mk.injEq] at h; obtain ⟨rfl, -⟩ := h; constructor <;> rfl
    · exact absurd h (raise_ne_ok _ _ _)
  · simp only [Except.ok.injEq] at h
    have := frame_trap_traj env c
    rw [h] at this
    exact this
  · exact absurd h (raise_ne_ok _ _ _)

theorem dispatch_error {env : Env} {c : Controller} {x : Nat × Controller}
    (h : update_dispatch env c = .error x) :
    ∃ E, (E = ERROR_INVALID_MIRROR_AXIS ∨ E = ERROR_INVALID_INPUT_MODE) ∧
      x = (E, c.set_error E) := by
  unfold update_dispatch at h
  split_ifs at h
  · split at h
    · cases h
    · exact ⟨_, Or.inl rfl, raise_eq_error h⟩
  · exact ⟨_, Or.inr rfl, raise_eq_error h⟩

theorem frame_inputs {env : Env} {c c1 : Controller} {ap : Option ℚ}
    (h : update_inputs env c = .ok (c1, ap)) : Frame c c1 :=
  (frame_fold_input c).trans (frame_dispatch h)

theorem inputs_error {env : Env} {c : Controller} {x : Nat × Controller}
    (h : update_inputs env c = .error x) :
    ∃ E, (E = ERROR_INVALID_MIRROR_AXIS ∨ E = ERROR_INVALID_INPUT_MODE) ∧
      x = (E, (update_fold_input c).set_error E) :=
  dispatch_error h

/-- Calibration writes the cogging map and the reported correction power only. -/
theorem calibration_ok {env : Env} {c c2 : Controller}
    (h : update_calibration env c = .ok c2) :
    c2 = { c with
      config_.anticogging.cogging_map := c2.config_.anticogging.cogging_map,
      anticogging_correction_pwr_ := c2.anticogging_correction_pwr_ } := by
  unfold update_calibration at h
  split_ifs at h
  · exact absurd h (raise_ne_ok _ _ _)
  · injection h with h
    subst h
    unfold anticogging_calibration
    dsimp only
    split_ifs <;> rfl
  · injection h with h
    subst h
    rfl

theorem frame_calibration {env : Env} {c c2 : Controller}
    (h : update_calibration env c = .ok c2) : Frame c c2 := by
  have h2 := calibration_ok h
  constructor <;> (rw [h2]; try rfl)

theorem calibration_error {env : Env} {c : Controller} {x : Nat × Controller}
    (h : update_calibration env c = .error x) :
    x = (ERROR_INVALID_ESTIMATE, c.set_error ERROR_INVALID_ESTIMATE) := by
  unfold update_calibration at h
  split_ifs at h
  exact raise_eq_error h

/-- The position error stage writes `pos_setpoint_` only. -/
theorem pos_err_ok {env : Env} {c c3 : Controller} {pos_err : ℚ}
    (h : update_pos_err env c = .ok (c3, pos_err)) :
    c3 = { c with pos_setpoint_ := c3.pos_setpoint_ } := by
  unfold update_pos_err at h
  split_ifs at h
  · split at h
    · exact absurd h (raise_ne_ok _ _ _)
    · injection h with h
      injection h with h1 h2
      subst h1
      rfl
  · split at h
    · exact absurd h (raise_ne_ok _ _ _)
    · injection h with h
      injection h with h1 h2
      subst h1
      rfl

theorem pos_err_error {env : Env} {c : Controller} {x : Nat × Controller}
    (h : update_pos_err env c = .error x) :
    x = (ERROR_INVALID_ESTIMATE, c.set_error ERROR_INVALID_ESTIMATE) := by
  unfold update_pos_err at h
  split_ifs at h
  · split at h
    · exact raise_eq_error h
    · cases h
  · split at h
    · exact raise_eq_error h
    · cases h

/-- Position control writes `pos_setpoint_` only. -/
theorem position_ok {env : Env} {c c3 : Controller} {vel_des g : ℚ}
    (h : update_position env c = .ok (c3, vel_des, g)) :
    c3 = { c with pos_setpoint_ := c3.pos_setpoint_ } := by
  unfold update_position at h
  dsimp only at h
  split_ifs at h
  · split at h
    · cases h
    · rename_i heq
      injection h with h
      injection h with h1 h2
      subst h1
      exact pos_err_ok heq
  · injection h with h
    injection h with h1 h2
    subst h1
    rfl

theorem frame_position {env : Env} {c c3 : Controller} {vel_des g : ℚ}
    (h : update_position env c = .ok (c3, vel_des, g)) : Frame c c3 := by
  have h2 := position_ok h
  constructor <;> rw [h2]

theorem position_error {env : Env} {c : Controller} {x : Nat × Controller}
    (h : update_position env c = .error x) :
    x = (ERROR_INVALID_ESTIMATE, c.set_error ERROR_INVALID_ESTIMATE) := by
  unfold update_position at h
  dsimp only at h
  split_ifs at h
  split at h
  · rename_i heq
    injection h with h
    subst h
    exact pos_err_error heq
  · cases h

theorem overspeed_error {env : Env} {c : Controller} {x : Nat × Controller}
    (h : update_overspeed env c = .error x) :
    ∃ E, (E = ERROR_INVALID_ESTIMATE ∨ E = ERROR_OVERSPEED) ∧ x = (E, c.set_error E) := by
  unfold update_overspeed at h
  split_ifs at h
  split at h
  · exact ⟨_, Or.inl rfl, raise_eq_error h⟩
  · split_ifs at h
    exact ⟨_, Or.inr rfl, raise_eq_error h⟩

theorem anticogging_error {env : Env} {c : Controller} {x : Nat × Controller}
    (h : update_anticogging env c = .error x) :
    x = (ERROR_INVALID_ESTIMATE, c.set_error ERROR_INVALID_ESTIMATE) := by
  unfold update_anticogging at h
  dsimp only at h
  split_ifs at h
  split at h
  · exact raise_eq_error h
  · cases h

theorem velocity_error {env : Env} {c : Controller} {vel_des g vel_gain torque : ℚ}
    {x : Nat × Controller}
    (h : update_velocity env c vel_des g vel_gain torque = .error x) :
    x = (ERROR_INVALID_ESTIMATE, c.set_error ERROR_INVALID_ESTIMATE) := by
  unfold update_velocity at h
  split_ifs at h
  split at h
  · exact raise_eq_error h
  · cases h

theorem current_limit_error {env : Env} {c : Controller} {vel_gain torque : ℚ}
    {x : Nat × Controller}
    (h : update_current_limit env c vel_gain torque = .error x) :
    x = (ERROR_INVALID_ESTIMATE, c.set_error ERROR_INVALID_ESTIMATE) := by
  unfold update_current_limit at h
  split_ifs at h
  split at h
  · exact raise_eq_error h
  · cases h

/-! ## The shape of a whole tick -/

theorem Late.start (c : Controller) : Late c c :=
  ⟨rfl, Or.inl rfl⟩

theorem Late.frame {c1 c : Controller} (h : Late c1 c) : Frame c1 c := by
  have h2 := h.eq
  constructor <;> (rw [h2]; try rfl)

theorem late_calibration {env : Env} {c c2 : Controller}
    (h : update_calibration env c = .ok c2) : Late c c2 := by
  have h2 := calibration_ok h
  refine ⟨?_, Or.inl (by rw [h2])⟩
  rw [h2]

/-- Position control either leaves `pos_setpoint_` alone or, with circular
setpoints, folds it. -/
theorem position_setpoint {env : Env} {c c3 : Controller} {vel_des g : ℚ}
    (h : update_position env c = .ok (c3, vel_des, g)) :
    c3.pos_setpoint_ = c.pos_setpoint_ ∨
    (c.config_.circular_setpoints = true ∧
      c3.pos_setpoint_ = fmodf_pos c.pos_setpoint_ c.config_.circular_setpoint_range) := by
  unfold update_position at h
  dsimp only at h
  split_ifs at h
  · split at h
    · cases h
    · rename_i heq
      injection h with h
      injection h with h1 h2
      subst h1
      unfold update_pos_err at heq
      split_ifs at heq with hc
      · split at heq
        · exact absurd heq (raise_ne_ok _ _ _)
        · injection heq with heq
          injection heq with h1 h2
          subst h1
          exact Or.inr ⟨hc, rfl⟩
      · split at heq
        · exact absurd heq (raise_ne_ok _ _ _)
        · injection heq with heq
          injection heq with h1 h2
          subst h1
          exact Or.inl rfl
  · injection h with h
    injection h with h1 h2
    subst h1
    exact Or.inl rfl

theorem late_calibration_position {env : Env} {c1 c2 c3 : Controller} {vel_des g : ℚ}
    (h2 : update_calibration env c1 = .ok c2)
    (h3 : update_position env c2 = .ok (c3, vel_des, g)) : Late c1 c3 := by
  have e2 := calibration_ok h2
  have e3 := position_ok h3
  have p3 := position_setpoint h3
  have hp : c2.pos_setpoint_ = c1.pos_setpoint_ := by rw [e2]
  have hc : c2.config_.circular_setpoints = c1.config_.circular_setpoints := by rw [e2]
  have hr : c2.config_.circular_setpoint_range = c1.config_.circular_setpoint_range := by
    rw [e2]
  constructor
  · rw [e3, e2]
  · rw [hp, hc, hr] at p3
    exact p3

/-- The first half of a tick that gets to the velocity limiting. -/
theorem update_front_ok {env : Env} {c0 c3 : Controller} {vel_des g : ℚ}
    (h : update_front env c0 = .ok (c3, vel_des, g)) :
    ∃ c1 ap c2,
      update_inputs env c0 = .ok (c1, ap) ∧
      update_calibration env c1 = .ok c2 ∧
      update_position env c2 = .ok (c3, vel_des, g) := by
  unfold update_front at h
  split at h
  · cases h
  · rename_i c1 ap h1
    split at h
    · cases h
    · rename_i c2 h2
      exact ⟨c1, ap, c2, h1, h2, h⟩

/-- The first half of a tick fails either in the input-mode dispatch or, later,
with `INVALID_ESTIMATE`. -/
theorem update_front_error {env : Env} {c0 : Controller} {x : Nat × Controller}
    (h : update_front env c0 = .error x) :
    update_inputs env c0 = .error x ∨
    ∃ c1 ap c, update_inputs env c0 = .ok (c1, ap) ∧ Late c1 c ∧
      x = (ERROR_INVALID_ESTIMATE, c.set_error ERROR_INVALID_ESTIMATE) := by
  unfold update_front at h
  split at h
  · rename_i e h1
    injection h with h
    subst h
    exact Or.inl h1
  · rename_i c1 ap h1
    split at h
    · rename_i e h2
      injection h with h
      subst h
      exact Or.inr ⟨c1, ap, c1, h1, Late.start c1, calibration_error h2⟩
    · rename_i c2 h2
      exact Or.inr ⟨c1, ap, c2, h1, late_calibration h2, position_error h⟩

/-- A tick that gets past every check went through each stage in turn. -/
theorem update_cascade_ok {env : Env} {c0 : Controller} {k : Cascade}
    (h : update_cascade env c0 = .ok k) :
    ∃ vel_des torque_ff torque_v,
      update_front env c0 = .ok (k.ctrl, vel_des, k.gain_scheduling_multiplier) ∧
      update_overspeed env k.ctrl = .ok () ∧
      update_anticogging env k.ctrl = .ok torque_ff ∧
      update_velocity env k.ctrl (update_vel_limit k.ctrl vel_des)
        k.gain_scheduling_multiplier (update_gains k.ctrl).1 torque_ff = .ok (torque_v, k.v_err) ∧
      update_current_limit env k.ctrl (update_gains k.ctrl).1 torque_v = .ok k.torque ∧
      k.vel_integrator_gain = (update_gains k.ctrl).2 := by
  unfold update_cascade at h
  split at h
  · cases h
  · rename_i c3 vel_des g h3
    dsimp only at h
    split at h
    · cases h
    · rename_i h4
      split at h
      · cases h
      · rename_i torque_ff h5
        split at h
        · cases h
        · rename_i torque_v v_err h6
          split at h
          · cases h
          · rename_i torque h7
            injection h with h
            subst h
            exact ⟨vel_des, torque_ff, torque_v, h3, h4, h5, h6, h7, rfl⟩

/-- The second half of a tick fails on the controller that the first half left. -/
theorem update_cascade_error_back {env : Env} {c0 c3 : Controller} {vel_des g : ℚ}
    {x : Nat × Controller}
    (h3 : update_front env c0 = .ok (c3, vel_des, g))
    (h : update_cascade env c0 = .error x) :
    ∃ E, (E = ERROR_INVALID_ESTIMATE ∨ E = ERROR_OVERSPEED) ∧ x = (E, c3.set_error E) := by
  unfold update_cascade at h
  rw [h3] at h
  dsimp only at h
  split at h
  · rename_i e h4
    injection h with h
    subst h
    exact overspeed_error h4
  · split at h
    · rename_i e h5
      injection h with h
      subst h
      exact ⟨_, Or.inl rfl, anticogging_error h5⟩
    · split at h
      · rename_i e h6
        injection h with h
        subst h
        exact ⟨_, Or.inl rfl, velocity_error h6⟩
      · split at h
        · rename_i e h7
          injection h with h
          subst h
          exact ⟨_, Or.inl rfl, current_limit_error h7⟩
        · cases h

theorem update_cascade_error_front {env : Env} {c0 : Controller} {x : Nat × Controller}
    (h3 : update_front env c0 = .error x) : update_cascade env c0 = .error x := by
  unfold update_cascade
  rw [h3]

/-- A failing tick failed in the input-mode dispatch, or later on a controller
that is `Late` with respect to the one input shaping left. -/
theorem update_cascade_error_cases {env : Env} {c0 : Controller} {x : Nat × Controller}
    (h : update_cascade env c0 = .error x) :
    update_inputs env c0 = .error x ∨
    ∃ c1 ap c E, update_inputs env c0 = .ok (c1, ap) ∧ Late c1 c ∧
      (E = ERROR_INVALID_ESTIMATE ∨ E = ERROR_OVERSPEED) ∧ x = (E, c.set_error E) := by
  cases h3 : update_front env c0 with
  | error y =>
    rw [update_cascade_error_front h3] at h
    injection h with h
    subst h
    rcases update_front_error h3 with h1 | ⟨c1, ap, c, h1, hl, hx⟩
    · exact Or.inl h1
    · exact Or.inr ⟨c1, ap, c, _, h1, hl, Or.inl rfl, hx⟩
  | ok r =>
    obtain ⟨c3, vel_des, g⟩ := r
    obtain ⟨c1, ap, c2, h1, h2, h3'⟩ := update_front_ok h3
    obtain ⟨E, hE, hx⟩ := update_cascade_error_back h3 h
    exact Or.inr ⟨c1, ap, c3, E, h1, late_calibration_position h2 h3', hE, hx⟩

/-- A tick that fails raised one of four error kinds, on a controller that
differs from the one at entry only in members outside `Frame`. -/
theorem update_cascade_error {env : Env} {c0 : Controller} {x : Nat × Controller}
    (h : update_cascade env c0 = .error x) :
    ∃ c E, Frame c0 c ∧ x = (E, c.set_error E) ∧
      (E = ERROR_OVERSPEED ∨ E = ERROR_INVALID_INPUT_MODE ∨ E = ERROR_INVALID_MIRROR_AXIS
        ∨ E = ERROR_INVALID_ESTIMATE) := by
  rcases update_cascade_error_cases h with h1 | ⟨c1, ap, c, E, h1, hl, hE, hx⟩
  · obtain ⟨E, hE, hx⟩ := inputs_error h1
    refine ⟨_, E, frame_fold_input c0, hx, ?_⟩
    rcases hE with hE | hE
    · exact Or.inr (Or.inr (Or.inl hE))
    · exact Or.inr (Or.inl hE)
  · refine ⟨c, E, (frame_inputs h1).trans hl.frame, hx, ?_⟩
    rcases hE with hE | hE
    · exact Or.inr (Or.inr (Or.inr hE))
    · exact Or.inl hE

/-- On a tick that gets past every check, the controller before the limiter is
`Late` with respect to the one input shaping left. -/
theorem update_cascade_ok_late {env : Env} {c0 : Controller} {k : Cascade}
    (h : update_cascade env c0 = .ok k) :
    ∃ c1 ap, update_inputs env c0 = .ok (c1, ap) ∧ Late c1 k.ctrl := by
  obtain ⟨vel_des, _, _, h3, -⟩ := update_cascade_ok h
  obtain ⟨c1, ap, c2, h1, h2, h3'⟩ := update_front_ok h3
  exact ⟨c1, ap, h1, late_calibration_position h2 h3'⟩

theorem frame_cascade {env : Env} {c0 : Controller} {k : Cascade}
    (h : update_cascade env c0 = .ok k) : Frame c0 k.ctrl := by
  obtain ⟨c1, ap, h1, hl⟩ := update_cascade_ok_late h
  exact (frame_inputs h1).trans hl.frame

theorem update_of_ok {env : Env} {c : Controller} {k : Cascade} (has_output : Bool)
    (h : update_cascade env c = .ok k) :
    update env c has_output =
      { ret := true,
        ctrl := update_integrator env k
          (torque_limit k.ctrl.axis_.motor_.max_available_torque k.torque).1,
        out := if has_output then
          some (torque_limit k.ctrl.axis_.motor_.max_available_torque k.torque).2 else none } := by
  unfold update
  rw [h]

theorem update_of_error {env : Env} {c c' : Controller} {E : Nat} (has_output : Bool)
    (h : update_cascade env c = .error (E, c')) :
    update env c has_output = { ret := false, ctrl := c', out := none } := by
  unfold update
  rw [h]

/-- The error latches after a failing tick. -/
theorem update_cascade_error_latch {env : Env} {c c' : Controller} {E : Nat}
    (h : update_cascade env c = .error (E, c')) :
    c'.error_ = c.error_ ||| E ∧
    c'.axis_.error_ = c.axis_.error_ ||| Axis.ERROR_CONTROLLER_FAILED := by
  obtain ⟨c1, E1, hf, hx, -⟩ := update_cascade_error h
  injection hx with hx1 hx2
  subst hx1 hx2
  constructor
  · show c1.error_ ||| E = c.error_ ||| E
    rw [hf.error_eq]
  · show c1.axis_.error_ ||| Axis.ERROR_CONTROLLER_FAILED
      = c.axis_.error_ ||| Axis.ERROR_CONTROLLER_FAILED
    rw [hf.axis_error_eq]

/-- The integrator update writes `vel_integrator_torque_` only. -/
theorem update_integrator_eq (env : Env) (k : Cascade) (limited : Bool) :
    update_integrator env k limited =
      { k.ctrl with
        vel_integrator_torque_ := (update_integrator env k limited).vel_integrator_torque_ } := by
  unfold update_integrator
  split_ifs <;> rfl

theorem torque_limit_eq_clamp {Tlim : ℚ} (hT : 0 ≤ Tlim) (torque : ℚ) :
    (torque_limit Tlim torque).2 = clamp torque (-Tlim) Tlim := by
  unfold torque_limit clamp
  dsimp only
  split_ifs <;> first | rfl | linarith

/-- The limiter reports `limited` exactly when the torque it is given lies
outside `[-Tlim, +Tlim]`. -/
theorem torque_limit_limited (Tlim torque : ℚ) :
    (torque_limit Tlim torque).1 = true ↔ (torque < -Tlim ∨ Tlim < torque) := by
  unfold torque_limit
  dsimp only
  split_ifs with h1 h2 h2
  · simp [h1]
  · simp [h1]
  · simp [h2]
  · simp [h1, h2]

/-! ## The divisions of a tick -/

/-- Position control at rest on its target with gain scheduling enabled on the
width `0` and the torque limit `10`: the tick returns `true`, and on its path
line 259 divides by zero. -/
theorem update_checked_zero_width :
    (update env0 ctrl_gs_zero true).ret = true ∧
    (0 : ℚ) ≤ ctrl_gs_zero.axis_.motor_.max_available_torque ∧
    update_divisors env0 ctrl_gs_zero = [0] ∧
    update_checked env0 ctrl_gs_zero true = none := by
  have hd : update_divisors env0 ctrl_gs_zero = [0] := by
    norm_num [update_divisors, divisors_inputs, divisors_middle, divisors_late, divisors_back,
      divisors_calibration, divisors_position, divisors_gains, divisors_anticogging,
      update_inputs, update_fold_input, update_dispatch, update_calibration, update_position,
      update_pos_err, update_overspeed, gain_schedule, pos_estimate_linear, pos_estimate_valid,
      src_encoder, INPUT_MODE_INACTIVE, INPUT_MODE_VEL_RAMP, CONTROL_MODE_POSITION_CONTROL,
      CONTROL_MODE_VELOCITY_CONTROL, Motor.MOTOR_TYPE_ACIM, ctrl_gs_zero, ctrl0, env0, enc0]
  refine ⟨?_, ?_, hd, ?_⟩
  · norm_num [update, update_cascade, update_inputs, update_fold_input, update_dispatch,
      update_front, update_calibration, update_position, update_pos_err, gain_schedule,
      update_vel_limit, update_overspeed, update_gains,
      update_anticogging, update_velocity, update_current_limit, update_integrator, torque_limit,
      pos_estimate_linear, pos_estimate_valid, vel_estimate_src, vel_estimate_valid, src_encoder,
      INPUT_MODE_INACTIVE, INPUT_MODE_PASSTHROUGH, CONTROL_MODE_VELOCITY_CONTROL,
      CONTROL_MODE_POSITION_CONTROL, CONTROL_MODE_TORQUE_CONTROL, Motor.MOTOR_TYPE_ACIM,
      ctrl_gs_zero, ctrl0, env0, enc0]
  · norm_num [ctrl_gs_zero, ctrl0]
  · unfold update_checked
    rw [hd, if_pos (List.mem_singleton.mpr rfl)]

/-! ## Theorems about `update` -/

/-- C2.  For every tick: `update` returns `false` exactly when an error was
raised during the tick (`update_cascade` ends in `Except.error (E, _)`).  In that
case `E` is one of the four kinds raised inside `update`, `error_` on return is
the old `error_` OR-ed with `E` (so every bit set before is still set), the axis
error is the old one OR-ed with `ERROR_CONTROLLER_FAILED`, and nothing is stored
through the output pointer.  When `update` returns `true`, `error_` and the axis
error are unchanged. -/
theorem update_error_latch (env : Env) (c : Controller) (has_output : Bool) :
    ((update env c has_output).ret = false ↔
        ∃ E c', update_cascade env c = .error (E, c')) ∧
    (∀ E c', update_cascade env c = .error (E, c') →
        (E = ERROR_OVERSPEED ∨ E = ERROR_INVALID_INPUT_MODE ∨ E = ERROR_INVALID_MIRROR_AXIS
          ∨ E = ERROR_INVALID_ESTIMATE) ∧
        (update env c has_output).ctrl.error_ = c.error_ ||| E ∧
        (∀ i, c.error_.testBit i = true →
          (update env c has_output).ctrl.error_.testBit i = true) ∧
        (update env c has_output).ctrl.axis_.error_
          = c.axis_.error_ ||| Axis.ERROR_CONTROLLER_FAILED ∧
        (update env c has_output).out = none) ∧
    ((update env c has_output).ret = true →
        (update env c has_output).ctrl.error_ = c.error_ ∧
        (update env c has_output).ctrl.axis_.error_ = c.axis_.error_) := by
  refine ⟨?_, ?_, ?_⟩
  · cases hk : update_cascade env c with
    | error x =>
      obtain ⟨E, c'⟩ := x
      rw [update_of_error has_output hk]
      exact ⟨fun _ => ⟨E, c', rfl⟩, fun _ => rfl⟩
    | ok k =>
      rw [update_of_ok has_output hk]
      constructor
      · intro h; cases h
      · rintro ⟨E, c', h⟩; cases h
  · intro E c' hk
    obtain ⟨c1, E1, hf, hx, hE⟩ := update_cascade_error hk
    injection hx with hx1 hx2
    subst hx1 hx2
    rw [update_of_error has_output hk]
    have he : (c1.set_error E).error_ = c.error_ ||| E := by
      show c1.error_ ||| E = c.error_ ||| E
      rw [hf.error_eq]
    refine ⟨hE, he, ?_, ?_, rfl⟩
    · intro i hi
      show (c1.set_error E).error_.testBit i = true
      rw [he, Nat.testBit_lor, hi]
      rfl
    · show c1.axis_.error_ ||| Axis.ERROR_CONTROLLER_FAILED
        = c.axis_.error_ ||| Axis.ERROR_CONTROLLER_FAILED
      rw [hf.axis_error_eq]
  · intro hret
    cases hk : update_cascade env c with
    | error x =>
      obtain ⟨E, c'⟩ := x
      rw [update_of_error has_output hk] at hret
      cases hret
    | ok k =>
      rw [update_of_ok has_output hk]
      have hf := frame_cascade hk
      dsimp only
      rw [update_integrator_eq]
      exact ⟨hf.error_eq, hf.axis_error_eq⟩

/-- C2 (witness).  The unassigned input mode `4` with `OVERSPEED` (bit value 1)
already latched: the tick raises `INVALID_INPUT_MODE` (bit value 2), `error_`
becomes `1 ||| 2 = 3`, the axis error becomes `512`, nothing is stored. -/
theorem update_error_latch_witness :
    (update env0 ctrl_bad_mode true).ret = false ∧
    (update env0 ctrl_bad_mode true).ctrl.error_ = 3 ∧
    (update env0 ctrl_bad_mode true).ctrl.axis_.error_ = 512 ∧
    (update env0 ctrl_bad_mode true).out = none := by
  have hk : update_cascade env0 ctrl_bad_mode
      = .error (ERROR_INVALID_INPUT_MODE, ctrl_bad_mode.set_error ERROR_INVALID_INPUT_MODE) := by
    simp [update_cascade, update_front, update_inputs, update_fold_input, update_dispatch, raise,
      INPUT_MODE_INACTIVE, INPUT_MODE_PASSTHROUGH, INPUT_MODE_VEL_RAMP, INPUT_MODE_TORQUE_RAMP,
      INPUT_MODE_POS_FILTER, INPUT_MODE_MIRROR, INPUT_MODE_TRAP_TRAJ, ctrl_bad_mode, ctrl0]
  obtain ⟨h1, h2, -⟩ := update_error_latch env0 ctrl_bad_mode true
  obtain ⟨-, h3, -, h4, h5⟩ := h2 _ _ hk
  exact ⟨h1.mpr ⟨_, _, hk⟩, h3, h4, h5⟩

theorem frame_src_encoder {env : Env} {c0 c : Controller} (hf : Frame c0 c) :
    src_encoder env c = src_encoder env c0 := by
  unfold src_encoder
  rw [hf.src_eq]

theorem frame_vel_estimate_src {env : Env} {c0 c : Controller} (hf : Frame c0 c) :
    vel_estimate_src env c = vel_estimate_src env c0 := by
  unfold vel_estimate_src vel_estimate_valid
  rw [frame_src_encoder hf]

theorem frame_pos_estimate_linear {env : Env} {c0 c : Controller} (hf : Frame c0 c) :
    pos_estimate_linear env c = pos_estimate_linear env c0 := by
  unfold pos_estimate_linear pos_estimate_valid
  rw [frame_src_encoder hf]

theorem frame_pos_estimate_circular {env : Env} {c0 c : Controller} (hf : Frame c0 c) :
    pos_estimate_circular env c = pos_estimate_circular env c0 := by
  unfold pos_estimate_circular pos_estimate_valid
  rw [frame_src_encoder hf]

theorem frame_update_gains {c0 c : Controller} (hf : Frame c0 c) :
    update_gains c = update_gains c0 := by
  have h1 : c.config_.vel_gain = c0.config_.vel_gain := by
    have h := congrArg Config_t.vel_gain hf.config_eq
    exact h
  have h2 : c.config_.vel_integrator_gain = c0.config_.vel_integrator_gain := by
    have h := congrArg Config_t.vel_integrator_gain hf.config_eq
    exact h
  unfold update_gains
  rw [hf.motor_eq, h1, h2]

/-- With the velocity loop active the velocity stage needs the velocity
estimate and adds the proportional and the integral term. -/
theorem velocity_ok_active {env : Env} {c : Controller} {vel_des g vel_gain torque tv v_err : ℚ}
    (hm : CONTROL_MODE_VELOCITY_CONTROL ≤ c.config_.control_mode)
    (h : update_velocity env c vel_des g vel_gain torque = .ok (tv, v_err)) :
    ∃ vel_estimate, vel_estimate_src env c = some vel_estimate ∧
      v_err = vel_des - vel_estimate ∧
      tv = torque + (vel_gain * g) * v_err + c.vel_integrator_torque_ := by
  unfold update_velocity at h
  rw [if_pos hm] at h
  split at h
  · exact absurd h (raise_ne_ok _ _ _)
  · rename_i ve hve
    injection h with h
    injection h with h1 h2
    subst h2
    exact ⟨ve, hve, rfl, h1.symm⟩

theorem current_limit_ok_active {env : Env} {c : Controller} {vel_gain torque t : ℚ}
    (hm : CONTROL_MODE_VELOCITY_CONTROL ≤ c.config_.control_mode)
    (h : update_current_limit env c vel_gain torque = .ok t) : t = torque := by
  unfold update_current_limit at h
  rw [if_neg (by rintro ⟨h1, -⟩; exact absurd hm (not_le.mpr h1))] at h
  injection h with h
  exact h.symm

/-- C3.  Take a tick that gets past every check, with `k` the locals before the
torque limiter, and the velocity loop active (`control_mode ≥ VELOCITY` in the
cascade).  Then `update` returns `true`, and with `Tlim` the motor limit:
if the unclamped torque `k.torque` lies outside `[-Tlim, +Tlim]` the new
`vel_integrator_torque_` is the old one times `0.99`, otherwise it is the old
one plus `vel_integrator_gain * g * dt * v_err`.  Here `vel_integrator_gain` is
the local of that name (the configured gain, divided by the effective flux for
an induction motor), `g` the gain-scheduling multiplier that position control
produced on this tick, `v_err = vel_des - vel_estimate` with `vel_des` the
(limited) velocity reference, and the unclamped torque is the feed-forward torque
plus `vel_gain * g * v_err` plus the old integrator. -/
theorem update_integrator_law (env : Env) (c : Controller) (has_output : Bool) (k : Cascade)
    (hk : update_cascade env c = .ok k)
    (hm : CONTROL_MODE_VELOCITY_CONTROL ≤ k.ctrl.config_.control_mode) :
    (update env c has_output).ret = true ∧
    (update env c has_output).ctrl.vel_integrator_torque_ =
      (if k.torque < -c.axis_.motor_.max_available_torque
          ∨ c.axis_.motor_.max_available_torque < k.torque then
        c.vel_integrator_torque_ * 0.99
      else
        c.vel_integrator_torque_
          + ((k.vel_integrator_gain * k.gain_scheduling_multiplier) * env.current_meas_period)
            * k.v_err) ∧
    k.vel_integrator_gain = (update_gains c).2 ∧
    ∃ vel_des vel_estimate torque_ff,
      update_front env c = .ok (k.ctrl, vel_des, k.gain_scheduling_multiplier) ∧
      vel_estimate_src env c = some vel_estimate ∧
      k.v_err = update_vel_limit k.ctrl vel_des - vel_estimate ∧
      update_anticogging env k.ctrl = .ok torque_ff ∧
      k.torque = torque_ff + ((update_gains c).1 * k.gain_scheduling_multiplier) * k.v_err
        + c.vel_integrator_torque_ := by
  have hf := frame_cascade hk
  obtain ⟨vel_des, torque_ff, torque_v, h3, h4, h5, h6, h7, h8⟩ := update_cascade_ok hk
  obtain ⟨ve, hve, hverr, htv⟩ := velocity_ok_active hm h6
  have ht := current_limit_ok_active hm h7
  rw [update_of_ok has_output hk]
  dsimp only
  refine ⟨rfl, ?_, ?_, vel_des, ve, torque_ff, h3, ?_, hverr, h5, ?_⟩
  · unfold update_integrator
    rw [if_neg (not_lt.mpr hm)]
    by_cases hl : k.torque < -c.axis_.motor_.max_available_torque
        ∨ c.axis_.motor_.max_available_torque < k.torque
    · have hl' := (torque_limit_limited _ _).mpr (hf.motor_eq ▸ hl)
      rw [if_pos hl', if_pos hl, hf.integrator_eq]
    · have hl' : ¬ (torque_limit k.ctrl.axis_.motor_.max_available_torque k.torque).1 = true :=
        fun h => hl (hf.motor_eq ▸ (torque_limit_limited _ _).mp h)
      rw [if_neg hl', if_neg hl, hf.integrator_eq]
  · rw [h8, frame_update_gains hf]
  · rw [← frame_vel_estimate_src hf]
    exact hve
  · rw [ht, htv, frame_update_gains hf, hf.integrator_eq]

/-- C3 (witness).  Scenario S2: the unclamped torque is `1 * 100 + 5 = 105 > 1`,
so the tick stores the torque `1` and the integrator becomes `5 * 0.99 = 4.95`. -/
theorem update_integrator_law_witness :
    update_cascade env0 ctrl_s2 = .ok cascade_s2 ∧
    (update env0 ctrl_s2 true).ret = true ∧
    (update env0 ctrl_s2 true).out = some 1 ∧
    (update env0 ctrl_s2 true).ctrl.vel_integrator_torque_ = 4.95 := by
  have hk : update_cascade env0 ctrl_s2 = .ok cascade_s2 := by
    norm_num [update_cascade, update_inputs, update_fold_input, update_dispatch,
      update_front, update_calibration, update_position, update_vel_limit, update_overspeed, update_gains,
      update_anticogging, update_velocity, update_current_limit,
      update_front, vel_estimate_src, vel_estimate_valid, src_encoder,
      INPUT_MODE_INACTIVE, INPUT_MODE_PASSTHROUGH, CONTROL_MODE_VELOCITY_CONTROL,
      CONTROL_MODE_POSITION_CONTROL, CONTROL_MODE_TORQUE_CONTROL, Motor.MOTOR_TYPE_ACIM,
      cascade_s2, ctrl_s2, ctrl0, env0, enc0]
  have h := update_integrator_law env0 ctrl_s2 true cascade_s2 hk (by decide)
  refine ⟨hk, h.1, ?_, ?_⟩
  · rw [update_of_ok true hk]
    norm_num [torque_limit, cascade_s2, ctrl_s2, ctrl0]
  · rw [h.2.1]
    norm_num [cascade_s2, ctrl_s2, ctrl0]

/-- Outside the trajectory mode the input-mode dispatch leaves the configuration,
the axis and the trajectory flags alone. -/
theorem dispatch_config {env : Env} {c c1 : Controller} {ap : Option ℚ}
    (hm : c.config_.input_mode ≠ INPUT_MODE_TRAP_TRAJ)
    (h : update_dispatch env c = .ok (c1, ap)) :
    c1.config_ = c.config_ ∧ c1.axis_ = c.axis_ ∧ c1.input_pos_ = c.input_pos_ := by
  unfold update_dispatch at h
  split_ifs at h
  · injection h with h; injection h with h1 h2; subst h1; exact ⟨rfl, rfl, rfl⟩
  · injection h with h; injection h with h1 h2; subst h1; exact ⟨rfl, rfl, rfl⟩
  · injection h with h; injection h with h1 h2; subst h1; exact ⟨rfl, rfl, rfl⟩
  · injection h with h; injection h with h1 h2; subst h1; exact ⟨rfl, rfl, rfl⟩
  · injection h with h; injection h with h1 h2; subst h1; exact ⟨rfl, rfl, rfl⟩
  · split at h
    · injection h with h; injection h with h1 h2; subst h1; exact ⟨rfl, rfl, rfl⟩
    · exact absurd h (raise_ne_ok _ _ _)
  · exact absurd h (raise_ne_ok _ _ _)

/-- The fold of line 137 writes `input_pos_` only. -/
theorem fold_input_eq (c : Controller) :
    update_fold_input c = { c with input_pos_ := (update_fold_input c).input_pos_ } := by
  unfold update_fold_input
  split_ifs <;> rfl

theorem fold_input_config (c : Controller) : (update_fold_input c).config_ = c.config_ := by
  rw [fold_input_eq]

theorem late_control_mode {c1 c : Controller} (h : Late c1 c) :
    c.config_.control_mode = c1.config_.control_mode := by
  rw [h.eq]

/-- C4 (counterexample).  Both controllers enter the tick in torque control
(`control_mode = 1 < VELOCITY`) with the integrator at `5`.  The first has the
unassigned input mode `4`: the tick fails and the integrator is still `5`.  The
second is in trajectory mode past the end of its trajectory: the tick switches to
position control, returns `true`, and the integrator is still `5`. -/
theorem update_integrator_not_reset :
    (ctrl_bad_mode.config_.control_mode < CONTROL_MODE_VELOCITY_CONTROL ∧
      (update env0 ctrl_bad_mode true).ret = false ∧
      (update env0 ctrl_bad_mode true).ctrl.vel_integrator_torque_ = 5) ∧
    (ctrl_handoff.config_.control_mode < CONTROL_MODE_VELOCITY_CONTROL ∧
      (update env0 ctrl_handoff true).ret = true ∧
      (update env0 ctrl_handoff true).ctrl.vel_integrator_torque_ = 5) := by
  refine ⟨⟨by decide, ?_, ?_⟩, ⟨by decide, ?_, ?_⟩⟩
  · simp [update, update_cascade, update_front, update_inputs, update_fold_input,
      update_dispatch, raise,
      INPUT_MODE_INACTIVE, INPUT_MODE_PASSTHROUGH, INPUT_MODE_VEL_RAMP, INPUT_MODE_TORQUE_RAMP,
      INPUT_MODE_POS_FILTER, INPUT_MODE_MIRROR, INPUT_MODE_TRAP_TRAJ, ctrl_bad_mode, ctrl0]
  · simp [update, update_cascade, update_front, update_inputs, update_fold_input,
      update_dispatch, raise, set_error,
      INPUT_MODE_INACTIVE, INPUT_MODE_PASSTHROUGH, INPUT_MODE_VEL_RAMP, INPUT_MODE_TORQUE_RAMP,
      INPUT_MODE_POS_FILTER, INPUT_MODE_MIRROR, INPUT_MODE_TRAP_TRAJ, ctrl_bad_mode, ctrl0]
  · norm_num [update, update_cascade, update_front, update_inputs, update_fold_input,
      update_dispatch, update_trap_traj,
      update_calibration, update_position, update_pos_err, gain_schedule, update_vel_limit,
      update_overspeed, update_gains,
      update_anticogging, update_velocity, update_current_limit, update_integrator, torque_limit,
      vel_estimate_src, vel_estimate_valid, pos_estimate_linear, pos_estimate_valid, src_encoder,
      INPUT_MODE_INACTIVE, INPUT_MODE_PASSTHROUGH, INPUT_MODE_VEL_RAMP, INPUT_MODE_TORQUE_RAMP,
      INPUT_MODE_POS_FILTER, INPUT_MODE_MIRROR, INPUT_MODE_TRAP_TRAJ,
      CONTROL_MODE_VELOCITY_CONTROL,
      CONTROL_MODE_POSITION_CONTROL, CONTROL_MODE_TORQUE_CONTROL, Motor.MOTOR_TYPE_ACIM,
      ctrl_handoff, ctrl0, env0, enc0]
  · norm_num [update, update_cascade, update_front, update_inputs, update_fold_input,
      update_dispatch, update_trap_traj,
      update_calibration, update_position, update_pos_err, gain_schedule, update_vel_limit,
      update_overspeed, update_gains,
      update_anticogging, update_velocity, update_current_limit, update_integrator, torque_limit,
      vel_estimate_src, vel_estimate_valid, pos_estimate_linear, pos_estimate_valid, src_encoder,
      INPUT_MODE_INACTIVE, INPUT_MODE_PASSTHROUGH, INPUT_MODE_VEL_RAMP, INPUT_MODE_TORQUE_RAMP,
      INPUT_MODE_POS_FILTER, INPUT_MODE_MIRROR, INPUT_MODE_TRAP_TRAJ,
      CONTROL_MODE_VELOCITY_CONTROL,
      CONTROL_MODE_POSITION_CONTROL, CONTROL_MODE_TORQUE_CONTROL, Motor.MOTOR_TYPE_ACIM,
      ctrl_handoff, ctrl0, env0, enc0]

/-- C4 (amended).  For every tick on which `update` returns `true` (any input
mode, any estimates): if `control_mode < VELOCITY` when `update` returns, then
`vel_integrator_torque_ = 0` when `update` returns; and `control_mode` on return
is its value at entry whenever the input mode is not the trajectory mode. -/
theorem update_integrator_reset (env : Env) (c : Controller) (has_output : Bool)
    (hret : (update env c has_output).ret = true) :
    ((update env c has_output).ctrl.config_.control_mode < CONTROL_MODE_VELOCITY_CONTROL →
      (update env c has_output).ctrl.vel_integrator_torque_ = 0) ∧
    (c.config_.input_mode ≠ INPUT_MODE_TRAP_TRAJ →
      (update env c has_output).ctrl.config_.control_mode = c.config_.control_mode) := by
  cases hk : update_cascade env c with
  | error x =>
    obtain ⟨E, c'⟩ := x
    rw [update_of_error has_output hk] at hret
    cases hret
  | ok k =>
    rw [update_of_ok has_output hk]
    dsimp only
    constructor
    · intro hm
      rw [update_integrator_eq] at hm
      unfold update_integrator
      rw [if_pos hm]
    · intro hin
      obtain ⟨c1, ap, h1, hl⟩ := update_cascade_ok_late hk
      have hin' : (update_fold_input c).config_.input_mode ≠ INPUT_MODE_TRAP_TRAJ := by
        rw [fold_input_config]
        exact hin
      have hd := (dispatch_config hin' h1).1
      rw [update_integrator_eq]
      show k.ctrl.config_.control_mode = c.config_.control_mode
      rw [late_control_mode hl, hd, fold_input_config]

/-- C4 (witness).  Passthrough torque control entered with the integrator at
`5`: the tick returns `true` and leaves the integrator at `0`. -/
theorem update_integrator_reset_witness :
    (update env0 { ctrl0 with vel_integrator_torque_ := 5 } true).ret = true ∧
    (update env0 { ctrl0 with vel_integrator_torque_ := 5 } true).ctrl.vel_integrator_torque_
      = 0 := by
  have hret : (update env0 { ctrl0 with vel_integrator_torque_ := 5 } true).ret = true := by
    norm_num [update, update_cascade, update_front, update_inputs, update_fold_input,
      update_dispatch, update_calibration, update_position, update_vel_limit,
      update_overspeed, update_gains,
      update_anticogging, update_velocity, update_current_limit, update_integrator, torque_limit,
      INPUT_MODE_INACTIVE, INPUT_MODE_PASSTHROUGH,
      CONTROL_MODE_VELOCITY_CONTROL,
      CONTROL_MODE_POSITION_CONTROL, CONTROL_MODE_TORQUE_CONTROL, Motor.MOTOR_TYPE_ACIM,
      ctrl0, env0, enc0]
  have h := (update_integrator_reset env0 { ctrl0 with vel_integrator_torque_ := 5 } true hret).2
    (by decide)
  exact ⟨hret, (update_integrator_reset env0 _ true hret).1 (by rw [h]; decide)⟩

theorem frame_pos_estimate_valid {env : Env} {c0 c : Controller} (hf : Frame c0 c) :
    pos_estimate_valid env c = pos_estimate_valid env c0 := by
  unfold pos_estimate_valid
  rw [frame_src_encoder hf]

theorem frame_vel_estimate_valid {env : Env} {c0 c : Controller} (hf : Frame c0 c) :
    vel_estimate_valid env c = vel_estimate_valid env c0 := by
  unfold vel_estimate_valid
  rw [frame_src_encoder hf]

theorem pos_linear_valid {env : Env} {c : Controller} {v : ℚ}
    (h : pos_estimate_linear env c = some v) : pos_estimate_valid env c = true := by
  unfold pos_estimate_linear at h
  split_ifs at h with hv
  exact hv

theorem pos_circular_valid {env : Env} {c : Controller} {v : ℚ}
    (h : pos_estimate_circular env c = some v) : pos_estimate_valid env c = true := by
  unfold pos_estimate_circular at h
  split_ifs at h with hv
  exact hv

theorem vel_valid {env : Env} {c : Controller} {v : ℚ}
    (h : vel_estimate_src env c = some v) : vel_estimate_valid env c = true := by
  unfold vel_estimate_src at h
  split_ifs at h with hv
  exact hv

/-- Position control with the position loop active needs a valid position
estimate. -/
theorem position_ok_valid {env : Env} {c c3 : Controller} {vel_des g : ℚ}
    (hm : CONTROL_MODE_POSITION_CONTROL ≤ c.config_.control_mode)
    (h : update_position env c = .ok (c3, vel_des, g)) :
    pos_estimate_valid env c = true := by
  unfold update_position at h
  dsimp only at h
  rw [if_pos hm] at h
  split at h
  · cases h
  · rename_i heq
    unfold update_pos_err at heq
    split_ifs at heq
    · split at heq
      · exact absurd heq (raise_ne_ok _ _ _)
      · rename_i hv
        exact pos_circular_valid hv
    · split at heq
      · exact absurd heq (raise_ne_ok _ _ _)
      · rename_i hv
        exact pos_linear_valid hv

/-- The overspeed check raises `OVERSPEED` exactly when it is enabled and the
valid velocity estimate exceeds the tolerated limit. -/
theorem overspeed_raises_iff {env : Env} {c : Controller} {v : ℚ}
    (hv : vel_estimate_src env c = some v) :
    update_overspeed env c = .error (ERROR_OVERSPEED, c.set_error ERROR_OVERSPEED) ↔
      (c.config_.enable_overspeed_error = true ∧
        |v| > c.config_.vel_limit_tolerance * c.config_.vel_limit) := by
  unfold update_overspeed
  rw [hv]
  dsimp only
  split_ifs with h1 h2
  · exact ⟨fun _ => ⟨h1, h2⟩, fun _ => rfl⟩
  · constructor
    · intro h; cases h
    · rintro ⟨-, h⟩; exact absurd h h2
  · constructor
    · intro h; cases h
    · rintro ⟨h, -⟩; exact absurd h h1

/-- A tick that raises `OVERSPEED` got to the overspeed check and raised it there. -/
theorem update_cascade_overspeed {env : Env} {c0 c' : Controller}
    (h : update_cascade env c0 = .error (ERROR_OVERSPEED, c')) :
    ∃ c3 vel_des g, update_front env c0 = .ok (c3, vel_des, g) ∧
      update_overspeed env c3 = .error (ERROR_OVERSPEED, c') := by
  cases h3 : update_front env c0 with
  | error y =>
    rw [update_cascade_error_front h3] at h
    injection h with h
    subst h
    rcases update_front_error h3 with h1 | ⟨c1, ap, c, h1, hl, hx⟩
    · obtain ⟨E, hE, hx⟩ := inputs_error h1
      injection hx with hx1 hx2
      subst hx1
      rcases hE with hE | hE <;> exact absurd hE (by decide)
    · injection hx with hx1 hx2
      exact absurd hx1 (by decide)
  | ok r =>
    obtain ⟨c3, vel_des, g⟩ := r
    refine ⟨c3, vel_des, g, rfl, ?_⟩
    unfold update_cascade at h
    rw [h3] at h
    dsimp only at h
    split at h
    · injection h with h
      subst h
      assumption
    · split at h
      · rename_i e h5
        injection h with h
        subst h
        have := anticogging_error h5
        injection this with hx1 hx2
        exact absurd hx1 (by decide)
      · split at h
        · rename_i e h6
          injection h with h
          subst h
          have := velocity_error h6
          injection this with hx1 hx2
          exact absurd hx1 (by decide)
        · split at h
          · rename_i e h7
            injection h with h
            subst h
            have := current_limit_error h7
            injection this with hx1 hx2
            exact absurd hx1 (by decide)
          · cases h

theorem update_cascade_of_overspeed {env : Env} {c0 c3 : Controller} {vel_des g : ℚ}
    {x : Nat × Controller}
    (h3 : update_front env c0 = .ok (c3, vel_des, g))
    (h4 : update_overspeed env c3 = .error x) :
    update_cascade env c0 = .error x := by
  unfold update_cascade
  rw [h3]
  dsimp only
  rw [h4]

theorem front_frame {env : Env} {c0 c3 : Controller} {vel_des g : ℚ}
    (h3 : update_front env c0 = .ok (c3, vel_des, g)) : Frame c0 c3 := by
  obtain ⟨c1, ap, c2, h1, h2, h3'⟩ := update_front_ok h3
  exact (frame_inputs h1).trans (late_calibration_position h2 h3').frame

/-- C6.  Take a tick that reaches the overspeed check without an earlier error
(`update_front` succeeds) and with a valid velocity estimate.  The tick fails
with `OVERSPEED` if and only if `enable_overspeed_error` is set and
`|vel_estimate| > vel_limit_tolerance * vel_limit` (strictly); and when it does,
`update` returns `false`, stores no torque and has OR-ed `OVERSPEED` into `error_`. -/
theorem update_overspeed_iff (env : Env) (c : Controller) (has_output : Bool)
    (c3 : Controller) (vel_des g vel_estimate : ℚ)
    (h3 : update_front env c = .ok (c3, vel_des, g))
    (hv : vel_estimate_src env c = some vel_estimate) :
    ((∃ c', update_cascade env c = .error (ERROR_OVERSPEED, c')) ↔
      (c.config_.enable_overspeed_error = true ∧
        |vel_estimate| > c.config_.vel_limit_tolerance * c.config_.vel_limit)) ∧
    (∀ c', update_cascade env c = .error (ERROR_OVERSPEED, c') →
      (update env c has_output).ret = false ∧
      (update env c has_output).out = none ∧
      (update env c has_output).ctrl.error_ = c.error_ ||| ERROR_OVERSPEED) := by
  have hf := front_frame h3
  have hv3 : vel_estimate_src env c3 = some vel_estimate := by
    rw [frame_vel_estimate_src hf]; exact hv
  have e1 : c3.config_.enable_overspeed_error = c.config_.enable_overspeed_error := by
    have h := congrArg Config_t.enable_overspeed_error hf.config_eq
    exact h
  have e2 : c3.config_.vel_limit_tolerance = c.config_.vel_limit_tolerance := by
    have h := congrArg Config_t.vel_limit_tolerance hf.config_eq
    exact h
  have e3 : c3.config_.vel_limit = c.config_.vel_limit := by
    have h := congrArg Config_t.vel_limit hf.config_eq
    exact h
  have hiff := overspeed_raises_iff hv3
  rw [e1, e2, e3] at hiff
  constructor
  · constructor
    · rintro ⟨c', hc⟩
      obtain ⟨c3', vd', g', h3', h4⟩ := update_cascade_overspeed hc
      rw [h3] at h3'
      injection h3' with h3'
      injection h3' with ha hb
      subst ha
      obtain ⟨E, -, hx⟩ := overspeed_error h4
      injection hx with hx1 hx2
      subst hx1
      rw [hx2] at h4
      exact hiff.mp h4
    · intro h
      exact ⟨_, update_cascade_of_overspeed h3 (hiff.mpr h)⟩
  · intro c' hc
    rw [update_of_error has_output hc]
    exact ⟨rfl, rfl, (update_cascade_error_latch hc).1⟩

/-- C6 (witness).  Scenario S3: `vel_limit = 10`, tolerance `1.2`, velocity
estimate `13 > 12`: the tick fails with `OVERSPEED` and stores no torque. -/
theorem update_overspeed_iff_witness :
    (update env_s3 ctrl_s3 true).ret = false ∧
    (update env_s3 ctrl_s3 true).out = none ∧
    (update env_s3 ctrl_s3 true).ctrl.error_ = ERROR_OVERSPEED := by
  have h3 : update_front env_s3 ctrl_s3 = .ok (ctrl_s3, 0, 1) := by
    norm_num [update_front, update_inputs, update_fold_input, update_dispatch,
      update_calibration, update_position,
      INPUT_MODE_INACTIVE, INPUT_MODE_PASSTHROUGH, CONTROL_MODE_POSITION_CONTROL,
      CONTROL_MODE_TORQUE_CONTROL, ctrl_s3, ctrl0]
  have hv : vel_estimate_src env_s3 ctrl_s3 = some 13 := by
    simp [vel_estimate_src, vel_estimate_valid, src_encoder, env_s3, env0, enc0, ctrl_s3, ctrl0]
  have h := update_overspeed_iff env_s3 ctrl_s3 true ctrl_s3 0 1 13 h3 hv
  obtain ⟨c', hc⟩ := h.1.mpr ⟨rfl, by norm_num [ctrl_s3, ctrl0]⟩
  exact h.2 c' hc

/-- C5.  Take a tick whose input shaping raises no error and leaves the
controller `c1`.  If `c1.control_mode ≥ POSITION` and the bound position
estimate is not valid, or `c1.control_mode ≥ VELOCITY` and the bound velocity
estimate is not valid, then the tick raises `INVALID_ESTIMATE`: `update` returns
`false`, `error_` on return is the old `error_` OR-ed with `INVALID_ESTIMATE`
(no other bit is newly set), and no torque is stored. -/
theorem update_invalid_estimate (env : Env) (c : Controller) (has_output : Bool)
    (c1 : Controller) (ap : Option ℚ)
    (h1 : update_inputs env c = .ok (c1, ap))
    (hv : (CONTROL_MODE_POSITION_CONTROL ≤ c1.config_.control_mode
            ∧ pos_estimate_valid env c = false) ∨
          (CONTROL_MODE_VELOCITY_CONTROL ≤ c1.config_.control_mode
            ∧ vel_estimate_valid env c = false)) :
    (∃ c', update_cascade env c = .error (ERROR_INVALID_ESTIMATE, c')) ∧
    (update env c has_output).ret = false ∧
    (update env c has_output).ctrl.error_ = c.error_ ||| ERROR_INVALID_ESTIMATE ∧
    (update env c has_output).out = none := by
  have hf1 := frame_inputs h1
  -- the position loop cannot have been passed with an invalid position estimate
  have hpos : ∀ c3 vel_des g, update_front env c = .ok (c3, vel_des, g) →
      CONTROL_MODE_POSITION_CONTROL ≤ c1.config_.control_mode →
      pos_estimate_valid env c = true := by
    intro c3 vel_des g h3 hm
    obtain ⟨c1', ap', c2, h1', h2, h3'⟩ := update_front_ok h3
    rw [h1] at h1'
    injection h1' with h1'
    injection h1' with ha hb
    subst ha
    have hl2 := late_calibration h2
    have hm2 : CONTROL_MODE_POSITION_CONTROL ≤ c2.config_.control_mode := by
      rw [late_control_mode hl2]; exact hm
    have := position_ok_valid hm2 h3'
    rw [frame_pos_estimate_valid (hf1.trans hl2.frame)] at this
    exact this
  have key : ∃ c', update_cascade env c = .error (ERROR_INVALID_ESTIMATE, c') := by
    cases hk : update_cascade env c with
    | ok k =>
      exfalso
      obtain ⟨vel_des, torque_ff, torque_v, h3, h4, h5, h6, h7, h8⟩ := update_cascade_ok hk
      obtain ⟨c1', ap', h1', hl⟩ := update_cascade_ok_late hk
      rw [h1] at h1'
      injection h1' with h1'
      injection h1' with ha hb
      subst ha
      rcases hv with ⟨hm, hinv⟩ | ⟨hm, hinv⟩
      · rw [hpos _ _ _ h3 hm] at hinv
        cases hinv
      · have hmk : CONTROL_MODE_VELOCITY_CONTROL ≤ k.ctrl.config_.control_mode := by
          rw [late_control_mode hl]; exact hm
        obtain ⟨ve, hve, -⟩ := velocity_ok_active hmk h6
        have := vel_valid hve
        rw [frame_vel_estimate_valid (hf1.trans hl.frame), hinv] at this
        cases this
    | error x =>
      obtain ⟨E, c'⟩ := x
      rcases update_cascade_error_cases hk with h1' | ⟨c1', ap', c4, E', h1', hl, hE, hx⟩
      · rw [h1] at h1'
        cases h1'
      · injection hx with hx1 hx2
        subst hx1
        rcases hE with hE | hE
        · subst hE
          exact ⟨c', rfl⟩
        · exfalso
          subst hE
          obtain ⟨c3, vel_des, g, h3, h4⟩ := update_cascade_overspeed hk
          have hf3 := front_frame h3
          rcases hv with ⟨hm, hinv⟩ | ⟨hm, hinv⟩
          · rw [hpos _ _ _ h3 hm] at hinv
            cases hinv
          · have hinv3 : vel_estimate_valid env c3 = false := by
              rw [frame_vel_estimate_valid hf3]; exact hinv
            unfold update_overspeed at h4
            split_ifs at h4
            unfold vel_estimate_src at h4
            rw [hinv3] at h4
            simp only [Bool.false_eq_true, if_false] at h4
            have := raise_eq_error h4
            injection this with hx1 hx2
            exact absurd hx1 (by decide)
  obtain ⟨c', hc⟩ := key
  refine ⟨⟨c', hc⟩, ?_⟩
  rw [update_of_error has_output hc]
  exact ⟨rfl, (update_cascade_error_latch hc).1, rfl⟩

/-- C5 (witness).  Velocity control bound to an encoder whose velocity estimate
is not valid: the passthrough tick fails, `error_` goes from `0` to
`INVALID_ESTIMATE`, nothing is stored. -/
theorem update_invalid_estimate_witness :
    (update env_no_vel
      { ctrl0 with config_.control_mode := CONTROL_MODE_VELOCITY_CONTROL } true).ret = false ∧
    (update env_no_vel
      { ctrl0 with config_.control_mode := CONTROL_MODE_VELOCITY_CONTROL } true).ctrl.error_
        = ERROR_INVALID_ESTIMATE ∧
    (update env_no_vel
      { ctrl0 with config_.control_mode := CONTROL_MODE_VELOCITY_CONTROL } true).out = none :=
  (update_invalid_estimate env_no_vel
    { ctrl0 with config_.control_mode := CONTROL_MODE_VELOCITY_CONTROL } true
    { ctrl0 with config_.control_mode := CONTROL_MODE_VELOCITY_CONTROL } none
    (by norm_num [update_inputs, update_fold_input, update_dispatch,
          INPUT_MODE_INACTIVE, INPUT_MODE_PASSTHROUGH, ctrl0])
    (Or.inr ⟨by decide, by
      simp [vel_estimate_valid, src_encoder, env_no_vel, env0, enc0, ctrl0]⟩)).2

theorem clamp_of_abs_le {x T : ℚ} (h : |x| ≤ T) : clamp x (-T) T = x := by
  have h' := abs_le.mp h
  unfold clamp
  rw [if_neg (not_lt.mpr h'.1), if_neg (not_lt.mpr h'.2)]

/-- C7.  With `input_mode = PASSTHROUGH`, `control_mode = TORQUE`, the
current-mode velocity limit and the overspeed error disabled, and anticogging
neither enabled nor calibrating: for every `input_torque` and every motor limit
`Tlim ≥ 0`, whatever the estimates and their validity, `update` returns `true`
and the torque it stores is `clamp(input_torque, -Tlim, +Tlim)`, which is
`input_torque` itself whenever `|input_torque| ≤ Tlim`. -/
theorem update_passthrough_torque (env : Env) (c : Controller) (has_output : Bool)
    (hin : c.config_.input_mode = INPUT_MODE_PASSTHROUGH)
    (hcm : c.config_.control_mode = CONTROL_MODE_TORQUE_CONTROL)
    (hcl : c.config_.enable_current_mode_vel_limit = false)
    (hos : c.config_.enable_overspeed_error = false)
    (hae : c.config_.anticogging.anticogging_enabled = false)
    (hac : c.config_.anticogging.calib_anticogging = false)
    (hT : 0 ≤ c.axis_.motor_.max_available_torque) :
    (update env c has_output).ret = true ∧
    (update env c has_output).out =
      (if has_output then
        some (clamp c.input_torque_ (-c.axis_.motor_.max_available_torque)
          c.axis_.motor_.max_available_torque)
      else none) ∧
    (|c.input_torque_| ≤ c.axis_.motor_.max_available_torque →
      clamp c.input_torque_ (-c.axis_.motor_.max_available_torque)
        c.axis_.motor_.max_available_torque = c.input_torque_) := by
  have hcfg := fold_input_config c
  have hfold := fold_input_eq c
  have hk : ∃ k, update_cascade env c = .ok k ∧ k.torque = c.input_torque_ := by
    simp [update_cascade, update_front, update_inputs, update_dispatch, update_calibration,
      update_position, update_overspeed, update_anticogging, update_velocity,
      update_current_limit, hcfg, hin, hcm, hcl, hos, hae, hac,
      INPUT_MODE_INACTIVE, INPUT_MODE_PASSTHROUGH, CONTROL_MODE_TORQUE_CONTROL,
      CONTROL_MODE_POSITION_CONTROL, CONTROL_MODE_VELOCITY_CONTROL]
    rw [hfold]
  obtain ⟨k, hk, hkt⟩ := hk
  have hm := (frame_cascade hk).motor_eq
  rw [update_of_ok has_output hk]
  dsimp only
  refine ⟨rfl, ?_, clamp_of_abs_le⟩
  rw [hm, hkt, torque_limit_eq_clamp hT]

/-- C7 (witness).  Scenario S1: `input_torque = 3` and the torque limit `10`
give the stored torque `3`. -/
theorem update_passthrough_torque_witness :
    (update env0 { ctrl0 with input_torque_ := 3 } true).ret = true ∧
    (update env0 { ctrl0 with input_torque_ := 3 } true).out = some 3 := by
  have h := update_passthrough_torque env0 { ctrl0 with input_torque_ := 3 } true
    rfl rfl rfl rfl rfl rfl (by norm_num [ctrl0])
  refine ⟨h.1, ?_⟩
  rw [h.2.1, h.2.2 (by norm_num [ctrl0])]
  rfl

/-- Folding a folded value changes nothing. -/
theorem fmodf_pos_idem (x y : ℚ) : fmodf_pos (fmodf_pos x y) y = fmodf_pos x y := by
  by_cases hy : y = 0
  · subst hy
    simp [fmodf_pos]
  · unfold fmodf_pos
    have h : (x - y * ((⌊x / y⌋ : ℤ) : ℚ)) / y = x / y - ((⌊x / y⌋ : ℤ) : ℚ) := by
      field_simp
    rw [h, Int.floor_sub_int, sub_self]
    simp

/-- For a positive range the fold lands in `[0, range)`. -/
theorem fmodf_pos_mem (x : ℚ) {y : ℚ} (hy : 0 < y) :
    0 ≤ fmodf_pos x y ∧ fmodf_pos x y < y := by
  unfold fmodf_pos
  have h1 : ((⌊x / y⌋ : ℤ) : ℚ) ≤ x / y := Int.floor_le _
  have h2 : x / y < ((⌊x / y⌋ : ℤ) : ℚ) + 1 := Int.lt_floor_add_one _
  have h3 : y * ((⌊x / y⌋ : ℤ) : ℚ) ≤ x := by
    have := mul_le_mul_of_nonneg_left h1 hy.le
    rwa [mul_div_cancel₀ _ hy.ne'] at this
  have h4 : x < y * (((⌊x / y⌋ : ℤ) : ℚ) + 1) := by
    have := mul_lt_mul_of_pos_left h2 hy
    rwa [mul_div_cancel₀ _ hy.ne'] at this
  constructor <;> linarith

theorem fold_input_pos (c : Controller) :
    (update_fold_input c).input_pos_ =
      if c.config_.circular_setpoints then
        fmodf_pos c.input_pos_ c.config_.circular_setpoint_range
      else c.input_pos_ := by
  unfold update_fold_input
  split_ifs <;> rfl

/-- The stage setpoints and inputs after one successful passthrough tick. -/
theorem passthrough_tick {env : Env} {c : Controller} {has_output : Bool}
    (hin : c.config_.input_mode = INPUT_MODE_PASSTHROUGH)
    (hret : (update env c has_output).ret = true) :
    (update env c has_output).ctrl.config_.readonly = c.config_.readonly ∧
    (update env c has_output).ctrl.input_pos_ = (update_fold_input c).input_pos_ ∧
    (update env c has_output).ctrl.input_vel_ = c.input_vel_ ∧
    (update env c has_output).ctrl.input_torque_ = c.input_torque_ ∧
    (update env c has_output).ctrl.pos_setpoint_ = (update_fold_input c).input_pos_ ∧
    (update env c has_output).ctrl.vel_setpoint_ = c.input_vel_ ∧
    (update env c has_output).ctrl.torque_setpoint_ = c.input_torque_ := by
  cases hk : update_cascade env c with
  | error x =>
    obtain ⟨E, c'⟩ := x
    rw [update_of_error has_output hk] at hret
    cases hret
  | ok k =>
    obtain ⟨c1, ap, h1, hl⟩ := update_cascade_ok_late hk
    have hf := frame_cascade hk
    have hcfg := fold_input_config c
    have hc1 : c1 = { update_fold_input c with
        pos_setpoint_ := (update_fold_input c).input_pos_,
        vel_setpoint_ := (update_fold_input c).input_vel_,
        torque_setpoint_ := (update_fold_input c).input_torque_ } := by
      have hin' : (update_fold_input c).config_.input_mode = INPUT_MODE_PASSTHROUGH := by
        rw [hcfg]; exact hin
      unfold update_inputs update_dispatch at h1
      rw [if_neg (by rw [hin']; decide), if_pos hin'] at h1
      injection h1 with h1
      injection h1 with h1 h1'
      exact h1.symm
    have hv : (update_fold_input c).input_vel_ = c.input_vel_ := by rw [fold_input_eq]
    have ht : (update_fold_input c).input_torque_ = c.input_torque_ := by rw [fold_input_eq]
    have hkv : k.ctrl.vel_setpoint_ = c1.vel_setpoint_ := by rw [hl.eq]
    have hkt : k.ctrl.torque_setpoint_ = c1.torque_setpoint_ := by rw [hl.eq]
    have hki : k.ctrl.input_pos_ = c1.input_pos_ := by rw [hl.eq]
    have hp : k.ctrl.pos_setpoint_ = (update_fold_input c).input_pos_ := by
      rcases hl.pos with hp | ⟨hc, hp⟩
      · rw [hp, hc1]
      · rw [hp, hc1]
        show fmodf_pos (update_fold_input c).input_pos_
          (update_fold_input c).config_.circular_setpoint_range = _
        have hc' : c.config_.circular_setpoints = true := by
          rw [hc1] at hc
          rw [← hcfg]
          exact hc
        rw [hcfg, fold_input_pos, if_pos hc', fmodf_pos_idem]
    rw [update_of_ok has_output hk]
    dsimp only
    rw [update_integrator_eq]
    refine ⟨hf.config_eq, ?_, hf.input_vel_eq, hf.input_torque_eq, hp, ?_, ?_⟩
    · show k.ctrl.input_pos_ = _
      rw [hki, hc1]
    · show k.ctrl.vel_setpoint_ = _
      rw [hkv, hc1]
      exact hv
    · show k.ctrl.torque_setpoint_ = _
      rw [hkt, hc1]
      exact ht

/-- C8.  In passthrough mode take two consecutive ticks that both return
`true`; between them the inputs and the configuration stay as the first tick left
them, while the axis (estimates, motor, trajectory, error latch) and the
environment may change.  After the first tick `vel_setpoint = input_vel`,
`torque_setpoint = input_torque` and `pos_setpoint = input_pos`, folded into the
circular range when `circular_setpoints` is set; after the second tick the three
stage setpoints are what they were after the first.  For a positive range the
folded `pos_setpoint` lies in `[0, circular_setpoint_range)`. -/
theorem update_passthrough_steady (env env2 : Env) (c : Controller) (axis2 : Axis)
    (has_output has_output2 : Bool)
    (hin : c.config_.input_mode = INPUT_MODE_PASSTHROUGH)
    (hret : (update env c has_output).ret = true)
    (hret2 : (update env2 { (update env c has_output).ctrl with axis_ := axis2 }
      has_output2).ret = true) :
    ((update env c has_output).ctrl.vel_setpoint_ = c.input_vel_ ∧
     (update env c has_output).ctrl.torque_setpoint_ = c.input_torque_ ∧
     (update env c has_output).ctrl.pos_setpoint_ =
       (if c.config_.circular_setpoints then
         fmodf_pos c.input_pos_ c.config_.circular_setpoint_range
       else c.input_pos_)) ∧
    ((update env2 { (update env c has_output).ctrl with axis_ := axis2 }
        has_output2).ctrl.pos_setpoint_ = (update env c has_output).ctrl.pos_setpoint_ ∧
     (update env2 { (update env c has_output).ctrl with axis_ := axis2 }
        has_output2).ctrl.vel_setpoint_ = (update env c has_output).ctrl.vel_setpoint_ ∧
     (update env2 { (update env c has_output).ctrl with axis_ := axis2 }
        has_output2).ctrl.torque_setpoint_
          = (update env c has_output).ctrl.torque_setpoint_) ∧
    (c.config_.circular_setpoints = true → 0 < c.config_.circular_setpoint_range →
      0 ≤ (update env c has_output).ctrl.pos_setpoint_ ∧
      (update env c has_output).ctrl.pos_setpoint_ < c.config_.circular_setpoint_range) := by
  obtain ⟨a1, a2, a3, a4, a5, a6, a7⟩ := passthrough_tick hin hret
  have hcs : (update env c has_output).ctrl.config_.circular_setpoints
      = c.config_.circular_setpoints := by
    have h := congrArg Config_t.circular_setpoints a1
    exact h
  have hcr : (update env c has_output).ctrl.config_.circular_setpoint_range
      = c.config_.circular_setpoint_range := by
    have h := congrArg Config_t.circular_setpoint_range a1
    exact h
  have hin2 : ({ (update env c has_output).ctrl with axis_ := axis2 } : Controller).config_.input_mode
      = INPUT_MODE_PASSTHROUGH := by
    have h := congrArg Config_t.input_mode a1
    exact h.trans hin
  obtain ⟨b1, b2, b3, b4, b5, b6, b7⟩ := passthrough_tick hin2 hret2
  refine ⟨⟨a6, a7, ?_⟩, ⟨?_, ?_, ?_⟩, ?_⟩
  · rw [a5, fold_input_pos]
  rotate_left 3
  · intro hc hr
    rw [a5, fold_input_pos, if_pos hc]
    exact fmodf_pos_mem _ hr
  · rw [b5, fold_input_pos]
    show (if (update env c has_output).ctrl.config_.circular_setpoints = true then
        fmodf_pos (update env c has_output).ctrl.input_pos_
          (update env c has_output).ctrl.config_.circular_setpoint_range
      else (update env c has_output).ctrl.input_pos_) = _
    rw [hcs, hcr, a2, a5, fold_input_pos]
    split_ifs
    · exact fmodf_pos_idem _ _
    · rfl
  · rw [b6, a6]
    exact a3
  · rw [b7, a7]
    exact a4

theorem fmodf_pos_five_halves : fmodf_pos (5 / 2) 1 = 1 / 2 := by
  unfold fmodf_pos
  have h : ⌊((5 : ℚ) / 2) / 1⌋ = 2 := by
    rw [Int.floor_eq_iff]
    norm_num
  rw [h]
  norm_num

theorem update_ctrl_pass (env : Env) (axis : Axis) :
    update env { ctrl_pass with axis_ := axis } true =
      { ret := true,
        ctrl := ctrl_pass_after axis,
        out := some (torque_limit axis.motor_.max_available_torque 3).2 } := by
  simp [update, update_cascade, update_front, update_inputs, update_fold_input, update_dispatch,
    update_calibration, update_position, update_overspeed,
    update_anticogging, update_velocity, update_current_limit, update_integrator,
    INPUT_MODE_INACTIVE, INPUT_MODE_PASSTHROUGH, CONTROL_MODE_VELOCITY_CONTROL,
    CONTROL_MODE_POSITION_CONTROL, CONTROL_MODE_TORQUE_CONTROL,
    ctrl_pass_after, ctrl_pass, ctrl0]

/-- C8 (witness).  Circular range `1`, inputs `(5/2, 2, 3)`: after the first
tick the setpoints are `(1/2, 2, 3)` and they are the same after the second. -/
theorem update_passthrough_steady_witness :
    (update env0 ctrl_pass true).ctrl.pos_setpoint_ = 1 / 2 ∧
    (update env0 ctrl_pass true).ctrl.vel_setpoint_ = 2 ∧
    (update env0 ctrl_pass true).ctrl.torque_setpoint_ = 3 ∧
    (update env0 { (update env0 ctrl_pass true).ctrl with axis_ := ctrl0.axis_ }
      true).ctrl.pos_setpoint_ = 1 / 2 ∧
    (update env0 { (update env0 ctrl_pass true).ctrl with axis_ := ctrl0.axis_ }
      true).ctrl.vel_setpoint_ = 2 ∧
    (update env0 { (update env0 ctrl_pass true).ctrl with axis_ := ctrl0.axis_ }
      true).ctrl.torque_setpoint_ = 3 := by
  have e1 : update env0 ctrl_pass true = _ := update_ctrl_pass env0 ctrl_pass.axis_
  have hret : (update env0 ctrl_pass true).ret = true := by rw [e1]
  have hret2 : (update env0 { (update env0 ctrl_pass true).ctrl with axis_ := ctrl0.axis_ }
      true).ret = true := by
    rw [e1]
    simp [update, update_cascade, update_front, update_inputs, update_fold_input,
      update_dispatch, update_calibration, update_position, update_overspeed,
      update_anticogging, update_velocity, update_current_limit, update_integrator,
      INPUT_MODE_INACTIVE, INPUT_MODE_PASSTHROUGH, CONTROL_MODE_VELOCITY_CONTROL,
      CONTROL_MODE_POSITION_CONTROL, CONTROL_MODE_TORQUE_CONTROL,
      ctrl_pass_after, ctrl_pass, ctrl0]
  obtain ⟨⟨h1, h2, h3⟩, ⟨h4, h5, h6⟩, -⟩ :=
    update_passthrough_steady env0 env0 ctrl_pass ctrl0.axis_ true true rfl hret hret2
  have h3' : (update env0 ctrl_pass true).ctrl.pos_setpoint_ = 1 / 2 := by
    rw [h3]
    exact fmodf_pos_five_halves
  exact ⟨h3', h1, h2, h4.trans h3', h5.trans h1, h6.trans h2⟩

theorem Late.shaped {c1 c : Controller} (h : Late c1 c) : Shaped c1 c := by
  have h2 := h.eq
  refine ⟨?_, ?_, ?_, ?_, ?_, ?_, ?_, ?_, ?_, ?_, h.pos⟩ <;> (rw [h2]; try rfl)

theorem Shaped.set_error {c1 c : Controller} (h : Shaped c1 c) (E : Nat) :
    Shaped c1 (c.set_error E) :=
  ⟨h.vel_setpoint_eq, h.torque_setpoint_eq, h.input_pos_eq, h.input_vel_eq, h.input_torque_eq,
    h.control_mode_eq, h.trajectory_done_eq, h.input_pos_updated_eq, h.trap_traj_eq,
    h.config_eq, h.pos⟩

/-- Whatever way a tick ends once input shaping has succeeded, the controller it
leaves agrees with what input shaping left on everything input shaping decides. -/
theorem update_shaped {env : Env} {c c1 : Controller} {ap : Option ℚ} (has_output : Bool)
    (h1 : update_inputs env c = .ok (c1, ap)) :
    Shaped c1 (update env c has_output).ctrl := by
  cases hk : update_cascade env c with
  | error x =>
    obtain ⟨E, c'⟩ := x
    rw [update_of_error has_output hk]
    rcases update_cascade_error_cases hk with h1' | ⟨c1', ap', c4, E', h1', hl, -, hx⟩
    · rw [h1] at h1'
      cases h1'
    · rw [h1] at h1'
      injection h1' with h1'
      injection h1' with ha hb
      subst ha
      injection hx with hx1 hx2
      subst hx2
      exact hl.shaped.set_error E'
  | ok k =>
    obtain ⟨c1', ap', h1', hl⟩ := update_cascade_ok_late hk
    rw [h1] at h1'
    injection h1' with h1'
    injection h1' with ha hb
    subst ha
    rw [update_of_ok has_output hk]
    dsimp only
    rw [update_integrator_eq]
    have h := hl.shaped
    exact ⟨h.vel_setpoint_eq, h.torque_setpoint_eq, h.input_pos_eq, h.input_vel_eq,
      h.input_torque_eq, h.control_mode_eq, h.trajectory_done_eq, h.input_pos_updated_eq,
      h.trap_traj_eq, h.config_eq, h.pos⟩

/-- A clamped step never overshoots: what is left of the full step is no longer
than the full step. -/
theorem abs_sub_clamp_le (x m : ℚ) (hm : 0 ≤ m) : |x - clamp x (-m) m| ≤ |x| := by
  unfold clamp
  split_ifs with h1 h2
  · rw [abs_of_nonpos (by linarith : x - -m ≤ 0), abs_of_nonpos (by linarith : x ≤ 0)]
    linarith
  · rw [abs_of_nonneg (by linarith : 0 ≤ x - m), abs_of_nonneg (by linarith : 0 ≤ x)]
    linarith
  · rw [sub_self, abs_zero]
    exact abs_nonneg x

/-- Input shaping in the velocity-ramp mode. -/
theorem inputs_vel_ramp (env : Env) {c : Controller}
    (hin : c.config_.input_mode = INPUT_MODE_VEL_RAMP) :
    ∃ c1, update_inputs env c = .ok (c1, none) ∧
      c1.input_vel_ = c.input_vel_ ∧
      c1.config_.readonly = c.config_.readonly ∧
      c1.vel_setpoint_ = c.vel_setpoint_ +
        clamp (c.input_vel_ - c.vel_setpoint_)
          (-|env.current_meas_period * c.config_.vel_ramp_rate|)
          |env.current_meas_period * c.config_.vel_ramp_rate| := by
  have hcfg := fold_input_config c
  have hin' : (update_fold_input c).config_.input_mode = INPUT_MODE_VEL_RAMP := by
    rw [hcfg]; exact hin
  have hv : (update_fold_input c).input_vel_ = c.input_vel_ := by rw [fold_input_eq]
  have hs : (update_fold_input c).vel_setpoint_ = c.vel_setpoint_ := by rw [fold_input_eq]
  have h1 : ∀ r, update_inputs env c = r → ∃ c1, r = .ok (c1, none) ∧
      c1 = { update_fold_input c with
        vel_setpoint_ := c1.vel_setpoint_, torque_setpoint_ := c1.torque_setpoint_ } ∧
      c1.vel_setpoint_ = (update_fold_input c).vel_setpoint_ +
        clamp ((update_fold_input c).input_vel_ - (update_fold_input c).vel_setpoint_)
          (-|env.current_meas_period * (update_fold_input c).config_.vel_ramp_rate|)
          |env.current_meas_period * (update_fold_input c).config_.vel_ramp_rate| := by
    intro r hr
    unfold update_inputs update_dispatch at hr
    rw [if_neg (by rw [hin']; decide), if_neg (by rw [hin']; decide), if_pos hin'] at hr
    subst hr
    exact ⟨_, rfl, rfl, rfl⟩
  obtain ⟨c1, h1, e1, e2⟩ := h1 _ rfl
  refine ⟨c1, h1, ?_, ?_, ?_⟩
  · rw [e1]
    exact hv
  · rw [e1]
    show (update_fold_input c).config_.readonly = _
    rw [hcfg]
  · rw [e2, hcfg, hv, hs]

/-- One tick in the velocity-ramp mode, however it ends. -/
theorem vel_ramp_tick (env : Env) (c : Controller) (has_output : Bool)
    (hin : c.config_.input_mode = INPUT_MODE_VEL_RAMP) :
    vel_distance (update env c has_output).ctrl ≤ vel_distance c ∧
    (update env c has_output).ctrl.input_vel_ = c.input_vel_ ∧
    (update env c has_output).ctrl.config_.input_mode = INPUT_MODE_VEL_RAMP := by
  obtain ⟨c1, h1, hv, hc, hs⟩ := inputs_vel_ramp env hin
  have hsh := update_shaped has_output h1
  refine ⟨?_, hsh.input_vel_eq.trans hv, ?_⟩
  · unfold vel_distance
    rw [hsh.vel_setpoint_eq, hsh.input_vel_eq, hv, hs]
    have h := abs_sub_clamp_le (c.input_vel_ - c.vel_setpoint_)
      |env.current_meas_period * c.config_.vel_ramp_rate| (abs_nonneg _)
    rw [abs_sub_comm c.vel_setpoint_ c.input_vel_]
    rw [abs_sub_comm _ c.input_vel_]
    have e : c.input_vel_ - (c.vel_setpoint_ +
        clamp (c.input_vel_ - c.vel_setpoint_)
          (-|env.current_meas_period * c.config_.vel_ramp_rate|)
          |env.current_meas_period * c.config_.vel_ramp_rate|)
        = (c.input_vel_ - c.vel_setpoint_) -
          clamp (c.input_vel_ - c.vel_setpoint_)
            (-|env.current_meas_period * c.config_.vel_ramp_rate|)
            |env.current_meas_period * c.config_.vel_ramp_rate| := by ring
    rw [e]
    exact h
  · have h := congrArg Config_t.input_mode (hsh.config_eq.trans hc)
    exact h.trans hin

theorem run_append (ticks : List (Env × (Axis → Axis) × Bool)) (t : Env × (Axis → Axis) × Bool)
    (c : Controller) :
    run (ticks ++ [t]) c
      = (update t.1 { run ticks c with axis_ := t.2.1 (run ticks c).axis_ } t.2.2).ctrl := by
  unfold run
  rw [List.foldl_append]
  rfl

/-- A run in the velocity-ramp mode stays in that mode and keeps `input_vel`. -/
theorem run_vel_ramp (ticks : List (Env × (Axis → Axis) × Bool)) (c : Controller)
    (hin : c.config_.input_mode = INPUT_MODE_VEL_RAMP) :
    (run ticks c).config_.input_mode = INPUT_MODE_VEL_RAMP ∧
    (run ticks c).input_vel_ = c.input_vel_ := by
  induction ticks using List.reverseRecOn with
  | nil => exact ⟨hin, rfl⟩
  | append_singleton ticks t ih =>
    rw [run_append]
    obtain ⟨-, h2, h3⟩ := vel_ramp_tick t.1
      { run ticks c with axis_ := t.2.1 (run ticks c).axis_ } t.2.2 ih.1
    exact ⟨h3, h2.trans ih.2⟩

/-- C9.  In the velocity-ramp mode, for every `vel_setpoint`, `input_vel`,
`vel_ramp_rate` and `dt`, one tick (however it ends) never increases the distance
to the target: `|vel_setpoint' - input_vel| ≤ |vel_setpoint - input_vel|`.  Hence
along any run of ticks, during which `input_vel` stays what it was, every further
tick leaves the distance at most what it was before that tick. -/
theorem update_vel_ramp_monotone (env : Env) (c : Controller) (has_output : Bool)
    (hin : c.config_.input_mode = INPUT_MODE_VEL_RAMP) :
    |(update env c has_output).ctrl.vel_setpoint_ - c.input_vel_|
      ≤ |c.vel_setpoint_ - c.input_vel_| ∧
    (∀ (ticks : List (Env × (Axis → Axis) × Bool)) (t : Env × (Axis → Axis) × Bool),
      (run (ticks ++ [t]) c).input_vel_ = c.input_vel_ ∧
      |(run (ticks ++ [t]) c).vel_setpoint_ - c.input_vel_|
        ≤ |(run ticks c).vel_setpoint_ - c.input_vel_|) := by
  constructor
  · obtain ⟨h1, h2, -⟩ := vel_ramp_tick env c has_output hin
    unfold vel_distance at h1
    rw [h2] at h1
    exact h1
  · intro ticks t
    obtain ⟨hm, hv⟩ := run_vel_ramp ticks c hin
    obtain ⟨hm', hv'⟩ := run_vel_ramp (ticks ++ [t]) c hin
    refine ⟨hv', ?_⟩
    obtain ⟨h1, h2, -⟩ := vel_ramp_tick t.1
      { run ticks c with axis_ := t.2.1 (run ticks c).axis_ } t.2.2 hm
    unfold vel_distance at h1
    rw [← run_append] at h1
    rw [hv'] at h1
    have e : ({ run ticks c with axis_ := t.2.1 (run ticks c).axis_ } : Controller).input_vel_
        = c.input_vel_ := hv
    have e2 : ({ run ticks c with axis_ := t.2.1 (run ticks c).axis_ } : Controller).vel_setpoint_
        = (run ticks c).vel_setpoint_ := rfl
    rw [e, e2] at h1
    exact h1

/-- C9 (witness).  From rest towards `input_vel = 1` with `vel_ramp_rate = 1` and
`dt = 1/8000`: one tick moves the setpoint to `1/8000`, and the distance to the
target does not grow. -/
theorem update_vel_ramp_monotone_witness :
    (update env0 ctrl_ramp true).ctrl.vel_setpoint_ = 1 / 8000 ∧
    |(update env0 ctrl_ramp true).ctrl.vel_setpoint_ - 1| ≤ |(0 : ℚ) - 1| := by
  refine ⟨?_, (update_vel_ramp_monotone env0 ctrl_ramp true rfl).1⟩
  have habs : |(1 : ℚ) / 8000| = 1 / 8000 := abs_of_pos (by norm_num)
  norm_num [habs, update, update_cascade, update_front, update_inputs, update_fold_input,
    update_dispatch, update_calibration, update_position, update_vel_limit,
    update_overspeed, update_gains, clamp,
    update_anticogging, update_velocity, update_current_limit, update_integrator, torque_limit,
    INPUT_MODE_INACTIVE, INPUT_MODE_PASSTHROUGH, INPUT_MODE_VEL_RAMP,
    CONTROL_MODE_VELOCITY_CONTROL,
    CONTROL_MODE_POSITION_CONTROL, CONTROL_MODE_TORQUE_CONTROL, Motor.MOTOR_TYPE_ACIM,
    ctrl_ramp, ctrl0, env0, enc0]

/-- The trajectory case once the clock has passed the end of the trajectory. -/
theorem trap_traj_handoff (env : Env) (c : Controller)
    (hu : c.input_pos_updated_ = false) (hd : c.trajectory_done_ = false)
    (ht : c.axis_.trap_traj_.t_ > c.axis_.trap_traj_.Tf_) :
    (update_trap_traj env c).1.config_.control_mode = CONTROL_MODE_POSITION_CONTROL ∧
    (update_trap_traj env c).1.pos_setpoint_ = c.input_pos_ ∧
    (update_trap_traj env c).1.input_pos_ = c.input_pos_ ∧
    (update_trap_traj env c).1.vel_setpoint_ = 0 ∧
    (update_trap_traj env c).1.torque_setpoint_ = 0 ∧
    (update_trap_traj env c).1.trajectory_done_ = true ∧
    (update_trap_traj env c).1.axis_.trap_traj_ = c.axis_.trap_traj_ ∧
    (update_trap_traj env c).1.config_.readonly = c.config_.readonly ∧
    ∀ env' : Env, update_trap_traj env' c = update_trap_traj env c := by
  have h : ∀ e : Env, update_trap_traj e c =
      ({ c with config_.control_mode := CONTROL_MODE_POSITION_CONTROL,
                pos_setpoint_ := c.input_pos_,
                vel_setpoint_ := 0,
                torque_setpoint_ := 0,
                trajectory_done_ := true }, some c.input_pos_) := by
    intro e
    unfold update_trap_traj
    simp only [hu, hd, Bool.false_eq_true, if_false, if_pos ht]
  refine ⟨?_, ?_, ?_, ?_, ?_, ?_, ?_, ?_, ?_⟩
  · rw [h env]
  · rw [h env]
  · rw [h env]
  · rw [h env]
  · rw [h env]
  · rw [h env]
  · rw [h env]
  · rw [h env]; rfl
  · intro env'
    rw [h env, h env']

theorem dispatch_trap_traj (env : Env) (c : Controller)
    (hin : c.config_.input_mode = INPUT_MODE_TRAP_TRAJ) :
    update_dispatch env c = .ok (update_trap_traj env c) := by
  unfold update_dispatch
  rw [if_neg (by rw [hin]; decide), if_neg (by rw [hin]; decide), if_neg (by rw [hin]; decide),
    if_neg (by rw [hin]; decide), if_neg (by rw [hin]; decide), if_neg (by rw [hin]; decide),
    if_pos hin]

/-- Apart from input shaping, a tick reads only the axes table and the sample
period from its environment. -/
theorem update_env_irrelevant {env env' : Env} {c : Controller} (has_output : Bool)
    (ha : env'.axes = env.axes) (hp : env'.current_meas_period = env.current_meas_period)
    (h1 : update_inputs env' c = update_inputs env c) :
    update env' c has_output = update env c has_output := by
  have hcal : ∀ c, update_calibration env' c = update_calibration env c := by
    intro c
    unfold update_calibration anticogging_calibration
    rw [hp]
  have hsrc : ∀ c, src_encoder env' c = src_encoder env c := by
    intro c
    unfold src_encoder
    rw [ha]
  have hpl : ∀ c, pos_estimate_linear env' c = pos_estimate_linear env c := by
    intro c
    unfold pos_estimate_linear pos_estimate_valid
    rw [hsrc]
  have hpc : ∀ c, pos_estimate_circular env' c = pos_estimate_circular env c := by
    intro c
    unfold pos_estimate_circular pos_estimate_valid
    rw [hsrc]
  have hve : ∀ c, vel_estimate_src env' c = vel_estimate_src env c := by
    intro c
    unfold vel_estimate_src vel_estimate_valid
    rw [hsrc]
  have hpos : ∀ c, update_position env' c = update_position env c := by
    intro c
    unfold update_position update_pos_err
    rw [hpl, hpc]
  have hos : ∀ c, update_overspeed env' c = update_overspeed env c := by
    intro c
    unfold update_overspeed
    rw [hve]
  have hac : ∀ c, update_anticogging env' c = update_anticogging env c := by
    intro c
    unfold update_anticogging
    rw [hpl]
  have hvl : ∀ c a b d e, update_velocity env' c a b d e = update_velocity env c a b d e := by
    intro c a b d e
    unfold update_velocity
    rw [hve]
  have hcl : ∀ c a b, update_current_limit env' c a b = update_current_limit env c a b := by
    intro c a b
    unfold update_current_limit
    rw [hve]
  have hfront : update_front env' c = update_front env c := by
    unfold update_front
    rw [h1]
    simp only [hcal, hpos]
  have hcas : update_cascade env' c = update_cascade env c := by
    unfold update_cascade
    rw [hfront]
    simp only [hos, hac, hvl, hcl]
  have hint : ∀ k l, update_integrator env' k l = update_integrator env k l := by
    intro k l
    unfold update_integrator
    rw [hp]
  unfold update
  rw [hcas]
  simp only [hint]

/-- C10.  In the trajectory mode, on a tick entered with `input_pos_updated`
false, `trajectory_done` false and the trajectory clock `t > Tf`: when `update`
returns (whether with `true` or `false`), `control_mode` is `POSITION`,
`pos_setpoint = input_pos`, `vel_setpoint = 0`, `torque_setpoint = 0` and
`trajectory_done = true`; `input_pos` is the value at entry, folded when
`circular_setpoints` is set; the trajectory, its clock `t` included, is as it was
at entry; and the planner is not consulted: an environment with another planner
(`planTrapezoidal`, `eval`) gives the same result. -/
theorem update_trap_traj_done (env : Env) (c : Controller) (has_output : Bool)
    (hin : c.config_.input_mode = INPUT_MODE_TRAP_TRAJ)
    (hu : c.input_pos_updated_ = false) (hd : c.trajectory_done_ = false)
    (ht : c.axis_.trap_traj_.t_ > c.axis_.trap_traj_.Tf_) :
    (update env c has_output).ctrl.config_.control_mode = CONTROL_MODE_POSITION_CONTROL ∧
    (update env c has_output).ctrl.pos_setpoint_ = (update env c has_output).ctrl.input_pos_ ∧
    (update env c has_output).ctrl.input_pos_ =
      (if c.config_.circular_setpoints then
        fmodf_pos c.input_pos_ c.config_.circular_setpoint_range
      else c.input_pos_) ∧
    (update env c has_output).ctrl.vel_setpoint_ = 0 ∧
    (update env c has_output).ctrl.torque_setpoint_ = 0 ∧
    (update env c has_output).ctrl.trajectory_done_ = true ∧
    (update env c has_output).ctrl.axis_.trap_traj_ = c.axis_.trap_traj_ ∧
    (∀ (planTrapezoidal : TrapezoidalTrajectory → ℚ → ℚ → ℚ → ℚ → ℚ → ℚ → TrapezoidalTrajectory)
       (eval : TrapezoidalTrajectory → ℚ → Step_t),
      update { env with planTrapezoidal := planTrapezoidal, eval := eval } c has_output
        = update env c has_output) := by
  have hfe := fold_input_eq c
  have hcfg := fold_input_config c
  have hin' : (update_fold_input c).config_.input_mode = INPUT_MODE_TRAP_TRAJ := by
    rw [hcfg]; exact hin
  have hu' : (update_fold_input c).input_pos_updated_ = false := by rw [hfe]; exact hu
  have hd' : (update_fold_input c).trajectory_done_ = false := by rw [hfe]; exact hd
  have hax : (update_fold_input c).axis_ = c.axis_ := by rw [hfe]
  have ht' : (update_fold_input c).axis_.trap_traj_.t_
      > (update_fold_input c).axis_.trap_traj_.Tf_ := by rw [hax]; exact ht
  obtain ⟨a1, a2, a3, a4, a5, a6, a7, a8, a9⟩ :=
    trap_traj_handoff env (update_fold_input c) hu' hd' ht'
  have h1 : ∀ e : Env, update_inputs e c
      = .ok ((update_trap_traj env (update_fold_input c)).1,
             (update_trap_traj env (update_fold_input c)).2) := by
    intro e
    unfold update_inputs
    rw [dispatch_trap_traj e _ hin', a9 e]
  have hsh := update_shaped has_output (h1 env)
  have hcs : (update_trap_traj env (update_fold_input c)).1.config_.circular_setpoints
      = c.config_.circular_setpoints := by
    have h := congrArg Config_t.circular_setpoints a8
    have h' := congrArg Config_t.circular_setpoints hcfg
    exact Eq.trans h h'
  have hcr : (update_trap_traj env (update_fold_input c)).1.config_.circular_setpoint_range
      = c.config_.circular_setpoint_range := by
    have h := congrArg Config_t.circular_setpoint_range a8
    have h' := congrArg Config_t.circular_setpoint_range hcfg
    exact Eq.trans h h'
  have hip : (update env c has_output).ctrl.input_pos_ = (update_fold_input c).input_pos_ :=
    hsh.input_pos_eq.trans a3
  refine ⟨hsh.control_mode_eq.trans a1, ?_, ?_, hsh.vel_setpoint_eq.trans a4,
    hsh.torque_setpoint_eq.trans a5, hsh.trajectory_done_eq.trans a6, ?_, ?_⟩
  · rw [hip]
    rcases hsh.pos with hp | ⟨hc, hp⟩
    · rw [hp, a2]
    · rw [hp, a2, hcr]
      rw [hcs] at hc
      rw [fold_input_pos, if_pos hc, fmodf_pos_idem]
  · rw [hip, fold_input_pos]
  · rw [hsh.trap_traj_eq, a7, hax]
  · intro p e
    exact update_env_irrelevant has_output rfl rfl ((h1 _).trans (h1 env).symm)

/-- C10 (witness).  Scenario S5: `Tf = 0.5 s` and the clock one sample past it,
`input_pos = 2`, setpoints `(1, 3, 4)` at entry.  After the tick the controller
is in position control with setpoints `(2, 0, 0)`, the trajectory is done and its
clock is where it was. -/
theorem update_trap_traj_done_witness :
    (update env0 ctrl_s5 true).ctrl.config_.control_mode = CONTROL_MODE_POSITION_CONTROL ∧
    (update env0 ctrl_s5 true).ctrl.pos_setpoint_ = 2 ∧
    (update env0 ctrl_s5 true).ctrl.vel_setpoint_ = 0 ∧
    (update env0 ctrl_s5 true).ctrl.torque_setpoint_ = 0 ∧
    (update env0 ctrl_s5 true).ctrl.trajectory_done_ = true ∧
    (update env0 ctrl_s5 true).ctrl.axis_.trap_traj_.t_ = 1 / 2 + 1 / 8000 := by
  obtain ⟨h1, h2, h3, h4, h5, h6, h7, -⟩ :=
    update_trap_traj_done env0 ctrl_s5 true rfl rfl rfl (by norm_num [ctrl_s5, ctrl0])
  refine ⟨h1, h2.trans h3, h4, h5, h6, ?_⟩
  rw [h7]
  rfl

/-! ## Circular setpoints -/

/-- For a positive range `wrap_pm` lands in `[-range/2, range/2)`. -/
theorem wrap_pm_mem (x : ℚ) {y : ℚ} (hy : 0 < y) :
    -(y / 2) ≤ wrap_pm x y ∧ wrap_pm x y < y / 2 := by
  unfold wrap_pm
  have h1 : ((⌊x / y + 1 / 2⌋ : ℤ) : ℚ) ≤ x / y + 1 / 2 := Int.floor_le _
  have h2 : x / y + 1 / 2 < ((⌊x / y + 1 / 2⌋ : ℤ) : ℚ) + 1 := Int.lt_floor_add_one _
  have h3 : y * ((⌊x / y + 1 / 2⌋ : ℤ) : ℚ) ≤ x + y / 2 := by
    have := mul_le_mul_of_nonneg_left h1 hy.le
    rw [mul_add, mul_div_cancel₀ _ hy.ne'] at this
    linarith
  have h4 : x + y / 2 < y * (((⌊x / y + 1 / 2⌋ : ℤ) : ℚ) + 1) := by
    have := mul_lt_mul_of_pos_left h2 hy
    rw [mul_add, mul_div_cancel₀ _ hy.ne'] at this
    linarith
  constructor <;> linarith

/-- The value `wrap_pm x y` differs from `x` by a whole multiple of `y`. -/
theorem wrap_pm_multiple (x y : ℚ) : ∃ n : ℤ, x - wrap_pm x y = (n : ℚ) * y := by
  refine ⟨⌊x / y + 1 / 2⌋, ?_⟩
  unfold wrap_pm
  ring

/-- Position control with circular setpoints and a valid circular estimate. -/
theorem position_circular {env : Env} {c c3 : Controller} {vel_des g pos_circular : ℚ}
    (hm : CONTROL_MODE_POSITION_CONTROL ≤ c.config_.control_mode)
    (hc : c.config_.circular_setpoints = true)
    (hpc : pos_estimate_circular env c = some pos_circular)
    (h : update_position env c = .ok (c3, vel_des, g)) :
    c3.pos_setpoint_ = fmodf_pos c.pos_setpoint_ c.config_.circular_setpoint_range ∧
    vel_des = c.vel_setpoint_ + c.config_.pos_gain *
      wrap_pm (c3.pos_setpoint_ - pos_circular) c.config_.circular_setpoint_range ∧
    g = gain_schedule c
      (wrap_pm (c3.pos_setpoint_ - pos_circular) c.config_.circular_setpoint_range) := by
  unfold update_position update_pos_err at h
  dsimp only at h
  rw [if_pos hm, if_pos hc, hpc] at h
  dsimp only at h
  injection h with h
  injection h with h1 h2
  injection h2 with h2 h3
  subst h1 h2 h3
  exact ⟨rfl, rfl, rfl⟩

/-- C11.  On a tick that gets through position control with `circular_setpoints`
set, `control_mode ≥ POSITION`, a range `R > 0` and the valid circular estimate
`pos_circular`: the position error that is multiplied by `pos_gain`, namely
`pos_err = wrap_pm(pos_setpoint - pos_circular, R)` with `pos_setpoint` already
folded, lies in `[-R/2, R/2)`, and `pos_setpoint - pos_err - pos_circular` is an
integer multiple of `R`.  `vel_des` is `vel_setpoint + pos_gain * pos_err`. -/
theorem update_circular_pos_err (env : Env) (c c3 : Controller) (vel_des g pos_circular : ℚ)
    (h3 : update_front env c = .ok (c3, vel_des, g))
    (hc : c3.config_.circular_setpoints = true)
    (hm : CONTROL_MODE_POSITION_CONTROL ≤ c3.config_.control_mode)
    (hR : 0 < c3.config_.circular_setpoint_range)
    (hpc : pos_estimate_circular env c = some pos_circular) :
    vel_des = c3.vel_setpoint_ + c3.config_.pos_gain *
      wrap_pm (c3.pos_setpoint_ - pos_circular) c3.config_.circular_setpoint_range ∧
    -(c3.config_.circular_setpoint_range / 2)
      ≤ wrap_pm (c3.pos_setpoint_ - pos_circular) c3.config_.circular_setpoint_range ∧
    wrap_pm (c3.pos_setpoint_ - pos_circular) c3.config_.circular_setpoint_range
      < c3.config_.circular_setpoint_range / 2 ∧
    (∃ n : ℤ, c3.pos_setpoint_
        - wrap_pm (c3.pos_setpoint_ - pos_circular) c3.config_.circular_setpoint_range
        - pos_circular = (n : ℚ) * c3.config_.circular_setpoint_range) ∧
    (0 ≤ c3.pos_setpoint_ ∧ c3.pos_setpoint_ < c3.config_.circular_setpoint_range) := by
  obtain ⟨c1, ap, c2, h1, h2, h3'⟩ := update_front_ok h3
  have e3 := position_ok h3'
  have hcfg : c3.config_ = c2.config_ := by rw [e3]
  have hvs : c3.vel_setpoint_ = c2.vel_setpoint_ := by rw [e3]
  rw [hcfg] at hc hm hR ⊢
  have hf2 := (frame_inputs h1).trans (frame_calibration h2)
  have hpc2 : pos_estimate_circular env c2 = some pos_circular := by
    rw [frame_pos_estimate_circular hf2]; exact hpc
  obtain ⟨a1, a2, -⟩ := position_circular hm hc hpc2 h3'
  have hw := wrap_pm_mem (c3.pos_setpoint_ - pos_circular) hR
  obtain ⟨n, hn⟩ := wrap_pm_multiple (c3.pos_setpoint_ - pos_circular)
    c2.config_.circular_setpoint_range
  refine ⟨?_, hw.1, hw.2, ⟨n, ?_⟩, ?_⟩
  · rw [hvs]; exact a2
  · rw [← hn]; ring
  · rw [a1]; exact fmodf_pos_mem _ hR

theorem fmodf_pos_small : fmodf_pos (1 / 20) 1 = 1 / 20 := by
  unfold fmodf_pos
  have h : ⌊((1 : ℚ) / 20) / 1⌋ = 0 := by
    rw [Int.floor_eq_iff]
    norm_num
  rw [h]
  norm_num

theorem wrap_pm_s4 : wrap_pm (1 / 20 - 19 / 20) 1 = 1 / 10 := by
  unfold wrap_pm
  have h : ⌊((1 : ℚ) / 20 - 19 / 20) / 1 + 1 / 2⌋ = -1 := by
    rw [Int.floor_eq_iff]
    norm_num
  rw [h]
  norm_num

theorem fmodf_pos_zero (y : ℚ) : fmodf_pos 0 y = 0 := by
  simp [fmodf_pos]

/-- C11 (witness).  Scenario S4: `R = 1`, `pos_setpoint = 0.05`,
`pos_circular = 0.95`: the position error is `0.10` (not `-0.90`) and `vel_des`
is the velocity setpoint `0` plus `0.10`. -/
theorem update_circular_pos_err_witness :
    update_front env_s4 ctrl_s4 = .ok (ctrl_s4, 1 / 10, 1) ∧
    wrap_pm (1 / 20 - 19 / 20) 1 = 1 / 10 ∧
    (1 / 10 : ℚ) = 0 + 1 * wrap_pm (1 / 20 - 19 / 20) 1 ∧
    -((1 : ℚ) / 2) ≤ wrap_pm (1 / 20 - 19 / 20) 1 ∧
    wrap_pm (1 / 20 - 19 / 20) 1 < (1 : ℚ) / 2 := by
  have hpc : pos_estimate_circular env_s4 ctrl_s4 = some (19 / 20) := by
    simp [pos_estimate_circular, pos_estimate_valid, src_encoder, env_s4, env0, enc0, ctrl_s4,
      ctrl0]
  have h3 : update_front env_s4 ctrl_s4 = .ok (ctrl_s4, 1 / 10, 1) := by
    have e : ((1 : ℚ) / 20 - 19 / 20) = -(9 / 10) := by norm_num
    have w := wrap_pm_s4
    rw [e] at w
    norm_num [update_front, update_inputs, update_fold_input, update_dispatch,
      update_calibration, update_position, update_pos_err, gain_schedule,
      pos_estimate_circular, pos_estimate_valid, src_encoder,
      INPUT_MODE_INACTIVE, CONTROL_MODE_POSITION_CONTROL,
      fmodf_pos_zero, fmodf_pos_small, w, ctrl_s4, ctrl0, env_s4, env0, enc0]
  obtain ⟨h1, h2, h3', -, -⟩ := update_circular_pos_err env_s4 ctrl_s4 ctrl_s4 (1 / 10) 1
    (19 / 20) h3 rfl (by decide) (by norm_num [ctrl_s4, ctrl0]) hpc
  exact ⟨h3, wrap_pm_s4, h1, h2, h3'⟩

theorem trap_traj_input_pos (env : Env) (c : Controller) :
    (update_trap_traj env c).1.input_pos_ = c.input_pos_ := by
  unfold update_trap_traj move_to_pos
  dsimp only
  split_ifs <;> rfl

/-- The input-mode dispatch never writes `input_pos_`. -/
theorem dispatch_input_pos {env : Env} {c c1 : Controller} {ap : Option ℚ}
    (h : update_dispatch env c = .ok (c1, ap)) : c1.input_pos_ = c.input_pos_ := by
  unfold update_dispatch at h
  split_ifs at h
  · injection h with h; injection h with h1 h2; subst h1; rfl
  · injection h with h; injection h with h1 h2; subst h1; rfl
  · injection h with h; injection h with h1 h2; subst h1; rfl
  · injection h with h; injection h with h1 h2; subst h1; rfl
  · injection h with h; injection h with h1 h2; subst h1; rfl
  · split at h
    · injection h with h; injection h with h1 h2; subst h1; rfl
    · exact absurd h (raise_ne_ok _ _ _)
  · injection h with h
    have := trap_traj_input_pos env c
    rw [h] at this
    exact this
  · exact absurd h (raise_ne_ok _ _ _)

/-- Position control with circular setpoints folds `pos_setpoint_`. -/
theorem position_circular_fold {env : Env} {c c3 : Controller} {vel_des g : ℚ}
    (hm : CONTROL_MODE_POSITION_CONTROL ≤ c.config_.control_mode)
    (hc : c.config_.circular_setpoints = true)
    (h : update_position env c = .ok (c3, vel_des, g)) :
    c3.pos_setpoint_ = fmodf_pos c.pos_setpoint_ c.config_.circular_setpoint_range := by
  cases hpc : pos_estimate_circular env c with
  | none =>
    have hv := position_ok_valid hm h
    unfold pos_estimate_circular at hpc
    rw [if_pos hv] at hpc
    unfold pos_estimate_valid at hv
    cases hs : src_encoder env c with
    | none => rw [hs] at hv; cases hv
    | some e => rw [hs] at hpc; cases hpc
  | some pc => exact (position_circular hm hc hpc h).1

/-- C12 (counterexample).  Circular setpoints of range `1`, input mode
`INACTIVE`, `pos_setpoint = 5`: input shaping succeeds and leaves `pos_setpoint`
at `5`, outside `[0, 1)`; in torque control the whole tick leaves it there. -/
theorem update_inputs_setpoint_not_folded :
    ctrl_drift.config_.circular_setpoints = true ∧
    0 < ctrl_drift.config_.circular_setpoint_range ∧
    update_inputs env0 ctrl_drift = .ok (ctrl_drift, none) ∧
    ¬ ctrl_drift.pos_setpoint_ < ctrl_drift.config_.circular_setpoint_range ∧
    (update env0 ctrl_drift true).ret = true ∧
    (update env0 ctrl_drift true).ctrl.pos_setpoint_ = 5 := by
  refine ⟨rfl, by norm_num [ctrl_drift, ctrl0], ?_, by norm_num [ctrl_drift, ctrl0], ?_, ?_⟩
  · simp [update_inputs, update_fold_input, update_dispatch, INPUT_MODE_INACTIVE,
      fmodf_pos_zero, ctrl_drift, ctrl0]
  · norm_num [update, update_cascade, update_front, update_inputs, update_fold_input,
      update_dispatch, update_calibration, update_position, update_vel_limit,
      update_overspeed, update_gains,
      update_anticogging, update_velocity, update_current_limit, update_integrator, torque_limit,
      INPUT_MODE_INACTIVE, CONTROL_MODE_VELOCITY_CONTROL,
      CONTROL_MODE_POSITION_CONTROL, CONTROL_MODE_TORQUE_CONTROL, Motor.MOTOR_TYPE_ACIM,
      fmodf_pos_zero, ctrl_drift, ctrl0, env0, enc0]
  · norm_num [update, update_cascade, update_front, update_inputs, update_fold_input,
      update_dispatch, update_calibration, update_position, update_vel_limit,
      update_overspeed, update_gains,
      update_anticogging, update_velocity, update_current_limit, update_integrator, torque_limit,
      INPUT_MODE_INACTIVE, CONTROL_MODE_VELOCITY_CONTROL,
      CONTROL_MODE_POSITION_CONTROL, CONTROL_MODE_TORQUE_CONTROL, Motor.MOTOR_TYPE_ACIM,
      fmodf_pos_zero, ctrl_drift, ctrl0, env0, enc0]

/-- C12 (amended).  With `circular_setpoints` set and a range `R > 0`: at the
exit of input shaping `input_pos` lies in `[0, R)` for every input mode, and
`pos_setpoint` lies in `[0, R)` there in the `PASSTHROUGH` mode; for every input
mode `pos_setpoint` lies in `[0, R)` after position control whenever
`control_mode ≥ POSITION` (the fold of line 243). -/
theorem update_circular_setpoint_range (env : Env) (c : Controller)
    (hc : c.config_.circular_setpoints = true)
    (hR : 0 < c.config_.circular_setpoint_range) :
    (∀ c1 ap, update_inputs env c = .ok (c1, ap) →
      (0 ≤ c1.input_pos_ ∧ c1.input_pos_ < c.config_.circular_setpoint_range) ∧
      (c.config_.input_mode = INPUT_MODE_PASSTHROUGH →
        0 ≤ c1.pos_setpoint_ ∧ c1.pos_setpoint_ < c.config_.circular_setpoint_range)) ∧
    (∀ c3 vel_des g, update_front env c = .ok (c3, vel_des, g) →
      CONTROL_MODE_POSITION_CONTROL ≤ c3.config_.control_mode →
      0 ≤ c3.pos_setpoint_ ∧ c3.pos_setpoint_ < c.config_.circular_setpoint_range) := by
  have hfold : (update_fold_input c).input_pos_
      = fmodf_pos c.input_pos_ c.config_.circular_setpoint_range := by
    rw [fold_input_pos, if_pos hc]
  have hcfg := fold_input_config c
  constructor
  · intro c1 ap h1
    have hip : c1.input_pos_ = (update_fold_input c).input_pos_ := dispatch_input_pos h1
    constructor
    · rw [hip, hfold]
      exact fmodf_pos_mem _ hR
    · intro hin
      have hin' : (update_fold_input c).config_.input_mode = INPUT_MODE_PASSTHROUGH := by
        rw [hcfg]; exact hin
      unfold update_inputs update_dispatch at h1
      rw [if_neg (by rw [hin']; decide), if_pos hin'] at h1
      injection h1 with h1
      injection h1 with h1 h1'
      subst h1
      show 0 ≤ (update_fold_input c).input_pos_ ∧ (update_fold_input c).input_pos_ < _
      rw [hfold]
      exact fmodf_pos_mem _ hR
  · intro c3 vel_des g h3 hm
    obtain ⟨c1, ap, c2, h1, h2, h3'⟩ := update_front_ok h3
    have e3 := position_ok h3'
    have hcfg3 : c3.config_ = c2.config_ := by rw [e3]
    have hf2 := (frame_inputs h1).trans (frame_calibration h2)
    have hc2 : c2.config_.circular_setpoints = true := by
      have h := congrArg Config_t.circular_setpoints hf2.config_eq
      exact Eq.trans h hc
    have hr2 : c2.config_.circular_setpoint_range = c.config_.circular_setpoint_range := by
      have h := congrArg Config_t.circular_setpoint_range hf2.config_eq
      exact h
    rw [hcfg3] at hm
    rw [position_circular_fold hm hc2 h3', hr2]
    exact fmodf_pos_mem _ hR

/-- C12 (witness).  Passthrough on circular setpoints of range `1` with
`input_pos = 5/2`: input shaping leaves `pos_setpoint` in `[0, 1)`. -/
theorem update_circular_setpoint_range_witness :
    update_inputs env0 ctrl_pass = .ok (ctrl_pass_after ctrl_pass.axis_, none) ∧
    0 ≤ (ctrl_pass_after ctrl_pass.axis_).pos_setpoint_ ∧
    (ctrl_pass_after ctrl_pass.axis_).pos_setpoint_ < 1 := by
  have h1 : update_inputs env0 ctrl_pass = .ok (ctrl_pass_after ctrl_pass.axis_, none) := by
    simp [update_inputs, update_fold_input, update_dispatch, INPUT_MODE_INACTIVE,
      INPUT_MODE_PASSTHROUGH, ctrl_pass_after, ctrl_pass, ctrl0]
  have h := ((update_circular_setpoint_range env0 ctrl_pass rfl
    (by norm_num [ctrl_pass, ctrl0])).1 _ _ h1).2 rfl
  exact ⟨h1, h⟩

/-! ## The cogging map -/

theorem getD_set (l : List ℚ) (j i : Nat) (v d : ℚ) :
    (l.set j v).getD i d = if j = i ∧ i < l.length then v else l.getD i d := by
  simp only [List.getD_eq_getElem?_getD, List.getElem?_set]
  by_cases h : j = i
  · subst h
    by_cases h2 : j < l.length
    · simp [h2]
    · simp [h2]
      rw [List.getElem?_eq_none (by omega)]
      rfl
  · simp [h]

theorem clamp_mem (v : ℚ) {lo hi : ℚ} (h : lo ≤ hi) :
    lo ≤ clamp v lo hi ∧ clamp v lo hi ≤ hi := by
  unfold clamp
  split_ifs with h1 h2
  · exact ⟨le_refl _, h⟩
  · exact ⟨h, le_refl _⟩
  · exact ⟨not_lt.mp h1, not_lt.mp h2⟩

/-- Two writes followed by the two clamping writes of lines 105-108: every bin
is either untouched or clamped. -/
theorem set_chain (m m2 m3 m4 : List ℚ) (a b : Nat) (x y lo hi : ℚ) (h : lo ≤ hi) (i : Nat)
    (h2 : m2 = (m.set a x).set b y)
    (h3 : m3 = m2.set a (clamp (m2.getD a 0) lo hi))
    (h4 : m4 = m3.set b (clamp (m3.getD b 0) lo hi)) :
    m4.getD i 0 = m.getD i 0 ∨ (lo ≤ m4.getD i 0 ∧ m4.getD i 0 ≤ hi) := by
  have l2 : m2.length = m.length := by rw [h2]; simp
  have l3 : m3.length = m.length := by rw [h3, List.length_set, l2]
  have e4 := getD_set m3 b i (clamp (m3.getD b 0) lo hi) 0
  have e3 := getD_set m2 a i (clamp (m2.getD a 0) lo hi) 0
  have e2 := getD_set (m.set a x) b i y 0
  have e1 := getD_set m a i x 0
  rw [← h4, l3] at e4
  rw [← h3, l2] at e3
  rw [← h2, List.length_set] at e2
  by_cases hb : b = i ∧ i < m.length
  · right
    rw [e4, if_pos hb]
    exact clamp_mem _ h
  · rw [e4, if_neg hb]
    by_cases ha : a = i ∧ i < m.length
    · right
      rw [e3, if_pos ha]
      exact clamp_mem _ h
    · left
      rw [e3, if_neg ha, e2, if_neg hb, e1, if_neg ha]

/-- Calibration leaves every member of the anticogging configuration but the map
alone. -/
theorem calibration_fields (env : Env) (c : Controller) (pe ve vs : ℚ) :
    (anticogging_calibration env c pe ve vs).config_.anticogging.cogging_map_size
      = c.config_.anticogging.cogging_map_size ∧
    (anticogging_calibration env c pe ve vs).config_.anticogging.anticogging_max_torque
      = c.config_.anticogging.anticogging_max_torque := by
  unfold anticogging_calibration
  dsimp only
  split_ifs <;> exact ⟨rfl, rfl⟩

/-- After calibration every bin is either untouched or clamped. -/
theorem calibration_entry (env : Env) (c : Controller) (pe ve vs : ℚ)
    (hmx : -c.config_.anticogging.anticogging_max_torque
      ≤ c.config_.anticogging.anticogging_max_torque) (i : Nat) :
    (anticogging_calibration env c pe ve vs).config_.anticogging.cogging_map.getD i 0
      = c.config_.anticogging.cogging_map.getD i 0 ∨
    (-c.config_.anticogging.anticogging_max_torque
      ≤ (anticogging_calibration env c pe ve vs).config_.anticogging.cogging_map.getD i 0 ∧
     (anticogging_calibration env c pe ve vs).config_.anticogging.cogging_map.getD i 0
      ≤ c.config_.anticogging.anticogging_max_torque) := by
  unfold anticogging_calibration
  dsimp only
  split_ifs
  · exact set_chain _ _ _ _ _ _ _ _ _ _ hmx i rfl rfl rfl
  · exact Or.inl rfl

/-- Calibration keeps the bound on the cogging map. -/
theorem calibration_bounded (env : Env) (c : Controller) (pe ve vs : ℚ)
    (hb : MapBounded c.config_.anticogging) :
    MapBounded (anticogging_calibration env c pe ve vs).config_.anticogging := by
  intro i hi
  obtain ⟨e1, e2⟩ := calibration_fields env c pe ve vs
  rw [e1] at hi
  rw [e2]
  have hbi := hb i hi
  rcases calibration_entry env c pe ve vs (le_trans hbi.1 hbi.2) i with h | h
  · rw [h]; exact hbi
  · exact h

theorem Kept.same (c : Controller) : Kept c c :=
  ⟨rfl, rfl⟩

theorem Kept.chain {a b c : Controller} (h1 : Kept a b) (h2 : Kept b c) : Kept a c :=
  ⟨h2.anticogging_eq.trans h1.anticogging_eq, h2.pwr_eq.trans h1.pwr_eq⟩

theorem kept_set_error (c : Controller) (E : Nat) : Kept c (c.set_error E) :=
  ⟨rfl, rfl⟩

theorem kept_fold_input (c : Controller) : Kept c (update_fold_input c) := by
  have h := fold_input_eq c
  constructor <;> rw [h]

theorem kept_trap_traj (env : Env) (c : Controller) : Kept c (update_trap_traj env c).1 := by
  unfold update_trap_traj move_to_pos
  dsimp only
  constructor <;> (split_ifs <;> rfl)

theorem kept_dispatch {env : Env} {c c1 : Controller} {ap : Option ℚ}
    (h : update_dispatch env c = .ok (c1, ap)) : Kept c c1 := by
  unfold update_dispatch at h
  split_ifs at h
  · injection h with h; injection h with h1 h2; subst h1; exact ⟨rfl, rfl⟩
  · injection h with h; injection h with h1 h2; subst h1; exact ⟨rfl, rfl⟩
  · injection h with h; injection h with h1 h2; subst h1; exact ⟨rfl, rfl⟩
  · injection h with h; injection h with h1 h2; subst h1; exact ⟨rfl, rfl⟩
  · injection h with h; injection h with h1 h2; subst h1; exact ⟨rfl, rfl⟩
  · split at h
    · injection h with h; injection h with h1 h2; subst h1; exact ⟨rfl, rfl⟩
    · exact absurd h (raise_ne_ok _ _ _)
  · injection h with h
    have := kept_trap_traj env c
    rw [h] at this
    exact this
  · exact absurd h (raise_ne_ok _ _ _)

theorem kept_inputs {env : Env} {c c1 : Controller} {ap : Option ℚ}
    (h : update_inputs env c = .ok (c1, ap)) : Kept c c1 :=
  (kept_fold_input c).chain (kept_dispatch h)

theorem kept_position {env : Env} {c c3 : Controller} {vel_des g : ℚ}
    (h : update_position env c = .ok (c3, vel_des, g)) : Kept c c3 := by
  have h2 := position_ok h
  constructor <;> rw [h2]

theorem kept_integrator (env : Env) (k : Cascade) (limited : Bool) :
    Kept k.ctrl (update_integrator env k limited) := by
  have h := update_integrator_eq env k limited
  constructor <;> rw [h]

/-- The calibration stage either does nothing or makes the call of line 227. -/
theorem calibration_cases {env : Env} {c c2 : Controller}
    (h : update_calibration env c = .ok c2) :
    c2 = c ∨ (c.config_.anticogging.calib_anticogging = true ∧ c2 = calibrated env c) := by
  unfold update_calibration at h
  split_ifs at h with hc hv
  · exact absurd h (raise_ne_ok _ _ _)
  · injection h with h
    exact Or.inr ⟨hc, h.symm⟩
  · injection h with h
    exact Or.inl h.symm

/-- The call of line 227 does nothing unless `calib_anticogging` is set and the
control mode is velocity control. -/
theorem calibrated_idle {env : Env} {c : Controller}
    (h : ¬ (c.config_.anticogging.calib_anticogging = true
      ∧ c.config_.control_mode = CONTROL_MODE_VELOCITY_CONTROL)) :
    calibrated env c = c := by
  unfold calibrated anticogging_calibration
  rw [if_neg h]

theorem front_of_inputs_error {env : Env} {c : Controller} {x : Nat × Controller}
    (h1 : update_inputs env c = .error x) : update_front env c = .error x := by
  unfold update_front
  rw [h1]

theorem front_of_calibration_error {env : Env} {c c1 : Controller} {ap : Option ℚ}
    {x : Nat × Controller}
    (h1 : update_inputs env c = .ok (c1, ap)) (h2 : update_calibration env c1 = .error x) :
    update_front env c = .error x := by
  unfold update_front
  rw [h1]
  dsimp only
  rw [h2]

theorem front_of_calibration {env : Env} {c c1 c2 : Controller} {ap : Option ℚ}
    (h1 : update_inputs env c = .ok (c1, ap)) (h2 : update_calibration env c1 = .ok c2) :
    update_front env c = update_position env c2 := by
  unfold update_front
  rw [h1]
  dsimp only
  rw [h2]

/-- What a tick does to the anticogging configuration and the reported power:
nothing, or exactly the calibration call of line 227 on the controller that
input shaping left. -/
theorem update_map_cases (env : Env) (c : Controller) (has_output : Bool) :
    Kept c (update env c has_output).ctrl ∨
    ∃ c1 ap, update_inputs env c = .ok (c1, ap) ∧ Kept c c1 ∧
      c1.config_.anticogging.calib_anticogging = true ∧
      Kept (calibrated env c1) (update env c has_output).ctrl := by
  cases h1 : update_inputs env c with
  | error x =>
    left
    obtain ⟨E, hE, hx⟩ := inputs_error h1
    subst hx
    rw [update_of_error has_output (update_cascade_error_front (front_of_inputs_error h1))]
    exact (kept_fold_input c).chain (kept_set_error _ _)
  | ok r1 =>
    obtain ⟨c1, ap⟩ := r1
    have K1 := kept_inputs h1
    cases h2 : update_calibration env c1 with
    | error x =>
      left
      have hx := calibration_error h2
      subst hx
      rw [update_of_error has_output
        (update_cascade_error_front (front_of_calibration_error h1 h2))]
      exact K1.chain (kept_set_error _ _)
    | ok c2 =>
      have hfront := front_of_calibration h1 h2
      have key : Kept c2 (update env c has_output).ctrl := by
        cases h3 : update_position env c2 with
        | error x =>
          have hx := position_error h3
          subst hx
          rw [update_of_error has_output (update_cascade_error_front (hfront.trans h3))]
          exact kept_set_error _ _
        | ok r3 =>
          obtain ⟨c3, vel_des, g⟩ := r3
          have K3 := kept_position h3
          cases hk : update_cascade env c with
          | error x =>
            obtain ⟨E, -, hx⟩ := update_cascade_error_back (hfront.trans h3) hk
            subst hx
            rw [update_of_error has_output hk]
            exact K3.chain (kept_set_error _ _)
          | ok k =>
            obtain ⟨vd, _, _, h3', -⟩ := update_cascade_ok hk
            rw [hfront, h3] at h3'
            injection h3' with h3'
            injection h3' with ha hb
            rw [update_of_ok has_output hk]
            dsimp only
            rw [ha] at K3
            exact K3.chain (kept_integrator _ _ _)
      rcases calibration_cases h2 with e | ⟨hc, e⟩
      · left
        rw [e] at key
        exact K1.chain key
      · right
        rw [e] at key
        exact ⟨c1, ap, rfl, K1, hc, key⟩

/-- The control mode after input shaping is the one at entry, or position
control after the trajectory hand-off. -/
theorem inputs_control_mode {env : Env} {c c1 : Controller} {ap : Option ℚ}
    (h : update_inputs env c = .ok (c1, ap)) :
    c1.config_.control_mode = c.config_.control_mode ∨
    c1.config_.control_mode = CONTROL_MODE_POSITION_CONTROL := by
  by_cases hin : c.config_.input_mode = INPUT_MODE_TRAP_TRAJ
  · have hin' : (update_fold_input c).config_.input_mode = INPUT_MODE_TRAP_TRAJ := by
      rw [fold_input_config]; exact hin
    unfold update_inputs at h
    rw [dispatch_trap_traj env _ hin'] at h
    injection h with h
    have hc1 : c1 = (update_trap_traj env (update_fold_input c)).1 := by rw [h]
    rw [hc1, ← fold_input_config c]
    unfold update_trap_traj move_to_pos
    dsimp only
    split_ifs <;> first | exact Or.inl rfl | exact Or.inr rfl
  · have hin' : (update_fold_input c).config_.input_mode ≠ INPUT_MODE_TRAP_TRAJ := by
      rw [fold_input_config]; exact hin
    left
    rw [(dispatch_config hin' h).1, fold_input_config]

/-- C13.  `update` preserves the bound on the cogging map: if on entry every bin
`map[i]`, `i < N`, lies in `[-anticogging_max_torque, +anticogging_max_torque]`,
then so does every bin on return, whatever the estimates, the velocity setpoint,
the integrator gain and `dt`, and however the tick ends. -/
theorem update_map_bounded (env : Env) (c : Controller) (has_output : Bool)
    (hb : MapBounded c.config_.anticogging) :
    MapBounded (update env c has_output).ctrl.config_.anticogging := by
  rcases update_map_cases env c has_output with K | ⟨c1, ap, -, K1, -, K⟩
  · rw [K.anticogging_eq]
    exact hb
  · rw [K.anticogging_eq]
    apply calibration_bounded
    rw [K1.anticogging_eq]
    exact hb

/-- C16.  On a tick entered with `calib_anticogging` false (whatever
`anticogging_enabled` is), and likewise on a tick entered with a control mode
other than velocity control, `update` leaves the cogging map and
`anticogging_correction_pwr_` unchanged, however the tick ends. -/
theorem update_map_unchanged (env : Env) (c : Controller) (has_output : Bool)
    (h : c.config_.anticogging.calib_anticogging = false
      ∨ c.config_.control_mode ≠ CONTROL_MODE_VELOCITY_CONTROL) :
    (update env c has_output).ctrl.config_.anticogging.cogging_map
      = c.config_.anticogging.cogging_map ∧
    (update env c has_output).ctrl.anticogging_correction_pwr_
      = c.anticogging_correction_pwr_ := by
  have key : Kept c (update env c has_output).ctrl := by
    rcases update_map_cases env c has_output with K | ⟨c1, ap, h1, K1, hc, K⟩
    · exact K
    · have hidle : calibrated env c1 = c1 := by
        apply calibrated_idle
        rintro ⟨hc1, hm1⟩
        rcases h with h | h
        · rw [K1.anticogging_eq, h] at hc1
          cases hc1
        · rcases inputs_control_mode h1 with e | e
          · rw [e] at hm1
            exact h hm1
          · rw [e] at hm1
            exact absurd hm1 (by decide)
      rw [hidle] at K
      exact K1.chain K
  exact ⟨congrArg Anticogging.cogging_map key.anticogging_eq, key.pwr_eq⟩

theorem ctrl_calib_bounded : MapBounded ctrl_calib.config_.anticogging := by
  intro i hi
  have hi' : i < 4 := hi
  interval_cases i <;> norm_num [ctrl_calib, ctrl0]

/-- C13 (witness).  Calibration in velocity control with `max_torque = 1` and
the map `[1, 1, 1, -1]`: the tick would add `1` to bin `0`; the bins are within
`±1` on return (bin `0` is clamped back to `1`). -/
theorem update_map_bounded_witness :
    MapBounded ctrl_calib.config_.anticogging ∧
    MapBounded (update env0 ctrl_calib true).ctrl.config_.anticogging ∧
    (update env0 ctrl_calib true).ctrl.config_.anticogging.cogging_map = [1, 1, 1, -1] := by
  refine ⟨ctrl_calib_bounded, update_map_bounded env0 ctrl_calib true ctrl_calib_bounded, ?_⟩
  norm_num [update, update_cascade, update_front, update_inputs, update_fold_input,
    update_dispatch, update_calibration, anticogging_calibration, update_position,
    update_vel_limit, update_overspeed, update_gains,
    update_anticogging, update_velocity, update_current_limit, update_integrator, torque_limit,
    vel_estimate_src, vel_estimate_valid, pos_estimate_linear, pos_estimate_valid, src_encoder,
    to_size_t, clamp, fmodf_pos_zero,
    INPUT_MODE_INACTIVE, INPUT_MODE_PASSTHROUGH, CONTROL_MODE_VELOCITY_CONTROL,
    CONTROL_MODE_POSITION_CONTROL, CONTROL_MODE_TORQUE_CONTROL, Motor.MOTOR_TYPE_ACIM,
    ctrl_calib, ctrl0, env0, enc0]

/-- C16 (witness).  Calibration requested in position control: the tick leaves
the map `[1, 1, 1, -1]` and the reported power `0` as they were. -/
theorem update_map_unchanged_witness :
    (update env0 { ctrl_calib with config_.control_mode := CONTROL_MODE_POSITION_CONTROL }
      true).ctrl.config_.anticogging.cogging_map = [1, 1, 1, -1] ∧
    (update env0 { ctrl_calib with config_.control_mode := CONTROL_MODE_POSITION_CONTROL }
      true).ctrl.anticogging_correction_pwr_ = 0 :=
  update_map_unchanged env0
    { ctrl_calib with config_.control_mode := CONTROL_MODE_POSITION_CONTROL } true
    (Or.inr (by decide))

/-! ## `anticogging_remove_bias` -/

theorem foldl_sum (f : Nat → ℚ) (n : Nat) :
    (List.range n).foldl (fun s i => s + f i) 0 = ∑ i in Finset.range n, f i := by
  induction n with
  | zero => simp
  | succ n ih =>
    rw [List.range_succ, List.foldl_append, ih, Finset.sum_range_succ]
    rfl

theorem foldl_sub (mean : ℚ) (m : List ℚ) (n : Nat) :
    ((List.range n).foldl (fun m i => m.set i (m.getD i 0 - mean)) m).length = m.length ∧
    ∀ i, ((List.range n).foldl (fun m i => m.set i (m.getD i 0 - mean)) m).getD i 0
      = if i < n ∧ i < m.length then m.getD i 0 - mean else m.getD i 0 := by
  induction n with
  | zero => simp
  | succ n ih =>
    rw [List.range_succ, List.foldl_append]
    obtain ⟨ihl, ihe⟩ := ih
    constructor
    · simp only [List.foldl_cons, List.foldl_nil, List.length_set]
      exact ihl
    · intro i
      simp only [List.foldl_cons, List.foldl_nil]
      rw [getD_set, ihl, ihe n, ihe i]
      by_cases h1 : n = i
      · subst h1
        by_cases h2 : n < m.length
        · simp [h2]
        · simp [h2]
      · have h3 : (i < n + 1) ↔ (i < n) := by omega
        simp [h1, h3]

theorem ext_getD (l1 l2 : List ℚ) (hl : l1.length = l2.length)
    (h : ∀ i, l1.getD i 0 = l2.getD i 0) : l1 = l2 := by
  apply List.ext_getElem hl
  intro n h1 h2
  have := h n
  rw [List.getD_eq_getElem _ _ h1, List.getD_eq_getElem _ _ h2] at this
  exact this

/-- What `anticogging_remove_bias` does: the bins that exist below
`cogging_map_size` lose the mean, nothing else changes. -/
theorem remove_bias_map (c : Controller) :
    (anticogging_remove_bias c).config_.anticogging.cogging_map.length
      = c.config_.anticogging.cogging_map.length ∧
    (∀ i, (anticogging_remove_bias c).config_.anticogging.cogging_map.getD i 0 =
      if i < c.config_.anticogging.cogging_map_size
          ∧ i < c.config_.anticogging.cogging_map.length then
        c.config_.anticogging.cogging_map.getD i 0 - map_mean c.config_.anticogging
      else c.config_.anticogging.cogging_map.getD i 0) ∧
    (anticogging_remove_bias c).config_.anticogging.cogging_map_size
      = c.config_.anticogging.cogging_map_size ∧
    (anticogging_remove_bias c).config_.anticogging.anticogging_max_torque
      = c.config_.anticogging.anticogging_max_torque := by
  unfold anticogging_remove_bias map_mean map_sum
  dsimp only
  rw [foldl_sum]
  exact ⟨(foldl_sub _ _ _).1, (foldl_sub _ _ _).2, rfl, rfl⟩

/-- The mean of a bounded map is within the bound. -/
theorem map_mean_bounded (a : Anticogging) (hN : 0 < a.cogging_map_size) (hb : MapBounded a) :
    -a.anticogging_max_torque ≤ map_mean a ∧ map_mean a ≤ a.anticogging_max_torque := by
  have hN' : (0 : ℚ) < (a.cogging_map_size : ℚ) := by exact_mod_cast hN
  have h1 : map_sum a ≤ (a.cogging_map_size : ℚ) * a.anticogging_max_torque := by
    unfold map_sum
    have := Finset.sum_le_sum (fun i hi => (hb i (Finset.mem_range.mp hi)).2)
    rw [Finset.sum_const, Finset.card_range, nsmul_eq_mul] at this
    exact this
  have h2 : (a.cogging_map_size : ℚ) * (-a.anticogging_max_torque) ≤ map_sum a := by
    unfold map_sum
    have := Finset.sum_le_sum (fun i hi => (hb i (Finset.mem_range.mp hi)).1)
    rw [Finset.sum_const, Finset.card_range, nsmul_eq_mul] at this
    exact this
  unfold map_mean
  constructor
  · rw [le_div_iff₀ hN']
    linarith
  · rw [div_le_iff₀ hN']
    linarith

/-- C14 (counterexample).  With `max_torque = 1` the map `[1, 1, 1, -1]` is
within bounds; its mean is `1/2`, and `anticogging_remove_bias` turns it into
`[1/2, 1/2, 1/2, -3/2]`, whose last bin is below `-1`. -/
theorem remove_bias_leaves_bound :
    MapBounded ctrl_calib.config_.anticogging ∧
    (anticogging_remove_bias ctrl_calib).config_.anticogging.cogging_map
      = [1 / 2, 1 / 2, 1 / 2, -3 / 2] ∧
    (anticogging_remove_bias ctrl_calib).config_.anticogging.anticogging_max_torque = 1 ∧
    ¬ MapBounded (anticogging_remove_bias ctrl_calib).config_.anticogging := by
  have hm : (anticogging_remove_bias ctrl_calib).config_.anticogging.cogging_map
      = [1 / 2, 1 / 2, 1 / 2, -3 / 2] := by
    norm_num [anticogging_remove_bias, List.range_succ, ctrl_calib, ctrl0]
  refine ⟨ctrl_calib_bounded, hm, rfl, ?_⟩
  intro hb
  have h := (hb 3 (by decide)).1
  rw [hm] at h
  have e : (anticogging_remove_bias ctrl_calib).config_.anticogging.anticogging_max_torque
      = 1 := rfl
  rw [e] at h
  norm_num at h

/-- C14 (amended).  `anticogging_remove_bias` keeps the cogging map within twice
the bound: for every map whose bins all lie in `[-max_torque, +max_torque]`
before the call, every bin lies in `[-2·max_torque, +2·max_torque]` after it
(each bin has lost the mean, which itself lies within `±max_torque`). -/
theorem remove_bias_bound (c : Controller) (i : Nat)
    (hb : MapBounded c.config_.anticogging)
    (hi : i < c.config_.anticogging.cogging_map_size) :
    -(2 * c.config_.anticogging.anticogging_max_torque)
      ≤ (anticogging_remove_bias c).config_.anticogging.cogging_map.getD i 0 ∧
    (anticogging_remove_bias c).config_.anticogging.cogging_map.getD i 0
      ≤ 2 * c.config_.anticogging.anticogging_max_torque := by
  obtain ⟨-, he, -, -⟩ := remove_bias_map c
  have hm := map_mean_bounded _ (Nat.lt_of_le_of_lt (Nat.zero_le i) hi) hb
  have hbi := hb i hi
  rw [he i]
  split_ifs
  · constructor <;> linarith
  · constructor <;> linarith

/-- C14 (witness).  The last bin of `[1, 1, 1, -1]` ends at `-3/2`, within `±2`. -/
theorem remove_bias_bound_witness :
    -(2 * (1 : ℚ))
      ≤ (anticogging_remove_bias ctrl_calib).config_.anticogging.cogging_map.getD 3 0 ∧
    (anticogging_remove_bias ctrl_calib).config_.anticogging.cogging_map.getD 3 0
      ≤ 2 * (1 : ℚ) :=
  remove_bias_bound ctrl_calib 3 ctrl_calib_bounded (by decide)

/-- C15.  For every map of size `N > 0`, in exact arithmetic: after
`anticogging_remove_bias` each bin is its old value minus the arithmetic mean of
the old map, the sum of the map is `0`, and a second call leaves the controller
as the first call left it. -/
theorem remove_bias_zero_mean (c : Controller)
    (hN : 0 < c.config_.anticogging.cogging_map_size)
    (hlen : c.config_.anticogging.cogging_map_size
      ≤ c.config_.anticogging.cogging_map.length) :
    (∀ i, i < c.config_.anticogging.cogging_map_size →
      (anticogging_remove_bias c).config_.anticogging.cogging_map.getD i 0
        = c.config_.anticogging.cogging_map.getD i 0 - map_mean c.config_.anticogging) ∧
    map_sum (anticogging_remove_bias c).config_.anticogging = 0 ∧
    anticogging_remove_bias (anticogging_remove_bias c) = anticogging_remove_bias c := by
  obtain ⟨hl, he, hs, -⟩ := remove_bias_map c
  have hN' : ((c.config_.anticogging.cogging_map_size : ℕ) : ℚ) ≠ 0 := by
    exact_mod_cast hN.ne'
  have h1 : ∀ i, i < c.config_.anticogging.cogging_map_size →
      (anticogging_remove_bias c).config_.anticogging.cogging_map.getD i 0
        = c.config_.anticogging.cogging_map.getD i 0 - map_mean c.config_.anticogging := by
    intro i hi
    rw [he i, if_pos ⟨hi, lt_of_lt_of_le hi hlen⟩]
  have h2 : map_sum (anticogging_remove_bias c).config_.anticogging = 0 := by
    unfold map_sum
    rw [hs, Finset.sum_congr rfl (fun i hi => h1 i (Finset.mem_range.mp hi)),
      Finset.sum_sub_distrib, Finset.sum_const, Finset.card_range, nsmul_eq_mul]
    unfold map_mean map_sum
    rw [mul_div_cancel₀ _ hN', sub_self]
  refine ⟨h1, h2, ?_⟩
  obtain ⟨hl', he', -, -⟩ := remove_bias_map (anticogging_remove_bias c)
  have hmean : map_mean (anticogging_remove_bias c).config_.anticogging = 0 := by
    unfold map_mean
    rw [h2, zero_div]
  have hmap : (anticogging_remove_bias (anticogging_remove_bias c)).config_.anticogging.cogging_map
      = (anticogging_remove_bias c).config_.anticogging.cogging_map := by
    apply ext_getD _ _ hl'
    intro i
    rw [he' i, hmean, sub_zero, ite_self]
  calc anticogging_remove_bias (anticogging_remove_bias c)
      = { anticogging_remove_bias c with config_.anticogging.cogging_map := (anticogging_remove_bias (anticogging_remove_bias c)).config_.anticogging.cogging_map } := rfl
    _ = anticogging_remove_bias c := by rw [hmap]

/-- C15 (witness).  The map `[1, 1, 1, -1]` of size `4`: after the call the sum
is `0`, and a second call changes nothing. -/
theorem remove_bias_zero_mean_witness :
    map_sum (anticogging_remove_bias ctrl_calib).config_.anticogging = 0 ∧
    anticogging_remove_bias (anticogging_remove_bias ctrl_calib)
      = anticogging_remove_bias ctrl_calib :=
  (remove_bias_zero_mean ctrl_calib (by decide) (by decide)).2

/-! ## The anticogging feed-forward -/

/-- The feed-forward of lines 301-314 is the lookup at the linear position
estimate, in every input mode. -/
theorem anticogging_ok_active {env : Env} {c : Controller} {t : ℚ}
    (ha : c.config_.anticogging.calib_anticogging = true
      ∨ c.config_.anticogging.anticogging_enabled = true)
    (h : update_anticogging env c = .ok t) :
    ∃ pos_linear, pos_estimate_linear env c = some pos_linear ∧
      t = c.torque_setpoint_ + cogmap_lookup c.config_.anticogging pos_linear := by
  unfold update_anticogging at h
  dsimp only at h
  rw [if_pos ha] at h
  split at h
  · exact absurd h (raise_ne_ok _ _ _)
  · rename_i pl hpl
    injection h with h
    exact ⟨pl, hpl, h.symm⟩

theorem fmodf_pos_quarter : fmodf_pos (1 / 4) 1 = 1 / 4 := by
  unfold fmodf_pos
  have h : ⌊((1 : ℚ) / 4) / 1⌋ = 0 := by
    rw [Int.floor_eq_iff]
    norm_num
  rw [h]
  norm_num

theorem to_size_t_zero : to_size_t 0 = 0 := by
  simp [to_size_t]

theorem to_size_t_one : to_size_t 1 = 1 := by
  simp [to_size_t]

/-- C17 (the code at the failing input).  Trajectory mode with anticogging
enabled, map `[0, 1, 0, 0]`, position setpoint `1/4` from the planner and a
linear position estimate of `0`.  Input shaping assigns the local
`anticogging_pos = 1/4`; the lookup at `1/4` is `map[1] = 1`, the lookup at the
estimate `0` is `map[0] = 0`; the tick stores the torque `0`. -/
theorem update_anticogging_ignores_setpoint :
    update_inputs env_traj ctrl_cog = .ok (ctrl_cog_shaped, some (1 / 4)) ∧
    pos_estimate_linear env_traj ctrl_cog = some 0 ∧
    cogmap_lookup ctrl_cog.config_.anticogging (1 / 4) = 1 ∧
    cogmap_lookup ctrl_cog.config_.anticogging 0 = 0 ∧
    (update env_traj ctrl_cog true).ret = true ∧
    (update env_traj ctrl_cog true).ctrl.pos_setpoint_ = 1 / 4 ∧
    (update env_traj ctrl_cog true).out = some 0 := by
  refine ⟨?_, ?_, ?_, ?_, ?_, ?_, ?_⟩
  · norm_num [update_inputs, update_fold_input, update_dispatch, update_trap_traj,
      INPUT_MODE_INACTIVE, INPUT_MODE_PASSTHROUGH, INPUT_MODE_VEL_RAMP, INPUT_MODE_TORQUE_RAMP,
      INPUT_MODE_POS_FILTER, INPUT_MODE_MIRROR, INPUT_MODE_TRAP_TRAJ,
      ctrl_cog_shaped, ctrl_cog, ctrl0, env_traj, env0]
  · simp [pos_estimate_linear, pos_estimate_valid, src_encoder, env_traj, env0, enc0, ctrl_cog,
      ctrl0]
  · norm_num [cogmap_lookup, fmodf_pos_quarter, to_size_t_one, ctrl_cog, ctrl0]
  · norm_num [cogmap_lookup, fmodf_pos_zero, to_size_t_zero, ctrl_cog, ctrl0]
  · norm_num [update, update_cascade, update_front, update_inputs, update_fold_input,
      update_dispatch, update_trap_traj, update_calibration, update_position,
      update_vel_limit, update_overspeed, update_gains,
      update_anticogging, update_velocity, update_current_limit, update_integrator,
      torque_limit, pos_estimate_linear, pos_estimate_valid, src_encoder,
      INPUT_MODE_INACTIVE, INPUT_MODE_PASSTHROUGH, INPUT_MODE_VEL_RAMP, INPUT_MODE_TORQUE_RAMP,
      INPUT_MODE_POS_FILTER, INPUT_MODE_MIRROR, INPUT_MODE_TRAP_TRAJ,
      CONTROL_MODE_VELOCITY_CONTROL, CONTROL_MODE_POSITION_CONTROL,
      CONTROL_MODE_TORQUE_CONTROL, Motor.MOTOR_TYPE_ACIM,
      ctrl_cog, ctrl0, env_traj, env0, enc0]
  · norm_num [update, update_cascade, update_front, update_inputs, update_fold_input,
      update_dispatch, update_trap_traj, update_calibration, update_position,
      update_vel_limit, update_overspeed, update_gains,
      update_anticogging, update_velocity, update_current_limit, update_integrator,
      torque_limit, pos_estimate_linear, pos_estimate_valid, src_encoder,
      INPUT_MODE_INACTIVE, INPUT_MODE_PASSTHROUGH, INPUT_MODE_VEL_RAMP, INPUT_MODE_TORQUE_RAMP,
      INPUT_MODE_POS_FILTER, INPUT_MODE_MIRROR, INPUT_MODE_TRAP_TRAJ,
      CONTROL_MODE_VELOCITY_CONTROL, CONTROL_MODE_POSITION_CONTROL,
      CONTROL_MODE_TORQUE_CONTROL, Motor.MOTOR_TYPE_ACIM,
      ctrl_cog, ctrl0, env_traj, env0, enc0]
  · norm_num [update, update_cascade, update_front, update_inputs, update_fold_input,
      update_dispatch, update_trap_traj, update_calibration, update_position,
      update_vel_limit, update_overspeed, update_gains,
      update_anticogging, update_velocity, update_current_limit, update_integrator,
      torque_limit, pos_estimate_linear, pos_estimate_valid, src_encoder,
      fmodf_pos_zero, to_size_t_zero,
      INPUT_MODE_INACTIVE, INPUT_MODE_PASSTHROUGH, INPUT_MODE_VEL_RAMP, INPUT_MODE_TORQUE_RAMP,
      INPUT_MODE_POS_FILTER, INPUT_MODE_MIRROR, INPUT_MODE_TRAP_TRAJ,
      CONTROL_MODE_VELOCITY_CONTROL, CONTROL_MODE_POSITION_CONTROL,
      CONTROL_MODE_TORQUE_CONTROL, Motor.MOTOR_TYPE_ACIM,
      ctrl_cog, ctrl0, env_traj, env0, enc0]

/-! ## Commands -/

/-- C18.  `select_encoder(n)` returns `true` exactly when `n < AXIS_COUNT`.  In
that case it binds the estimate sources to the encoder of axis `n` (position,
velocity and validity are then read from that encoder), sets no error, and a
second call with the same `n` gives the same result.  Otherwise it returns
`false`, ORs `INVALID_LOAD_ENCODER` into `error_` and `ERROR_CONTROLLER_FAILED`
into the axis error, and leaves the binding as it was. -/
theorem select_encoder_binding (env : Env) (c : Controller) (n : Nat) :
    ((select_encoder env c n).1 = true ↔ n < env.AXIS_COUNT) ∧
    (n < env.AXIS_COUNT →
      (select_encoder env c n).2 = { c with encoder_src_ := some n } ∧
      (∃ e, env.axes.get? n = some e ∧
        src_encoder env (select_encoder env c n).2 = some e ∧
        pos_estimate_valid env (select_encoder env c n).2 = e.pos_estimate_valid_ ∧
        vel_estimate_valid env (select_encoder env c n).2 = e.vel_estimate_valid_ ∧
        pos_estimate_linear env (select_encoder env c n).2
          = (if e.pos_estimate_valid_ then some e.pos_estimate_ else none) ∧
        pos_estimate_circular env (select_encoder env c n).2
          = (if e.pos_estimate_valid_ then some e.pos_circular_ else none) ∧
        vel_estimate_src env (select_encoder env c n).2
          = (if e.vel_estimate_valid_ then some e.vel_estimate_ else none)) ∧
      (select_encoder env c n).2.error_ = c.error_ ∧
      (select_encoder env c n).2.axis_.error_ = c.axis_.error_ ∧
      select_encoder env (select_encoder env c n).2 n = select_encoder env c n) ∧
    (¬ n < env.AXIS_COUNT →
      (select_encoder env c n).1 = false ∧
      (select_encoder env c n).2.error_ = c.error_ ||| ERROR_INVALID_LOAD_ENCODER ∧
      (select_encoder env c n).2.axis_.error_
        = c.axis_.error_ ||| Axis.ERROR_CONTROLLER_FAILED ∧
      (select_encoder env c n).2.encoder_src_ = c.encoder_src_) := by
  refine ⟨?_, ?_, ?_⟩
  · unfold select_encoder
    split_ifs with h
    · exact ⟨fun _ => h, fun _ => rfl⟩
    · constructor
      · intro h'; cases h'
      · intro h'; exact absurd h' h
  · intro h
    have hs : select_encoder env c n = (true, { c with encoder_src_ := some n }) := by
      unfold select_encoder
      rw [if_pos h]
    have hs2 : select_encoder env { c with encoder_src_ := some n } n
        = (true, { c with encoder_src_ := some n }) := by
      unfold select_encoder
      rw [if_pos h]
    rw [hs]
    refine ⟨rfl, ?_, rfl, rfl, hs2⟩
    cases he : env.axes.get? n with
    | none =>
      rw [List.get?_eq_none] at he
      exact absurd h (not_lt.mpr he)
    | some e =>
      have h1 : src_encoder env { c with encoder_src_ := some n } = some e := by
        unfold src_encoder
        exact he
      refine ⟨e, rfl, h1, ?_, ?_, ?_, ?_, ?_⟩
      · unfold pos_estimate_valid; rw [h1]
      · unfold vel_estimate_valid; rw [h1]
      · unfold pos_estimate_linear pos_estimate_valid; rw [h1]; rfl
      · unfold pos_estimate_circular pos_estimate_valid; rw [h1]; rfl
      · unfold vel_estimate_src vel_estimate_valid; rw [h1]; rfl
  · intro h
    unfold select_encoder
    rw [if_neg h]
    exact ⟨rfl, rfl, rfl, rfl⟩

/-- C18 (witness).  With two axes, `select_encoder(1)` succeeds and binds to
encoder `1`; `select_encoder(2)` fails and latches `INVALID_LOAD_ENCODER`. -/
theorem select_encoder_binding_witness :
    (select_encoder env0 ctrl0 1).1 = true ∧
    (select_encoder env0 ctrl0 1).2.encoder_src_ = some 1 ∧
    (select_encoder env0 ctrl0 2).1 = false ∧
    (select_encoder env0 ctrl0 2).2.error_ = ERROR_INVALID_LOAD_ENCODER ∧
    (select_encoder env0 ctrl0 2).2.encoder_src_ = some 0 := by
  obtain ⟨a1, a2, -⟩ := select_encoder_binding env0 ctrl0 1
  obtain ⟨-, -, b3⟩ := select_encoder_binding env0 ctrl0 2
  have h1 : 1 < env0.AXIS_COUNT := by decide
  have h2 : ¬ 2 < env0.AXIS_COUNT := by decide
  refine ⟨a1.mpr h1, ?_, (b3 h2).1, (b3 h2).2.1, (b3 h2).2.2.2⟩
  rw [(a2 h1).1]

/-- C19.  `start_anticogging_calibration` sets `calib_anticogging` when the axis
error is `ERROR_NONE` and otherwise leaves the flag as it was, so that from a
cleared flag the flag is set afterwards iff the axis had no error;
`stop_anticogging_calibration` always leaves the flag false; both write nothing
but that flag, so the cogging map, the controller error and the setpoints are
unchanged. -/
theorem calibration_start_stop (c : Controller) :
    ((start_anticogging_calibration c).config_.anticogging.calib_anticogging =
      (if c.axis_.error_ = Axis.ERROR_NONE then true
       else c.config_.anticogging.calib_anticogging)) ∧
    (c.config_.anticogging.calib_anticogging = false →
      ((start_anticogging_calibration c).config_.anticogging.calib_anticogging = true ↔
        c.axis_.error_ = Axis.ERROR_NONE)) ∧
    (stop_anticogging_calibration c).config_.anticogging.calib_anticogging = false ∧
    start_anticogging_calibration c = { c with config_.anticogging.calib_anticogging := (start_anticogging_calibration c).config_.anticogging.calib_anticogging } ∧
    stop_anticogging_calibration c = { c with config_.anticogging.calib_anticogging := false } ∧
    ((start_anticogging_calibration c).config_.anticogging.cogging_map
        = c.config_.anticogging.cogging_map ∧
      (start_anticogging_calibration c).error_ = c.error_ ∧
      (start_anticogging_calibration c).pos_setpoint_ = c.pos_setpoint_ ∧
      (start_anticogging_calibration c).vel_setpoint_ = c.vel_setpoint_ ∧
      (start_anticogging_calibration c).torque_setpoint_ = c.torque_setpoint_) ∧
    ((stop_anticogging_calibration c).config_.anticogging.cogging_map
        = c.config_.anticogging.cogging_map ∧
      (stop_anticogging_calibration c).error_ = c.error_ ∧
      (stop_anticogging_calibration c).pos_setpoint_ = c.pos_setpoint_ ∧
      (stop_anticogging_calibration c).vel_setpoint_ = c.vel_setpoint_ ∧
      (stop_anticogging_calibration c).torque_setpoint_ = c.torque_setpoint_) := by
  have hstop : stop_anticogging_calibration c
      = { c with config_.anticogging.calib_anticogging := false } := rfl
  by_cases h : c.axis_.error_ = Axis.ERROR_NONE
  · have hs : start_anticogging_calibration c
        = { c with config_.anticogging.calib_anticogging := true } := by
      unfold start_anticogging_calibration
      rw [if_pos h]
    rw [hs, hstop, if_pos h]
    exact ⟨rfl, fun _ => ⟨fun _ => h, fun _ => rfl⟩, rfl, rfl, rfl,
      ⟨rfl, rfl, rfl, rfl, rfl⟩, ⟨rfl, rfl, rfl, rfl, rfl⟩⟩
  · have hs : start_anticogging_calibration c = c := by
      unfold start_anticogging_calibration
      rw [if_neg h]
    rw [hs, hstop, if_neg h]
    refine ⟨rfl, fun hc => ⟨fun h' => ?_, fun h' => absurd h' h⟩, rfl, rfl, rfl,
      ⟨rfl, rfl, rfl, rfl, rfl⟩, ⟨rfl, rfl, rfl, rfl, rfl⟩⟩
    rw [hc] at h'
    cases h'

/-- C19 (witness).  On an axis without error the flag is set by `start` and
cleared by `stop`; on an axis with an error `start` leaves it cleared. -/
theorem calibration_start_stop_witness :
    (start_anticogging_calibration ctrl0).config_.anticogging.calib_anticogging = true ∧
    (stop_anticogging_calibration
      (start_anticogging_calibration ctrl0)).config_.anticogging.calib_anticogging = false ∧
    (start_anticogging_calibration
      (ctrl0.set_error ERROR_OVERSPEED)).config_.anticogging.calib_anticogging = false := by
  refine ⟨?_, (calibration_start_stop _).2.2.1, ?_⟩
  · rw [(calibration_start_stop ctrl0).1]
    rfl
  · rw [(calibration_start_stop _).1]
    rfl

/-- C20 (counterexample).  `apply_config` with `circular_setpoint_range = 0`
reports success and leaves `error_` at `ERROR_NONE`: the bit
`INVALID_CIRCULAR_RANGE` is not set. -/
theorem apply_config_accepts_zero_range :
    ctrl_zero_range.config_.circular_setpoint_range ≤ 0 ∧
    (apply_config env0 ctrl_zero_range).1 = true ∧
    (apply_config env0 ctrl_zero_range).2.error_ = ERROR_NONE ∧
    (apply_config env0 ctrl_zero_range).2.error_ &&& ERROR_INVALID_CIRCULAR_RANGE = 0 := by
  refine ⟨?_, rfl, rfl, rfl⟩
  norm_num [ctrl_zero_range, ctrl0]

/-- C20 (amended).  `apply_config` reports success for every configuration,
whatever `circular_setpoint_range` is; it refreshes the input-filter gains
(`ki = 2·min(input_filter_bandwidth, 0.25·f_ctrl)`, `kp = 0.25·ki²`) and writes
nothing else, so `error_` and the axis error are unchanged and
`INVALID_CIRCULAR_RANGE` is not raised. -/
theorem apply_config_always_succeeds (env : Env) (c : Controller) :
    (apply_config env c).1 = true ∧
    (apply_config env c).2.error_ = c.error_ ∧
    (apply_config env c).2.axis_.error_ = c.axis_.error_ ∧
    (apply_config env c).2.input_filter_ki_
      = 2 * min c.config_.input_filter_bandwidth (0.25 * env.current_meas_hz) ∧
    (apply_config env c).2.input_filter_kp_
      = 0.25 * ((apply_config env c).2.input_filter_ki_
          * (apply_config env c).2.input_filter_ki_) ∧
    (apply_config env c).2 = { c with input_filter_ki_ := (apply_config env c).2.input_filter_ki_, input_filter_kp_ := (apply_config env c).2.input_filter_kp_ } :=
  ⟨rfl, rfl, rfl, rfl, rfl, rfl⟩

/-! ## The input-mode dispatch -/

/-- When the `switch` of lines 143-218 fails, and with which error. -/
theorem dispatch_error_iff (env : Env) (c : Controller) :
    (update_dispatch env c
        = .error (ERROR_INVALID_INPUT_MODE, c.set_error ERROR_INVALID_INPUT_MODE) ↔
      ¬ input_mode_known c.config_.input_mode) ∧
    (update_dispatch env c
        = .error (ERROR_INVALID_MIRROR_AXIS, c.set_error ERROR_INVALID_MIRROR_AXIS) ↔
      (c.config_.input_mode = INPUT_MODE_MIRROR ∧ env.AXIS_COUNT ≤ c.config_.axis_to_mirror)) := by
  unfold update_dispatch input_mode_known
  split_ifs with h0 h1 h2 h6 h3 h7 h5
  · simp [h0, INPUT_MODE_INACTIVE, INPUT_MODE_MIRROR]
  · simp [h1, INPUT_MODE_PASSTHROUGH, INPUT_MODE_MIRROR]
  · simp [h2, INPUT_MODE_VEL_RAMP, INPUT_MODE_MIRROR]
  · simp [h6, INPUT_MODE_TORQUE_RAMP, INPUT_MODE_MIRROR]
  · simp [h3, INPUT_MODE_POS_FILTER, INPUT_MODE_MIRROR]
  · cases he : env.axes.get? c.config_.axis_to_mirror with
    | none =>
      have hle : env.AXIS_COUNT ≤ c.config_.axis_to_mirror := List.get?_eq_none.mp he
      simp [h7, hle, raise, ERROR_INVALID_INPUT_MODE, ERROR_INVALID_MIRROR_AXIS]
    | some e =>
      have hlt : ¬ env.AXIS_COUNT ≤ c.config_.axis_to_mirror := by
        intro hle
        rw [List.get?_eq_none.mpr hle] at he
        cases he
      simp [h7, hlt]
  · simp [h5, INPUT_MODE_TRAP_TRAJ, INPUT_MODE_MIRROR]
  · simp [h0, h1, h2, h6, h3, h7, h5, raise, ERROR_INVALID_INPUT_MODE,
      ERROR_INVALID_MIRROR_AXIS]

/-- A tick whose input shaping fails: what `update` returns. -/
theorem update_of_inputs_error {env : Env} {c : Controller} {E : Nat} (has_output : Bool)
    (h1 : update_inputs env c = .error (E, (update_fold_input c).set_error E)) :
    update env c has_output
      = { ret := false, ctrl := (update_fold_input c).set_error E, out := none } :=
  update_of_error has_output (update_cascade_error_front (front_of_inputs_error h1))

/-- C21.  The input-mode dispatch of `update` fails if and only if `input_mode`
is not one of `INACTIVE`, `PASSTHROUGH`, `VEL_RAMP`, `TORQUE_RAMP`, `POS_FILTER`,
`MIRROR`, `TRAP_TRAJ` (the unassigned value `4` is such a mode), or `input_mode`
is `MIRROR` and `axis_to_mirror ≥ AXIS_COUNT`.  In the first case
`INVALID_INPUT_MODE`, in the second `INVALID_MIRROR_AXIS` is OR-ed into `error_`.
In both cases `update` returns `false`, stores no torque, and `pos_setpoint`,
`vel_setpoint`, `torque_setpoint`, `vel_integrator_torque` and the cogging map are
unchanged. -/
theorem update_dispatch_failure (env : Env) (c : Controller) (has_output : Bool) :
    ((∃ x, update_inputs env c = .error x) ↔
      (¬ input_mode_known c.config_.input_mode ∨
        (c.config_.input_mode = INPUT_MODE_MIRROR
          ∧ env.AXIS_COUNT ≤ c.config_.axis_to_mirror))) ∧
    ¬ input_mode_known 4 ∧
    (¬ input_mode_known c.config_.input_mode →
      (update env c has_output).ctrl.error_ = c.error_ ||| ERROR_INVALID_INPUT_MODE) ∧
    ((c.config_.input_mode = INPUT_MODE_MIRROR ∧ env.AXIS_COUNT ≤ c.config_.axis_to_mirror) →
      (update env c has_output).ctrl.error_ = c.error_ ||| ERROR_INVALID_MIRROR_AXIS) ∧
    (∀ x, update_inputs env c = .error x →
      (update env c has_output).ret = false ∧
      (update env c has_output).out = none ∧
      (update env c has_output).ctrl.pos_setpoint_ = c.pos_setpoint_ ∧
      (update env c has_output).ctrl.vel_setpoint_ = c.vel_setpoint_ ∧
      (update env c has_output).ctrl.torque_setpoint_ = c.torque_setpoint_ ∧
      (update env c has_output).ctrl.vel_integrator_torque_ = c.vel_integrator_torque_ ∧
      (update env c has_output).ctrl.config_.anticogging.cogging_map
        = c.config_.anticogging.cogging_map) := by
  have hcfg := fold_input_config c
  obtain ⟨d1, d2⟩ := dispatch_error_iff env (update_fold_input c)
  rw [hcfg] at d1 d2
  have hfe := fold_input_eq c
  have herr : ∀ E, ((update_fold_input c).set_error E).error_ = c.error_ ||| E := by
    intro E
    show (update_fold_input c).error_ ||| E = c.error_ ||| E
    rw [hfe]
  refine ⟨⟨?_, ?_⟩, ?_, ?_, ?_, ?_⟩
  · rintro ⟨x, hx⟩
    obtain ⟨E, hE, hxe⟩ := inputs_error hx
    subst hxe
    rcases hE with hE | hE
    · subst hE
      exact Or.inr (d2.mp hx)
    · subst hE
      exact Or.inl (d1.mp hx)
  · rintro (h | h)
    · exact ⟨_, d1.mpr h⟩
    · exact ⟨_, d2.mpr h⟩
  · unfold input_mode_known
    decide
  · intro h
    rw [update_of_inputs_error has_output (d1.mpr h)]
    exact herr _
  · intro h
    rw [update_of_inputs_error has_output (d2.mpr h)]
    exact herr _
  · intro x hx
    obtain ⟨E, hE, hxe⟩ := inputs_error hx
    subst hxe
    rw [update_of_inputs_error has_output hx]
    refine ⟨rfl, rfl, ?_, ?_, ?_, ?_, ?_⟩
    · show (update_fold_input c).pos_setpoint_ = _
      rw [hfe]
    · show (update_fold_input c).vel_setpoint_ = _
      rw [hfe]
    · show (update_fold_input c).torque_setpoint_ = _
      rw [hfe]
    · show (update_fold_input c).vel_integrator_torque_ = _
      rw [hfe]
    · show (update_fold_input c).config_.anticogging.cogging_map = _
      rw [hfe]

/-- C21 (witness).  `MIRROR` with `axis_to_mirror = 2` on two axes: the tick
fails with `INVALID_MIRROR_AXIS` and leaves the setpoints `(1, 2, 3)`, the
integrator `5` and the map where they were; the unassigned input mode `4` on top
of a latched `OVERSPEED` gives `error_ = 1 ||| 2 = 3`. -/
theorem update_dispatch_failure_witness :
    (update env0 ctrl_mirror true).ret = false ∧
    (update env0 ctrl_mirror true).ctrl.error_ = ERROR_INVALID_MIRROR_AXIS ∧
    (update env0 ctrl_mirror true).ctrl.pos_setpoint_ = 1 ∧
    (update env0 ctrl_mirror true).ctrl.vel_setpoint_ = 2 ∧
    (update env0 ctrl_mirror true).ctrl.torque_setpoint_ = 3 ∧
    (update env0 ctrl_mirror true).ctrl.vel_integrator_torque_ = 5 ∧
    (update env0 ctrl_mirror true).ctrl.config_.anticogging.cogging_map = [1, 1, 1, -1] ∧
    (update env0 ctrl_bad_mode true).ctrl.error_ = 3 := by
  obtain ⟨a1, -, -, a4, a5⟩ := update_dispatch_failure env0 ctrl_mirror true
  obtain ⟨-, b2, b3, -, -⟩ := update_dispatch_failure env0 ctrl_bad_mode true
  have hm : ctrl_mirror.config_.input_mode = INPUT_MODE_MIRROR
      ∧ env0.AXIS_COUNT ≤ ctrl_mirror.config_.axis_to_mirror := ⟨rfl, by decide⟩
  obtain ⟨x, hx⟩ := a1.mpr (Or.inr hm)
  obtain ⟨c1, c2, c3, c4, c5, c6, c7⟩ := a5 x hx
  exact ⟨c1, a4 hm, c3, c4, c5, c6, c7, b3 b2⟩

theorem clamp_abs_le (x m : ℚ) (hm : 0 ≤ m) : |clamp x (-m) m| ≤ m := by
  have h := clamp_mem x (by linarith : -m ≤ m)
  exact abs_le.mpr h

/-- C23.  In the velocity-ramp mode, for every state and every `dt`, input
shaping succeeds and sets `vel_setpoint' = vel_setpoint + step` with
`step = clamp(input_vel - vel_setpoint, -|dt·vel_ramp_rate|, +|dt·vel_ramp_rate|)`,
so that `|vel_setpoint' - vel_setpoint| ≤ |dt·vel_ramp_rate|` and
`vel_setpoint' = input_vel` whenever `|input_vel - vel_setpoint| ≤ |dt·vel_ramp_rate|`;
it sets `torque_setpoint' = (step / dt)·inertia` and leaves `pos_setpoint`
unchanged. -/
theorem update_vel_ramp_step (env : Env) (c : Controller)
    (hin : c.config_.input_mode = INPUT_MODE_VEL_RAMP) :
    ∃ c1, update_inputs env c = .ok (c1, none) ∧
      c1.vel_setpoint_ = c.vel_setpoint_ +
        clamp (c.input_vel_ - c.vel_setpoint_)
          (-|env.current_meas_period * c.config_.vel_ramp_rate|)
          |env.current_meas_period * c.config_.vel_ramp_rate| ∧
      |c1.vel_setpoint_ - c.vel_setpoint_|
        ≤ |env.current_meas_period * c.config_.vel_ramp_rate| ∧
      (|c.input_vel_ - c.vel_setpoint_| ≤ |env.current_meas_period * c.config_.vel_ramp_rate| →
        c1.vel_setpoint_ = c.input_vel_) ∧
      c1.torque_setpoint_ =
        (clamp (c.input_vel_ - c.vel_setpoint_)
          (-|env.current_meas_period * c.config_.vel_ramp_rate|)
          |env.current_meas_period * c.config_.vel_ramp_rate| / env.current_meas_period)
        * c.config_.inertia ∧
      c1.pos_setpoint_ = c.pos_setpoint_ := by
  have hcfg := fold_input_config c
  have hfe := fold_input_eq c
  have hin' : (update_fold_input c).config_.input_mode = INPUT_MODE_VEL_RAMP := by
    rw [hcfg]; exact hin
  have hv : (update_fold_input c).input_vel_ = c.input_vel_ := by rw [hfe]
  have hs : (update_fold_input c).vel_setpoint_ = c.vel_setpoint_ := by rw [hfe]
  have hp : (update_fold_input c).pos_setpoint_ = c.pos_setpoint_ := by rw [hfe]
  have h1 : ∀ r, update_inputs env c = r → ∃ c1, r = .ok (c1, none) ∧
      c1.pos_setpoint_ = (update_fold_input c).pos_setpoint_ ∧
      c1.vel_setpoint_ = (update_fold_input c).vel_setpoint_ +
        clamp ((update_fold_input c).input_vel_ - (update_fold_input c).vel_setpoint_)
          (-|env.current_meas_period * (update_fold_input c).config_.vel_ramp_rate|)
          |env.current_meas_period * (update_fold_input c).config_.vel_ramp_rate| ∧
      c1.torque_setpoint_ =
        (clamp ((update_fold_input c).input_vel_ - (update_fold_input c).vel_setpoint_)
          (-|env.current_meas_period * (update_fold_input c).config_.vel_ramp_rate|)
          |env.current_meas_period * (update_fold_input c).config_.vel_ramp_rate|
            / env.current_meas_period) * (update_fold_input c).config_.inertia := by
    intro r hr
    unfold update_inputs update_dispatch at hr
    rw [if_neg (by rw [hin']; decide), if_neg (by rw [hin']; decide), if_pos hin'] at hr
    subst hr
    exact ⟨_, rfl, rfl, rfl, rfl⟩
  obtain ⟨c1, h1, e0, e1, e2⟩ := h1 _ rfl
  rw [hcfg, hv, hs] at e1 e2
  refine ⟨c1, h1, e1, ?_, ?_, e2, e0.trans hp⟩
  · rw [e1, add_sub_cancel_left]
    exact clamp_abs_le _ _ (abs_nonneg _)
  · intro h
    rw [e1, clamp_of_abs_le h]
    ring

/-- C23 (witness).  From rest towards `input_vel = 1` with `vel_ramp_rate = 1`
and `dt = 1/8000`: the step is `1/8000`. -/
theorem update_vel_ramp_step_witness :
    ∃ c1, update_inputs env0 ctrl_ramp = .ok (c1, none) ∧ c1.vel_setpoint_ = 1 / 8000 := by
  obtain ⟨c1, h1, h2, -⟩ := update_vel_ramp_step env0 ctrl_ramp rfl
  refine ⟨c1, h1, ?_⟩
  rw [h2]
  have habs : |(1 : ℚ) / 8000| = 1 / 8000 := abs_of_pos (by norm_num)
  norm_num [clamp, habs, ctrl_ramp, ctrl0, env0]

/-- C24.  Take a controller on which `apply_config` has just run, in the
position-filter mode.  With `ki = 2·min(input_filter_bandwidth, 0.25·f_ctrl)`,
`kp = 0.25·ki²` and `input_pos` as the dispatch sees it (folded on line 137 when
`circular_setpoints` is set), input shaping computes
`accel = kp·(input_pos - pos_setpoint) + ki·(input_vel - vel_setpoint)`,
`vel_setpoint' = vel_setpoint + dt·accel`,
`pos_setpoint' = pos_setpoint + dt·vel_setpoint'` and
`torque_setpoint' = inertia·accel`.  In particular, from
`pos_setpoint = input_pos` and `vel_setpoint = input_vel = 0` the step leaves
`pos_setpoint` and `vel_setpoint` where they are, with `torque_setpoint' = 0`. -/
theorem update_pos_filter_step (env : Env) (c0 : Controller)
    (hin : c0.config_.input_mode = INPUT_MODE_POS_FILTER) :
    ∃ c1 ki kp accel input_pos,
      update_inputs env (apply_config env c0).2 = .ok (c1, none) ∧
      ki = 2 * min c0.config_.input_filter_bandwidth (0.25 * env.current_meas_hz) ∧
      kp = 0.25 * (ki * ki) ∧
      input_pos = (if c0.config_.circular_setpoints then
          fmodf_pos c0.input_pos_ c0.config_.circular_setpoint_range
        else c0.input_pos_) ∧
      accel = kp * (input_pos - c0.pos_setpoint_) + ki * (c0.input_vel_ - c0.vel_setpoint_) ∧
      c1.vel_setpoint_ = c0.vel_setpoint_ + env.current_meas_period * accel ∧
      c1.pos_setpoint_ = c0.pos_setpoint_ + env.current_meas_period * c1.vel_setpoint_ ∧
      c1.torque_setpoint_ = c0.config_.inertia * accel ∧
      (c0.pos_setpoint_ = input_pos → c0.vel_setpoint_ = 0 → c0.input_vel_ = 0 →
        c1.pos_setpoint_ = c0.pos_setpoint_ ∧ c1.vel_setpoint_ = c0.vel_setpoint_ ∧
        c1.torque_setpoint_ = 0) := by
  have hc : (apply_config env c0).2 = update_filter_gains env c0 := rfl
  have hcfg0 : (update_filter_gains env c0).config_ = c0.config_ := rfl
  have hcfg := fold_input_config (update_filter_gains env c0)
  have hfe := fold_input_eq (update_filter_gains env c0)
  have hin' : (update_fold_input (update_filter_gains env c0)).config_.input_mode
      = INPUT_MODE_POS_FILTER := by
    rw [hcfg, hcfg0]; exact hin
  have hip : (update_fold_input (update_filter_gains env c0)).input_pos_ =
      (if c0.config_.circular_setpoints then
          fmodf_pos c0.input_pos_ c0.config_.circular_setpoint_range
        else c0.input_pos_) := by
    rw [fold_input_pos]
    rfl
  have hiv : (update_fold_input (update_filter_gains env c0)).input_vel_ = c0.input_vel_ := by
    rw [hfe]; rfl
  have hps : (update_fold_input (update_filter_gains env c0)).pos_setpoint_
      = c0.pos_setpoint_ := by
    rw [hfe]; rfl
  have hvs : (update_fold_input (update_filter_gains env c0)).vel_setpoint_
      = c0.vel_setpoint_ := by
    rw [hfe]; rfl
  have hki : (update_fold_input (update_filter_gains env c0)).input_filter_ki_
      = 2 * min c0.config_.input_filter_bandwidth (0.25 * env.current_meas_hz) := by
    rw [hfe]; rfl
  have hkp : (update_fold_input (update_filter_gains env c0)).input_filter_kp_
      = 0.25 * ((2 * min c0.config_.input_filter_bandwidth (0.25 * env.current_meas_hz))
          * (2 * min c0.config_.input_filter_bandwidth (0.25 * env.current_meas_hz))) := by
    rw [hfe]; rfl
  have hine : (update_fold_input (update_filter_gains env c0)).config_.inertia
      = c0.config_.inertia := by
    rw [hcfg, hcfg0]
  have h1 : ∀ r, update_inputs env (update_filter_gains env c0) = r → ∃ c1, r = .ok (c1, none) ∧
      c1.vel_setpoint_ = (update_fold_input (update_filter_gains env c0)).vel_setpoint_
        + env.current_meas_period *
          ((update_fold_input (update_filter_gains env c0)).input_filter_kp_
              * ((update_fold_input (update_filter_gains env c0)).input_pos_
                - (update_fold_input (update_filter_gains env c0)).pos_setpoint_)
            + (update_fold_input (update_filter_gains env c0)).input_filter_ki_
              * ((update_fold_input (update_filter_gains env c0)).input_vel_
                - (update_fold_input (update_filter_gains env c0)).vel_setpoint_)) ∧
      c1.pos_setpoint_ = (update_fold_input (update_filter_gains env c0)).pos_setpoint_
        + env.current_meas_period * c1.vel_setpoint_ ∧
      c1.torque_setpoint_ =
          ((update_fold_input (update_filter_gains env c0)).input_filter_kp_
              * ((update_fold_input (update_filter_gains env c0)).input_pos_
                - (update_fold_input (update_filter_gains env c0)).pos_setpoint_)
            + (update_fold_input (update_filter_gains env c0)).input_filter_ki_
              * ((update_fold_input (update_filter_gains env c0)).input_vel_
                - (update_fold_input (update_filter_gains env c0)).vel_setpoint_))
          * (update_fold_input (update_filter_gains env c0)).config_.inertia := by
    intro r hr
    unfold update_inputs update_dispatch at hr
    rw [if_neg (by rw [hin']; decide), if_neg (by rw [hin']; decide),
      if_neg (by rw [hin']; decide), if_neg (by rw [hin']; decide), if_pos hin'] at hr
    subst hr
    exact ⟨_, rfl, rfl, rfl, rfl⟩
  obtain ⟨c1, h1, e1, e2, e3⟩ := h1 _ rfl
  rw [hip, hiv, hps, hvs, hki, hkp] at e1
  rw [hps] at e2
  rw [hip, hiv, hps, hvs, hki, hkp, hine] at e3
  refine ⟨c1, _, _, _, _, hc ▸ h1, rfl, rfl, rfl, rfl, e1, e2, ?_, ?_⟩
  · rw [e3]; ring
  · intro a1 a2 a3
    have hv : c1.vel_setpoint_ = c0.vel_setpoint_ := by
      rw [e1, ← a1, a2, a3]; ring
    refine ⟨?_, hv, ?_⟩
    · rw [e2, hv, a2]; ring
    · rw [e3, ← a1, a2, a3]; ring

/-- C24 (witness).  Bandwidth `2` at `f_ctrl = 8000` gives `ki = 4`, `kp = 4`;
from rest towards `input_pos = 1` with `inertia = 1` the step gives
`accel = 4`, `vel_setpoint' = 4/8000`, `pos_setpoint' = (1/8000)·(4/8000)` and
`torque_setpoint' = 4`. -/
theorem update_pos_filter_step_witness :
    ∃ c1, update_inputs env0 (apply_config env0 ctrl_filter).2 = .ok (c1, none) ∧
      c1.vel_setpoint_ = 1 / 2000 ∧ c1.pos_setpoint_ = 1 / 16000000 ∧
      c1.torque_setpoint_ = 4 := by
  obtain ⟨c1, ki, kp, accel, ip, h1, hki, hkp, hip, hacc, hv, hp, ht, -⟩ :=
    update_pos_filter_step env0 ctrl_filter rfl
  have eki : ki = 4 := by
    rw [hki]
    norm_num [min_def, ctrl_filter, ctrl0, env0]
  have ekp : kp = 4 := by
    rw [hkp, eki]
    norm_num
  have eip : ip = 1 := by
    rw [hip]
    norm_num [ctrl_filter, ctrl0]
  have eacc : accel = 4 := by
    rw [hacc, ekp, eki, eip]
    norm_num [ctrl_filter, ctrl0]
  have ev : c1.vel_setpoint_ = 1 / 2000 := by
    rw [hv, eacc]
    norm_num [ctrl_filter, ctrl0, env0]
  refine ⟨c1, h1, ev, ?_, ?_⟩
  · rw [hp, ev]
    norm_num [ctrl_filter, ctrl0, env0]
  · rw [ht, eacc]
    norm_num [ctrl_filter, ctrl0]

/-! ## Gain scheduling and the current-mode velocity limit -/

/-- With the position loop active, the multiplier that position control hands on
is `gain_schedule` of the position error of that tick. -/
theorem position_gain {env : Env} {c c3 : Controller} {vel_des g : ℚ}
    (hm : CONTROL_MODE_POSITION_CONTROL ≤ c.config_.control_mode)
    (h : update_position env c = .ok (c3, vel_des, g)) :
    ∃ pos_err, update_pos_err env c = .ok (c3, pos_err) ∧
      vel_des = c.vel_setpoint_ + c3.config_.pos_gain * pos_err ∧
      g = gain_schedule c3 pos_err := by
  unfold update_position at h
  dsimp only at h
  rw [if_pos hm] at h
  split at h
  · cases h
  · rename_i c' pos_err heq
    injection h with h
    injection h with h1 h2
    injection h2 with h2 h3
    subst h1
    exact ⟨pos_err, heq, h2.symm, h3.symm⟩

/-- C25 (counterexample).  Position control on the target with gain scheduling
enabled and `gain_scheduling_width = 0`: the position error is `0`, the test
`|pos_err| ≤ gain_scheduling_width` of line 258 passes, and line 259 divides `0`
by `0`. -/
theorem gain_schedule_divides_by_zero :
    CONTROL_MODE_POSITION_CONTROL ≤ ctrl_gs_zero.config_.control_mode ∧
    update_pos_err env0 ctrl_gs_zero = .ok (ctrl_gs_zero, 0) ∧
    (ctrl_gs_zero.config_.enable_gain_scheduling = true
      ∧ |(0 : ℚ)| ≤ ctrl_gs_zero.config_.gain_scheduling_width) ∧
    ctrl_gs_zero.config_.gain_scheduling_width = 0 ∧
    gain_schedule_checked ctrl_gs_zero 0 = none := by
  refine ⟨by decide, ?_, ⟨rfl, ?_⟩, rfl, ?_⟩
  · norm_num [update_pos_err, pos_estimate_linear, pos_estimate_valid, src_encoder,
      ctrl_gs_zero, ctrl0, env0, enc0]
  · norm_num [ctrl_gs_zero, ctrl0]
  · norm_num [gain_schedule_checked, ctrl_gs_zero, ctrl0]

/-- The multiplier of lines 256-260 away from the division of zero by zero. -/
theorem gain_schedule_spec (c : Controller) (pos_err : ℚ)
    (h : ¬ (c.config_.enable_gain_scheduling = true ∧ c.config_.gain_scheduling_width = 0
      ∧ pos_err = 0)) :
    gain_schedule_checked c pos_err = some (gain_schedule c pos_err) ∧
    0 ≤ gain_schedule c pos_err ∧ gain_schedule c pos_err ≤ 1 ∧
    ((c.config_.enable_gain_scheduling = true ∧ |pos_err| ≤ c.config_.gain_scheduling_width) →
      gain_schedule c pos_err = |pos_err| / c.config_.gain_scheduling_width) ∧
    (¬ (c.config_.enable_gain_scheduling = true
        ∧ |pos_err| ≤ c.config_.gain_scheduling_width) →
      gain_schedule c pos_err = 1) := by
  unfold gain_schedule_checked gain_schedule
  dsimp only
  by_cases hg : c.config_.enable_gain_scheduling = true
      ∧ |pos_err| ≤ c.config_.gain_scheduling_width
  · have hw : c.config_.gain_scheduling_width ≠ 0 := by
      intro hw
      apply h
      refine ⟨hg.1, hw, ?_⟩
      have := hg.2
      rw [hw] at this
      exact abs_nonpos_iff.mp this
    have hpos : 0 < c.config_.gain_scheduling_width :=
      lt_of_le_of_ne (le_trans (abs_nonneg _) hg.2) (Ne.symm hw)
    rw [if_pos hg, if_neg hw, if_pos hg]
    refine ⟨rfl, div_nonneg (abs_nonneg _) hpos.le, ?_, fun _ => rfl, fun h' => absurd hg h'⟩
    rw [div_le_one hpos]
    exact hg.2
  · rw [if_neg hg, if_neg hg]
    exact ⟨rfl, zero_le_one, le_refl _, fun h' => absurd h' hg, fun _ => rfl⟩

/-- C25 (amended).  On every tick that gets through position control with
`control_mode ≥ POSITION`, for every position error `pos_err` of that tick and
every `gain_scheduling_width`, except when gain scheduling is enabled,
`gain_scheduling_width = 0` and `pos_err = 0`: the multiplier `g` handed to the
velocity loop is computed without a division by zero and lies in `[0, 1]`; it is
`|pos_err| / gain_scheduling_width` when gain scheduling is enabled and
`|pos_err| ≤ gain_scheduling_width`, and `1` otherwise. -/
theorem update_gain_schedule (env : Env) (c c3 : Controller) (vel_des g : ℚ)
    (h3 : update_front env c = .ok (c3, vel_des, g))
    (hm : CONTROL_MODE_POSITION_CONTROL ≤ c3.config_.control_mode) :
    ∃ c2 pos_err, update_pos_err env c2 = .ok (c3, pos_err) ∧
      (¬ (c3.config_.enable_gain_scheduling = true ∧ c3.config_.gain_scheduling_width = 0
          ∧ pos_err = 0) →
        gain_schedule_checked c3 pos_err = some g ∧ 0 ≤ g ∧ g ≤ 1 ∧
        ((c3.config_.enable_gain_scheduling = true
            ∧ |pos_err| ≤ c3.config_.gain_scheduling_width) →
          g = |pos_err| / c3.config_.gain_scheduling_width) ∧
        (¬ (c3.config_.enable_gain_scheduling = true
            ∧ |pos_err| ≤ c3.config_.gain_scheduling_width) → g = 1)) := by
  obtain ⟨c1, ap, c2, h1, h2, h3'⟩ := update_front_ok h3
  have e3 := position_ok h3'
  have hcfg : c3.config_ = c2.config_ := by rw [e3]
  rw [hcfg] at hm
  obtain ⟨pos_err, hpe, -, hg⟩ := position_gain hm h3'
  refine ⟨c2, pos_err, hpe, ?_⟩
  intro hne
  rw [hg]
  exact gain_schedule_spec c3 pos_err hne

theorem update_gain_schedule_witness :
    update_front env0 ctrl_gs_on = .ok (ctrl_gs_on, 5, 1 / 2) ∧
    ∃ c2 pos_err, update_pos_err env0 c2 = .ok (ctrl_gs_on, pos_err) ∧
      (¬ (ctrl_gs_on.config_.enable_gain_scheduling = true
          ∧ ctrl_gs_on.config_.gain_scheduling_width = 0 ∧ pos_err = 0) →
        gain_schedule_checked ctrl_gs_on pos_err = some (1 / 2) ∧ 0 ≤ (1 / 2 : ℚ)
        ∧ (1 / 2 : ℚ) ≤ 1 ∧
        ((ctrl_gs_on.config_.enable_gain_scheduling = true
            ∧ |pos_err| ≤ ctrl_gs_on.config_.gain_scheduling_width) →
          (1 / 2 : ℚ) = |pos_err| / ctrl_gs_on.config_.gain_scheduling_width) ∧
        (¬ (ctrl_gs_on.config_.enable_gain_scheduling = true
            ∧ |pos_err| ≤ ctrl_gs_on.config_.gain_scheduling_width) → (1 / 2 : ℚ) = 1)) := by
  have h3 : update_front env0 ctrl_gs_on = .ok (ctrl_gs_on, 5, 1 / 2) := by
    have habs : |(5 : ℚ)| = 5 := abs_of_pos (by norm_num)
    norm_num [update_front, update_inputs, update_fold_input, update_dispatch,
      update_calibration, update_position, update_pos_err, gain_schedule,
      pos_estimate_linear, pos_estimate_valid, src_encoder,
      INPUT_MODE_INACTIVE, CONTROL_MODE_POSITION_CONTROL, habs,
      ctrl_gs_on, ctrl_gs_zero, ctrl0, env0, enc0]
  exact ⟨h3, update_gain_schedule env0 ctrl_gs_on ctrl_gs_on 5 (1 / 2) h3 (by decide)⟩

/-- The truncation of a non-negative value is its floor. -/
theorem to_size_t_cast {x : ℚ} (hx : 0 ≤ x) : ((to_size_t x : ℕ) : ℚ) = ((⌊x⌋ : ℤ) : ℚ) := by
  unfold to_size_t
  have h : 0 ≤ ⌊x⌋ := Int.floor_nonneg.mpr hx
  have h2 : ((Int.toNat ⌊x⌋ : ℕ) : ℤ) = ⌊x⌋ := Int.toNat_of_nonneg h
  have h3 : ((Int.toNat ⌊x⌋ : ℕ) : ℚ) = (((Int.toNat ⌊x⌋ : ℕ) : ℤ) : ℚ) :=
    (Int.cast_natCast _).symm
  rw [h3, h2]

/-- The indices of lines 93-96 and 306-309: for a map of `N > 0` bins both lie
below `N` and the interpolation fraction lies in `[0, 1)`. -/
theorem index_bounds (pos : ℚ) {N : Nat} (hN : 0 < N) :
    to_size_t (fmodf_pos pos 1 * (N : ℚ)) < N ∧
    (to_size_t (fmodf_pos pos 1 * (N : ℚ)) + 1) % N < N ∧
    0 ≤ fmodf_pos pos 1 * (N : ℚ) - (to_size_t (fmodf_pos pos 1 * (N : ℚ)) : ℚ) ∧
    fmodf_pos pos 1 * (N : ℚ) - (to_size_t (fmodf_pos pos 1 * (N : ℚ)) : ℚ) < 1 := by
  obtain ⟨h0, h1⟩ := fmodf_pos_mem pos (zero_lt_one : (0 : ℚ) < 1)
  have hNq : (0 : ℚ) < (N : ℚ) := by exact_mod_cast hN
  have hx0 : 0 ≤ fmodf_pos pos 1 * (N : ℚ) := mul_nonneg h0 hNq.le
  have hx1 : fmodf_pos pos 1 * (N : ℚ) < (N : ℚ) := by
    have := mul_lt_mul_of_pos_right h1 hNq
    rwa [one_mul] at this
  have hc := to_size_t_cast hx0
  have hf1 : ((⌊fmodf_pos pos 1 * (N : ℚ)⌋ : ℤ) : ℚ) ≤ fmodf_pos pos 1 * (N : ℚ) :=
    Int.floor_le _
  have hf2 : fmodf_pos pos 1 * (N : ℚ) < ((⌊fmodf_pos pos 1 * (N : ℚ)⌋ : ℤ) : ℚ) + 1 :=
    Int.lt_floor_add_one _
  refine ⟨?_, Nat.mod_lt _ hN, ?_, ?_⟩
  · have : ((to_size_t (fmodf_pos pos 1 * (N : ℚ)) : ℕ) : ℚ) < (N : ℚ) := by
      rw [hc]
      exact lt_of_le_of_lt hf1 hx1
    exact_mod_cast this
  · rw [hc]
    linarith
  · rw [hc]
    linarith

/-- A convex combination of two values within `±m` is within `±m`. -/
theorem convex_abs_le {a b f m : ℚ} (hf0 : 0 ≤ f) (hf1 : f ≤ 1)
    (ha : -m ≤ a ∧ a ≤ m) (hb : -m ≤ b ∧ b ≤ m) :
    |(1 - f) * a + f * b| ≤ m := by
  have h1 : 0 ≤ 1 - f := by linarith
  have e1 := mul_le_mul_of_nonneg_left ha.1 h1
  have e2 := mul_le_mul_of_nonneg_left ha.2 h1
  have e3 := mul_le_mul_of_nonneg_left hb.1 hf0
  have e4 := mul_le_mul_of_nonneg_left hb.2 hf0
  rw [abs_le]
  constructor <;> linarith

/-- C27.  Whenever the feed-forward lookup of lines 301-314 runs (`calib_anticogging`
or `anticogging_enabled` set) on a map of `N > 0` bins and returns the torque
`t`, the linear position estimate `pos` is available and, with
`idx = (size_t)(fmodf_pos(pos, 1) * N)`, `idx1 = (idx + 1) % N` and
`frac = fmodf_pos(pos, 1) * N - idx`: `idx < N`, `idx1 < N`, `0 ≤ frac < 1`, the
feed-forward added to the torque setpoint is
`(1 - frac) * map[idx] + frac * map[idx1]`, and if every bin is within
`±anticogging_max_torque` then so is the feed-forward. -/
theorem update_lookup_bounds (env : Env) (c : Controller) (t : ℚ)
    (ha : c.config_.anticogging.calib_anticogging = true
      ∨ c.config_.anticogging.anticogging_enabled = true)
    (hN : 0 < c.config_.anticogging.cogging_map_size)
    (h : update_anticogging env c = .ok t) :
    ∃ pos idx idx1 frac, pos_estimate_linear env c = some pos ∧
      idx = to_size_t (fmodf_pos pos 1 * (c.config_.anticogging.cogging_map_size : ℚ)) ∧
      idx1 = (idx + 1) % c.config_.anticogging.cogging_map_size ∧
      frac = fmodf_pos pos 1 * (c.config_.anticogging.cogging_map_size : ℚ) - (idx : ℚ) ∧
      idx < c.config_.anticogging.cogging_map_size ∧
      idx1 < c.config_.anticogging.cogging_map_size ∧
      0 ≤ frac ∧ frac < 1 ∧
      t - c.torque_setpoint_ = (1 - frac) * c.config_.anticogging.cogging_map.getD idx 0
        + frac * c.config_.anticogging.cogging_map.getD idx1 0 ∧
      (MapBounded c.config_.anticogging →
        |t - c.torque_setpoint_| ≤ c.config_.anticogging.anticogging_max_torque) := by
  obtain ⟨pos, hpos, ht⟩ := anticogging_ok_active ha h
  obtain ⟨b1, b2, b3, b4⟩ := index_bounds pos hN
  have hff : t - c.torque_setpoint_ =
      (1 - (fmodf_pos pos 1 * (c.config_.anticogging.cogging_map_size : ℚ)
          - (to_size_t (fmodf_pos pos 1 * (c.config_.anticogging.cogging_map_size : ℚ)) : ℚ)))
        * c.config_.anticogging.cogging_map.getD
          (to_size_t (fmodf_pos pos 1 * (c.config_.anticogging.cogging_map_size : ℚ))) 0
      + (fmodf_pos pos 1 * (c.config_.anticogging.cogging_map_size : ℚ)
          - (to_size_t (fmodf_pos pos 1 * (c.config_.anticogging.cogging_map_size : ℚ)) : ℚ))
        * c.config_.anticogging.cogging_map.getD
          ((to_size_t (fmodf_pos pos 1 * (c.config_.anticogging.cogging_map_size : ℚ)) + 1)
            % c.config_.anticogging.cogging_map_size) 0 := by
    rw [ht]
    unfold cogmap_lookup
    dsimp only
    ring
  refine ⟨pos, _, _, _, hpos, rfl, rfl, rfl, b1, b2, b3, b4, hff, ?_⟩
  intro hb
  rw [hff]
  exact convex_abs_le b3 b4.le (hb _ b1) (hb _ b2)

theorem update_lookup_bounds_witness :
    update_anticogging env0 ctrl_calib = .ok 1 ∧
    MapBounded ctrl_calib.config_.anticogging ∧
    ∃ pos idx idx1 frac, pos_estimate_linear env0 ctrl_calib = some pos ∧
      idx = to_size_t (fmodf_pos pos 1
        * (ctrl_calib.config_.anticogging.cogging_map_size : ℚ)) ∧
      idx1 = (idx + 1) % ctrl_calib.config_.anticogging.cogging_map_size ∧
      frac = fmodf_pos pos 1 * (ctrl_calib.config_.anticogging.cogging_map_size : ℚ)
        - (idx : ℚ) ∧
      idx < ctrl_calib.config_.anticogging.cogging_map_size ∧
      idx1 < ctrl_calib.config_.anticogging.cogging_map_size ∧
      0 ≤ frac ∧ frac < 1 ∧
      1 - ctrl_calib.torque_setpoint_ =
        (1 - frac) * ctrl_calib.config_.anticogging.cogging_map.getD idx 0
        + frac * ctrl_calib.config_.anticogging.cogging_map.getD idx1 0 ∧
      (MapBounded ctrl_calib.config_.anticogging →
        |1 - ctrl_calib.torque_setpoint_|
          ≤ ctrl_calib.config_.anticogging.anticogging_max_torque) := by
  have h : update_anticogging env0 ctrl_calib = .ok 1 := by
    norm_num [update_anticogging, pos_estimate_linear, pos_estimate_valid, src_encoder,
      fmodf_pos_zero, to_size_t_zero, ctrl_calib, ctrl0, env0, enc0]
  exact ⟨h, ctrl_calib_bounded,
    update_lookup_bounds env0 ctrl_calib 1 (Or.inl rfl) (by decide) h⟩

/-! ## The calibration write -/

/-- The four writes of lines 101-108 on two distinct bins `a`, `b` of the map:
each of the two ends as its old value plus its share, clamped, and no other bin
changes. -/
theorem set_chain_values (m m1 m2 m3 m4 : List ℚ) (a b : Nat) (u v lo hi : ℚ)
    (h1 : m1 = m.set a (m.getD a 0 + u))
    (h2 : m2 = m1.set b (m1.getD b 0 + v))
    (h3 : m3 = m2.set a (clamp (m2.getD a 0) lo hi))
    (h4 : m4 = m3.set b (clamp (m3.getD b 0) lo hi)) :
    (a ≠ b → a < m.length → b < m.length →
      m4.getD a 0 = clamp (m.getD a 0 + u) lo hi ∧
      m4.getD b 0 = clamp (m.getD b 0 + v) lo hi) ∧
    (∀ j, j ≠ a → j ≠ b → m4.getD j 0 = m.getD j 0) := by
  have l1 : m1.length = m.length := by rw [h1, List.length_set]
  have l2 : m2.length = m.length := by rw [h2, List.length_set, l1]
  have l3 : m3.length = m.length := by rw [h3, List.length_set, l2]
  constructor
  · intro hab ha hb
    have e1a : m1.getD a 0 = m.getD a 0 + u := by
      rw [h1, getD_set, if_pos ⟨rfl, ha⟩]
    have e1b : m1.getD b 0 = m.getD b 0 := by
      rw [h1, getD_set, if_neg (fun h => hab h.1)]
    have e2a : m2.getD a 0 = m.getD a 0 + u := by
      rw [h2, getD_set, if_neg (fun h => hab h.1.symm), e1a]
    have e2b : m2.getD b 0 = m.getD b 0 + v := by
      rw [h2, getD_set, if_pos ⟨rfl, by rw [l1]; exact hb⟩, e1b]
    have e3a : m3.getD a 0 = clamp (m.getD a 0 + u) lo hi := by
      rw [h3, getD_set, if_pos ⟨rfl, by rw [l2]; exact ha⟩, e2a]
    have e3b : m3.getD b 0 = m.getD b 0 + v := by
      rw [h3, getD_set, if_neg (fun h => hab h.1), e2b]
    constructor
    · rw [h4, getD_set, if_neg (fun h => hab h.1.symm), e3a]
    · rw [h4, getD_set, if_pos ⟨rfl, by rw [l3]; exact hb⟩, e3b]
  · intro j hja hjb
    rw [h4, getD_set, if_neg (fun h => hjb h.1.symm), h3, getD_set,
      if_neg (fun h => hja h.1.symm), h2, getD_set, if_neg (fun h => hjb h.1.symm), h1,
      getD_set, if_neg (fun h => hja h.1.symm)]

/-- The bins after the calibration call of line 227 when its guard holds. -/
theorem calibrated_bins (env : Env) (c : Controller)
    (hc : c.config_.anticogging.calib_anticogging = true)
    (hm : c.config_.control_mode = CONTROL_MODE_VELOCITY_CONTROL)
    (i i1 : Nat) (f delta : ℚ)
    (hi : i = to_size_t (fmodf_pos c.axis_.encoder_.pos_estimate_ 1
      * (c.config_.anticogging.cogging_map_size : ℚ)))
    (hi1 : i1 = (i + 1) % c.config_.anticogging.cogging_map_size)
    (hf : f = fmodf_pos c.axis_.encoder_.pos_estimate_ 1
      * (c.config_.anticogging.cogging_map_size : ℚ) - (i : ℚ))
    (hd : delta = c.config_.anticogging.anticogging_integrator_gain
      * (c.vel_setpoint_ - c.axis_.encoder_.vel_estimate_) * env.current_meas_period) :
    (i ≠ i1 → i < c.config_.anticogging.cogging_map.length →
      i1 < c.config_.anticogging.cogging_map.length →
      (calibrated env c).config_.anticogging.cogging_map.getD i 0
        = clamp (c.config_.anticogging.cogging_map.getD i 0 + (1 - f) * delta)
            (-c.config_.anticogging.anticogging_max_torque)
            c.config_.anticogging.anticogging_max_torque ∧
      (calibrated env c).config_.anticogging.cogging_map.getD i1 0
        = clamp (c.config_.anticogging.cogging_map.getD i1 0 + f * delta)
            (-c.config_.anticogging.anticogging_max_torque)
            c.config_.anticogging.anticogging_max_torque) ∧
    (∀ j, j ≠ i → j ≠ i1 →
      (calibrated env c).config_.anticogging.cogging_map.getD j 0
        = c.config_.anticogging.cogging_map.getD j 0) := by
  subst hi1 hf hd
  subst hi
  unfold calibrated anticogging_calibration
  dsimp only
  rw [if_pos ⟨hc, hm⟩]
  dsimp only
  exact set_chain_values _ _ _ _ _ _ _ _ _ _ _ rfl rfl rfl rfl

/-- Once input shaping and the calibration stage have gone through, nothing
later in the tick writes the anticogging configuration or the reported power. -/
theorem update_kept_calibration {env : Env} {c c1 c2 : Controller} {ap : Option ℚ}
    (has_output : Bool)
    (h1 : update_inputs env c = .ok (c1, ap)) (h2 : update_calibration env c1 = .ok c2) :
    Kept c2 (update env c has_output).ctrl := by
  have hfront := front_of_calibration h1 h2
  cases h3 : update_position env c2 with
  | error x =>
    have hx := position_error h3
    subst hx
    rw [update_of_error has_output (update_cascade_error_front (hfront.trans h3))]
    exact kept_set_error _ _
  | ok r3 =>
    obtain ⟨c3, vel_des, g⟩ := r3
    have K3 := kept_position h3
    cases hk : update_cascade env c with
    | error x =>
      obtain ⟨E, -, hx⟩ := update_cascade_error_back (hfront.trans h3) hk
      subst hx
      rw [update_of_error has_output hk]
      exact K3.chain (kept_set_error _ _)
    | ok k =>
      obtain ⟨vd, _, _, h3', -⟩ := update_cascade_ok hk
      rw [hfront, h3] at h3'
      injection h3' with h3'
      injection h3' with ha hb
      rw [update_of_ok has_output hk]
      dsimp only
      rw [ha] at K3
      exact K3.chain (kept_integrator _ _ _)

/-- With `calib_anticogging` set and both own-encoder estimates valid, the
calibration stage makes the call of line 227. -/
theorem calibration_runs {env : Env} {c : Controller}
    (hc : c.config_.anticogging.calib_anticogging = true)
    (hpv : c.axis_.encoder_.pos_estimate_valid_ = true)
    (hvv : c.axis_.encoder_.vel_estimate_valid_ = true) :
    update_calibration env c = .ok (calibrated env c) := by
  unfold update_calibration
  rw [if_pos hc, if_neg (by rw [hpv, hvv]; decide)]
  rfl

/-- C22.  Take a tick whose input shaping goes through and leaves the controller
`c1` with `calib_anticogging` set, `control_mode = VELOCITY`, valid position and
velocity estimates of the own encoder and a map of `N > 0` bins.  With
`x = fmodf_pos(pos_estimate, 1) * N`, `i = (size_t)x`, `i1 = (i + 1) % N`,
`f = x - i` and `delta = anticogging_integrator_gain * (vel_setpoint -
vel_estimate) * dt`: `i < N`, `i1 < N`, and on return of `update` (however the
rest of the tick ends), if `i ≠ i1`, bin `i` holds
`clamp(map[i] + (1 - f) * delta, -max_torque, +max_torque)`, bin `i1` holds
`clamp(map[i1] + f * delta, -max_torque, +max_torque)`, and every other bin is
unchanged.  Here `map`, `N`, the gain and `max_torque` are those at entry (input
shaping does not write them). -/
theorem update_calibration_bins (env : Env) (c : Controller) (has_output : Bool)
    (c1 : Controller) (ap : Option ℚ)
    (h1 : update_inputs env c = .ok (c1, ap))
    (hc : c1.config_.anticogging.calib_anticogging = true)
    (hm : c1.config_.control_mode = CONTROL_MODE_VELOCITY_CONTROL)
    (hpv : c1.axis_.encoder_.pos_estimate_valid_ = true)
    (hvv : c1.axis_.encoder_.vel_estimate_valid_ = true)
    (hN : 0 < c.config_.anticogging.cogging_map_size)
    (hlen : c.config_.anticogging.cogging_map_size ≤ c.config_.anticogging.cogging_map.length) :
    ∃ i i1 f delta,
      i = to_size_t (fmodf_pos c1.axis_.encoder_.pos_estimate_ 1
        * (c.config_.anticogging.cogging_map_size : ℚ)) ∧
      i1 = (i + 1) % c.config_.anticogging.cogging_map_size ∧
      f = fmodf_pos c1.axis_.encoder_.pos_estimate_ 1
        * (c.config_.anticogging.cogging_map_size : ℚ) - (i : ℚ) ∧
      delta = c.config_.anticogging.anticogging_integrator_gain
        * (c1.vel_setpoint_ - c1.axis_.encoder_.vel_estimate_) * env.current_meas_period ∧
      i < c.config_.anticogging.cogging_map_size ∧
      i1 < c.config_.anticogging.cogging_map_size ∧
      0 ≤ f ∧ f < 1 ∧
      (i ≠ i1 →
        (update env c has_output).ctrl.config_.anticogging.cogging_map.getD i 0
          = clamp (c.config_.anticogging.cogging_map.getD i 0 + (1 - f) * delta)
              (-c.config_.anticogging.anticogging_max_torque)
              c.config_.anticogging.anticogging_max_torque ∧
        (update env c has_output).ctrl.config_.anticogging.cogging_map.getD i1 0
          = clamp (c.config_.anticogging.cogging_map.getD i1 0 + f * delta)
              (-c.config_.anticogging.anticogging_max_torque)
              c.config_.anticogging.anticogging_max_torque) ∧
      (∀ j, j ≠ i → j ≠ i1 →
        (update env c has_output).ctrl.config_.anticogging.cogging_map.getD j 0
          = c.config_.anticogging.cogging_map.getD j 0) := by
  have K1 := (kept_inputs h1).anticogging_eq
  have K := (update_kept_calibration has_output h1 (calibration_runs hc hpv hvv)).anticogging_eq
  rw [← K1] at hN hlen
  rw [K, ← K1]
  obtain ⟨b1, b2, b3, b4⟩ := index_bounds c1.axis_.encoder_.pos_estimate_ hN
  obtain ⟨e1, e2⟩ := calibrated_bins env c1 hc hm _ _ _ _ rfl rfl rfl rfl
  exact ⟨_, _, _, _, rfl, rfl, rfl, rfl, b1, b2, b3, b4,
    fun hne => e1 hne (lt_of_lt_of_le b1 hlen) (lt_of_lt_of_le b2 hlen), e2⟩

theorem getD_replicate_zero (n i : Nat) : (List.replicate n (0 : ℚ)).getD i 0 = 0 := by
  rw [List.getD_eq_getElem?_getD, List.getElem?_replicate]
  split_ifs <;> rfl

theorem index_s6 : to_size_t (fmodf_pos (513 / 2048) 1 * ((1024 : ℕ) : ℚ)) = 256 := by
  have h0 : fmodf_pos (513 / 2048) 1 = 513 / 2048 := by
    unfold fmodf_pos
    have h : ⌊((513 : ℚ) / 2048) / 1⌋ = 0 := by
      rw [Int.floor_eq_iff]
      norm_num
    rw [h]
    norm_num
  have h1 : ⌊((513 : ℚ) / 2048) * ((1024 : ℕ) : ℚ)⌋ = 256 := by
    rw [Int.floor_eq_iff]
    norm_num
  rw [h0]
  unfold to_size_t
  rw [h1]
  rfl

theorem update_calibration_bins_witness :
    (update env0 ctrl_s6 true).ctrl.config_.anticogging.cogging_map.getD 256 0 = 1 / 160000 ∧
    (update env0 ctrl_s6 true).ctrl.config_.anticogging.cogging_map.getD 257 0 = 1 / 160000 ∧
    (∀ j, j ≠ 256 → j ≠ 257 →
      (update env0 ctrl_s6 true).ctrl.config_.anticogging.cogging_map.getD j 0 = 0) := by
  have h1 : update_inputs env0 ctrl_s6 = .ok (ctrl_s6, none) := by
    unfold update_inputs update_fold_input
    rw [if_neg (by decide)]
    unfold update_dispatch
    rw [if_pos (show ctrl_s6.config_.input_mode = INPUT_MODE_INACTIVE from rfl)]
  have hmap : ctrl_s6.config_.anticogging.cogging_map = List.replicate 1024 0 := rfl
  obtain ⟨i, i1, f, delta, hi, hi1, hf, hd, -, -, -, -, e1, e2⟩ :=
    update_calibration_bins env0 ctrl_s6 true ctrl_s6 none h1 rfl rfl rfl rfl
      (by decide) (by rw [hmap, List.length_replicate]; exact le_refl _)
  have hN : ctrl_s6.config_.anticogging.cogging_map_size = 1024 := rfl
  have hpos : ctrl_s6.axis_.encoder_.pos_estimate_ = 513 / 2048 := rfl
  rw [hN, hpos] at hi hf
  rw [index_s6] at hi
  subst hi
  rw [hN] at hi1
  have hi1' : i1 = 257 := by rw [hi1]
  subst hi1'
  have hfm : fmodf_pos (513 / 2048) 1 = 513 / 2048 := by
    unfold fmodf_pos
    have h : ⌊((513 : ℚ) / 2048) / 1⌋ = 0 := by
      rw [Int.floor_eq_iff]
      norm_num
    rw [h]
    norm_num
  have hf' : f = 1 / 2 := by
    rw [hf, hfm]
    norm_num
  have hd' : delta = 1 / 80000 := by
    rw [hd]
    norm_num [ctrl_s6, ctrl0, env0, enc0]
  subst hf' hd'
  have e1' := e1 (by decide)
  rw [hmap, getD_replicate_zero, getD_replicate_zero] at e1'
  have hmx : ctrl_s6.config_.anticogging.anticogging_max_torque = 1 := rfl
  rw [hmx] at e1'
  have hcl : clamp ((0 : ℚ) + (1 - 1 / 2) * (1 / 80000)) (-1) 1 = 1 / 160000 := by
    norm_num [clamp]
  have hcl2 : clamp ((0 : ℚ) + 1 / 2 * (1 / 80000)) (-1) 1 = 1 / 160000 := by
    norm_num [clamp]
  rw [hcl, hcl2] at e1'
  refine ⟨e1'.1, e1'.2, ?_⟩
  intro j hj1 hj2
  rw [e2 j hj1 hj2, hmap, getD_replicate_zero]

end ODrive
